import Mathlib

/-!
MakeMyTrip booking automation: the `/scrape` handlers.

A shallow embedding of `src/newest.js` and `src/app1.js`.

The handlers are sequential `async` code that talks to a Selenium session.
Every call into the session (and every invocation of a caller supplied
callback) is an `Op`; whether it succeeds, and with which value, is decided by
a `World`, a function of everything that has been observed so far.  A
computation is a function from the world and the history to a result and the
extended history, so a thrown error keeps the history of what happened before
the throw, exactly as a rejected promise does.

Thrown values are `Error` objects (they have a `message`), as every failure
of selenium-webdriver and of `fs` is.  Query parameters are strings or absent
(`BookingInput` in the specification).
-/

namespace MakeMyTrip

/-! ## Data model -/

/-- A JavaScript `Error` object, identified by its `message`. -/
structure JsError where
  message : String
deriving DecidableEq, Repr

/-- Values a call into the session resolves to. Elements are identified by the
locator that found them, so calls that resolve to an element resolve to
`undefined` here. -/
inductive Val where
  | undefined
  | str (s : String)
  | strs (l : List String)
deriving DecidableEq, Repr

/-- The calls the handlers make into the outside world. -/
inductive Op where
  /-- The call `new Builder().forBrowser('chrome').setChromeOptions(o).build()`. -/
  | build
  /-- The call `driver.get(url)`. -/
  | get (url : String)
  /-- The call `driver.wait(until.elementLocated(By.css(css)), ms)`. -/
  | waitLocated (css : String) (ms : Nat)
  /-- The call `driver.wait(until.elementIsVisible(element), ms)`. -/
  | waitVisible (element : String) (ms : Nat)
  /-- The call `driver.wait(until.stalenessOf(element), ms)`. -/
  | waitStale (element : String) (ms : Nat)
  /-- The call `driver.findElement(by)`. -/
  | findElement (by_ : String)
  /-- The call `element.click()`. -/
  | click (element : String)
  /-- The call `element.sendKeys(text)`. -/
  | sendKeys (element : String) (text : String)
  /-- The call `driver.actions(..).move(\x7borigin: element\x7d).pause(500).click().perform()`. -/
  | actionsClick (element : String)
  /-- The call `driver.executeScript(script, ...args)`. -/
  | executeScript (script : String) (args : List String)
  /-- The call `driver.getAllWindowHandles()`. -/
  | getAllWindowHandles
  /-- The call `driver.getWindowHandle()`. -/
  | getWindowHandle
  /-- The call `driver.switchTo().window(handle)`. -/
  | switchToWindow (handle : String)
  /-- The call `driver.sleep(ms)`. -/
  | sleep (ms : Nat)
  /-- The call `driver.takeScreenshot()`. -/
  | takeScreenshot
  /-- The call `fs.writeFileSync(filename, image, 'base64')`. -/
  | writeFileSync (filename : String)
  /-- The call `driver.quit()`. -/
  | quit
  /-- An invocation of a callback supplied by the caller. -/
  | invoke (name : String)
deriving DecidableEq, Repr

/-- The three console streams the source writes to. -/
inductive Level where
  | log
  | warn
  | error
deriving DecidableEq, Repr

/-- What an observer of one request sees, in order. -/
inductive Event where
  /-- A call into the outside world was started. -/
  | op (o : Op)
  /-- A line on the console; `detail` is the error object printed after the text. -/
  | console (lvl : Level) (text : String) (detail : Option JsError)
  /-- The line `Retrying in $\x7bdelayMs / 1000\x7d seconds...` of `retryAction`; the
  quotient is a floating point number and is kept as its numerator. -/
  | retryNotice (delayMs : Nat)
  /-- The timer `setTimeout(resolve, delayMs)` of `retryAction` has elapsed. -/
  | timeout (delayMs : Nat)
deriving DecidableEq, Repr

/-- The outside world: the outcome of a call, given everything observed before it. -/
structure World where
  answer : List Event → Op → Except JsError Val

/-- An `async` computation: from the world and the history so far to its
outcome (resolved or rejected) and the history afterwards. -/
def M (α : Type) : Type := World → List Event → Except JsError α × List Event

/-- Sequencing of `await`: a rejection skips the continuation. -/
def M.bind {α β : Type} (m : M α) (f : α → M β) : M β := fun w t =>
  match m w t with
  | (.ok a, t1) => f a w t1
  | (.error e, t1) => (.error e, t1)

instance : Monad M where
  pure a := fun _ t => (.ok a, t)
  bind := M.bind

/-- The statement `throw e`. -/
def throwJs {α : Type} (e : JsError) : M α := fun _ t => (.error e, t)

/-- The statement `try body catch (error) handler`. -/
def tryCatchJs {α : Type} (body : M α) (handler : JsError → M α) : M α := fun w t =>
  match body w t with
  | (.ok a, t1) => (.ok a, t1)
  | (.error e, t1) => handler e w t1

/-- Start a call into the outside world and await it. -/
def perform (o : Op) : M Val := fun w t => (w.answer t o, t ++ [Event.op o])

/-- Record an event that cannot fail. -/
def emit (e : Event) : M Unit := fun _ t => (.ok (), t ++ [e])

/-- The call `console.log(text)`. -/
def consoleLog (text : String) : M Unit := emit (.console .log text none)

/-- The call `console.warn(text)`. -/
def consoleWarn (text : String) : M Unit := emit (.console .warn text none)

/-- The call `console.error(text)`. -/
def consoleError (text : String) : M Unit := emit (.console .error text none)

/-- The call `console.error(text, error)`. -/
def consoleErrorWith (text : String) (error : JsError) : M Unit :=
  emit (.console .error text (some error))

/-! ## `retryAction` (newest.js 45-58) -/

/-- The `for` loop of `retryAction`, from the given value of `attempt`.
The first argument bounds the number of loop iterations that are unfolded;
`retryAction` passes `retries.toNat`, which the loop never exceeds.
The result is `none` when the loop ends without `return` (the function then
resolves to `undefined`). -/
def retryLoop {α : Type} (action : M α) (retries : Int) (delayMs : Nat) :
    Nat → Int → M (Option α)
  | 0, _ => pure none
  | fuel + 1, attempt =>
    if attempt ≤ retries then
      tryCatchJs (do let r ← action; pure (some r)) (fun error => do
        consoleWarn s!"Attempt {attempt} failed: {error.message}"
        if attempt = retries then
          throwJs ⟨s!"All {retries} attempts failed."⟩
        else do
          emit (.retryNotice delayMs)
          emit (.timeout delayMs)
          retryLoop action retries delayMs fuel (attempt + 1))
    else pure none

/-- The function `retryAction(action, retries, delayMs)`. -/
def retryAction {α : Type} (action : M α) (retries : Int) (delayMs : Nat) : M (Option α) :=
  retryLoop action retries delayMs retries.toNat 1

/-- How often the call `o` was started in a history. -/
def invocations (o : Op) (t : List Event) : Nat := t.count (Event.op o)

/-! ## Request data and session helpers -/

/-- The query of a `/scrape` request: each parameter is a string or absent. -/
structure Query where
  firstName : Option String
  lastName : Option String
  email : Option String
  mobile : Option String
  panNumber : Option String
  upiId : Option String
deriving DecidableEq, Repr

/-- JavaScript truthiness of a query parameter: `undefined` and `""` are falsy. -/
def truthy : Option String → Bool
  | none => false
  | some s => s != ""

/-- The string a parameter holds (`""` stands in for an absent one; the handlers
only read required parameters after the validation has found them truthy). -/
def textOf (p : Option String) : String := p.getD ""

/-- What the handler sends: `res.status(status).send(body)`. -/
structure Response where
  status : Nat
  body : String
deriving DecidableEq, Repr

/-- The test `!firstName || !lastName || !email || !mobile || !panNumber`. -/
def missingRequired (q : Query) : Bool :=
  !truthy q.firstName || !truthy q.lastName || !truthy q.email || !truthy q.mobile ||
    !truthy q.panNumber

/-- The call `driver.wait(until.elementLocated(By.css(css)), ms)`; resolves to the element. -/
def waitLocated (css : String) (ms : Nat) : M String := do
  let _ ← perform (.waitLocated css ms)
  pure css

/-- The call `driver.findElement(by)`; resolves to the element. -/
def findElement (by_ : String) : M String := do
  let _ ← perform (.findElement by_)
  pure by_

/-- The call `driver.getAllWindowHandles()`. -/
def getAllWindowHandles : M (List String) := do
  let v ← perform .getAllWindowHandles
  match v with
  | .strs l => pure l
  | .str s => pure [s]
  | .undefined => pure []

/-- The call `driver.getWindowHandle()`. -/
def getWindowHandle : M String := do
  let v ← perform .getWindowHandle
  match v with
  | .str s => pure s
  | .strs l => pure (l.headD "")
  | .undefined => pure ""

/-- The tab selection of both handlers (newest.js 120-124, app1.js 67-71):
`detailTab` starts as the current handle and is replaced by `diff[0]` when
`newTabs` is longer than `oldTabs` and `diff` is not empty. -/
def detailTab (oldTabs newTabs : List String) (current : String) : String :=
  if newTabs.length > oldTabs.length then
    let diff := newTabs.filter (fun x => !oldTabs.contains x)
    if diff.length ≠ 0 then diff.headD current else current
  else current

/-- The helper `typeSlowly(element, text, delayMs, driver)` on the characters still to type. -/
def typeChars (element : String) (delayMs : Nat) : List Char → M Unit
  | [] => pure ()
  | char :: rest => do
    let _ ← perform (.sendKeys element (String.singleton char))
    let _ ← perform (.sleep delayMs)
    typeChars element delayMs rest

/-- The helper `typeSlowly(element, text, delayMs, driver)`. -/
def typeSlowly (element : String) (text : String) (delayMs : Nat) : M Unit :=
  typeChars element delayMs text.toList

/-- The helper `takeScreenshot(driver, filename)` (newest.js 32-36). -/
def takeScreenshot (filename : String) : M Unit := do
  let _ ← perform .takeScreenshot
  let _ ← perform (.writeFileSync filename)
  consoleLog s!"Screenshot saved as {filename}"

/-! ## The pay / skip loop of newest.js (286-377) -/

/-- The constant `MAX_ITERATIONS`. -/
def MAX_ITERATIONS : Nat := 10

/-- The locator of the final pay button. -/
def payButtonCss : String := ".prime__btn.paynow__btn"

/-- The locator of the OTP modal. -/
def otpModalCss : String := "section[data-cy=\"CommonModal_2\"]"

/-- The locator of the SKIP element of the modal. -/
def skipXPath : String := "//section[@data-cy='CommonModal_2']//span[normalize-space()='SKIP']"

/-- The action `clickVerifyPay` of the iteration `iterationLoop` (newest.js 299-323). -/
def clickVerifyPay (iterationLoop : Nat) : M Unit := do
  let finalPayBtn ← waitLocated payButtonCss 15000
  let _ ← perform (.waitVisible finalPayBtn 15000)
  let _ ← perform (.executeScript
    "arguments[0].scrollIntoView(\x7b behavior: 'smooth', block: 'center' \x7d);" [finalPayBtn])
  let _ ← perform (.sleep 1000)
  tryCatchJs
    (do
      let _ ← perform (.actionsClick finalPayBtn)
      consoleLog "Clicked 'Verify and Pay' using Actions API.")
    (fun _ => do
      consoleWarn "Actions API click failed, attempting JavaScript click."
      let _ ← perform (.executeScript "arguments[0].click();" [finalPayBtn])
      consoleLog "Clicked 'Verify and Pay' using JavaScript.")
  takeScreenshot s!"after_click_verify_pay_iter_{iterationLoop}.png"

/-- The action `clickSkip` (newest.js 347-351). -/
def clickSkip : M Unit := do
  let skipSpan ← findElement skipXPath
  let _ ← perform (.click skipSpan)
  consoleLog "Clicked 'SKIP' button."

/-- Step 1 of an iteration (newest.js 295-332): `true` when the `try` block ran
to its end, `false` when the `catch` block ran and left the loop with `break`. -/
def triggerStep (iterationLoop : Nat) : M Bool :=
  tryCatchJs
    (do
      consoleLog "Looking for final pay button (.prime__btn.paynow__btn)..."
      let _ ← retryAction (clickVerifyPay iterationLoop) 5 2000
      consoleLog "Final Payment Request (verify/pay) clicked."
      pure true)
    (fun error => do
      consoleErrorWith s!"Failed to click 'Verify and Pay' on iteration {iterationLoop}:" error
      pure false)

/-- Step 2 of an iteration (newest.js 335-370): the new value of `skipExists`. -/
def dismissStep (iterationLoop : Nat) : M Bool :=
  tryCatchJs
    (do
      consoleLog "Waiting for OTP modal with 'SKIP' button..."
      let _ ← waitLocated otpModalCss 15000
      consoleLog "OTP modal appeared."
      let _ ← perform (.sleep 2000)
      let _ ← retryAction clickSkip 5 2000
      takeScreenshot s!"after_click_skip_otp_iter_{iterationLoop}.png"
      let skipSpan ← findElement skipXPath
      let _ ← perform (.waitStale skipSpan 10000)
      consoleLog "OTP modal closed after clicking 'SKIP'."
      pure true)
    (fun _ => do
      consoleLog "No OTP modal or 'SKIP' button found. Assuming payment can proceed."
      pure false)

/-- The body of the `while` loop in the iteration numbered `iterationLoop`
(newest.js 292-370): `none` when it left the loop with `break`, otherwise the
value of `skipExists` at its end. -/
def iteration (iterationLoop : Nat) : M (Option Bool) := do
  consoleLog s!"\n--- Iteration {iterationLoop} ---"
  let clicked ← triggerStep iterationLoop
  if clicked then do
    let skipExists ← dismissStep iterationLoop
    pure (some skipExists)
  else pure none

/-- How the `while` loop was left. -/
structure LoopExit where
  iterationLoop : Nat
  skipExists : Bool
  /-- The loop was left by the `break` of step 1. -/
  broke : Bool
deriving DecidableEq, Repr

/-- The loop `while (skipExists && iterationLoop < MAX_ITERATIONS)` with the cap
as a parameter. The first argument bounds the number of iterations that are
unfolded; `payPhase` passes the cap itself. -/
def payLoop (maxIterations : Nat) : Nat → Nat → Bool → M LoopExit
  | 0, iterationLoop, skipExists => pure ⟨iterationLoop, skipExists, false⟩
  | fuel + 1, iterationLoop, skipExists =>
    if skipExists && decide (iterationLoop < maxIterations) then do
      let iterationLoop := iterationLoop + 1
      let r ← iteration iterationLoop
      match r with
      | none => pure ⟨iterationLoop, skipExists, true⟩
      | some skipExists => payLoop maxIterations fuel iterationLoop skipExists
    else pure ⟨iterationLoop, skipExists, false⟩

/-- The text of the warning printed when the cap was reached. -/
def capWarning (maxIterations : Nat) : String :=
  s!"Reached maximum iterations ({maxIterations}). Proceeding without further attempts."

/-- Steps 14-16 of newest.js (283-377): the loop, the cap warning and the closing line. -/
def payPhase (maxIterations : Nat) : M LoopExit := do
  consoleLog "Starting continuous loop: Click 'Verify and Pay' -> Click 'SKIP' -> Repeat..."
  let r ← payLoop maxIterations maxIterations 0 true
  if r.iterationLoop ≥ maxIterations then
    consoleWarn (capWarning maxIterations)
  consoleLog "\n--- Loop Ended ---"
  pure r

/-! ## The `/scrape` handler of newest.js (60-395) -/

/-- The page both handlers open first. -/
def listingUrl : String := "https://www.makemytrip.com/hotels-international/india/delhi-hotels/"

/-- The script of the fallback click on BOOK THIS NOW. -/
def bookNowScript : String :=
  "() => \x7b const btn = document.querySelector('.bkngOption__cta'); if (btn) btn.click(); \x7d"

/-- The body sent with status 400. -/
def missingMessage : String := "Missing required query parameters for booking."

/-- The body sent with status 500. -/
def failureMessage : String := "An error occurred during scraping and booking."

/-- The body newest.js sends with status 200. -/
def successMessageNewest : String :=
  "Kindly approve the payment request, and the booking details will be shared with you at the email address that you provided."

/-- The `catch` block of the handlers (newest.js 386-394, app1.js 257-265);
`driver` tells whether the variable `driver` has been assigned. -/
def catchScrape (driver : Bool) (error : JsError) : M Response := do
  consoleErrorWith "Error during scraping and booking:" error
  if driver then
    tryCatchJs (do let _ ← perform .quit; pure ()) (fun _ => pure ())
  pure ⟨500, failureMessage⟩

/-- Launching the browser (newest.js 81-91, app1.js 31-41). -/
def launch : M Unit := do
  consoleLog "Launching Selenium WebDriver..."
  let _ ← perform .build
  consoleLog "Browser launched."

/-- Steps 1-4 of newest.js (93-134): open the listing, click the first hotel,
switch to the detail tab. -/
def openDetailNewest : M Unit := do
  consoleLog "Navigating to MMT Delhi hotels..."
  let _ ← perform (.get listingUrl)
  let _ ← waitLocated "body" 60000
  consoleLog "Main listing page loaded."
  consoleLog "Waiting for #Listing_hotel_0..."
  let hotelListing ← waitLocated "#Listing_hotel_0" 60000
  let _ ← perform (.waitVisible hotelListing 60000)
  consoleLog "Hotel listing is visible."
  consoleLog "Clicking the first hotel listing..."
  let oldTabs ← getAllWindowHandles
  let _ ← perform (.click hotelListing)
  consoleLog "Waiting 3 seconds to see if a new tab opens..."
  let _ ← perform (.sleep 3000)
  let newTabs ← getAllWindowHandles
  let current ← getWindowHandle
  let _ ← perform (.switchToWindow (detailTab oldTabs newTabs current))
  consoleLog "Switched to detail page tab."
  takeScreenshot "after_switching_tabs.png"
  consoleLog "Waiting for <body> on the detail page..."
  let _ ← waitLocated "body" 60000
  consoleLog "Detail page loaded."

/-- Steps 5-6 of newest.js (136-178): the search button and BOOK THIS NOW. -/
def bookNewest : M Unit := do
  consoleLog "Looking for #hsw_search_button..."
  tryCatchJs
    (do
      let searchBtn ← waitLocated "#hsw_search_button" 15000
      let _ ← perform (.waitVisible searchBtn 15000)
      let _ ← perform (.click searchBtn)
      consoleLog "Search button clicked."
      takeScreenshot "after_click_search.png")
    (fun _ => consoleLog "No search button or not clickable. Continuing...")
  let _ ← perform (.sleep 3000)
  consoleLog "Looking for .bkngOption__cta (BOOK THIS NOW)..."
  tryCatchJs
    (do
      let bookThisNowBtn ← waitLocated ".bkngOption__cta" 15000
      let _ ← perform (.waitVisible bookThisNowBtn 15000)
      let _ ← perform (.click bookThisNowBtn)
      consoleLog "BOOK THIS NOW clicked."
      takeScreenshot "after_click_book_this_now.png")
    (fun err => do
      consoleErrorWith "BOOK THIS NOW direct click failed, trying JS:" err
      let _ ← perform (.executeScript bookNowScript [])
      consoleLog "BOOK THIS NOW clicked via JS injection."
      takeScreenshot "after_js_click_book_this_now.png")
  let _ ← perform (.sleep 2000)

/-- Steps 7-10 of newest.js (180-246): traveller form, PAN, T&C, Pay Now. -/
def fillTravellerNewest (q : Query) : M Unit := do
  consoleLog "Filling traveler form (typing slowly)..."
  let fNameInput ← waitLocated "#fName" 15000
  let _ ← perform (.waitVisible fNameInput 15000)
  typeSlowly fNameInput (textOf q.firstName) 300
  let lNameInput ← findElement "#lName"
  typeSlowly lNameInput (textOf q.lastName) 300
  let emailInput ← findElement "#email"
  typeSlowly emailInput (textOf q.email) 200
  let mobileInput ← findElement "#mNo"
  typeSlowly mobileInput (textOf q.mobile) 200
  consoleLog "Traveler details typed slowly."
  takeScreenshot "after_filling_traveler_details.png"
  consoleLog "Checking if 'ENTER PAN HERE' input appears..."
  tryCatchJs
    (do
      let panField ← waitLocated "input[placeholder=\"ENTER PAN HERE\"]" 5000
      typeSlowly panField (textOf q.panNumber) 200
      consoleLog s!"PAN field found and typed slowly: {textOf q.panNumber}"
      takeScreenshot "after_filling_pan.png")
    (fun _ => consoleLog "No new PAN field found. Moving on...")
  consoleLog "Clicking T&C checkbox..."
  tryCatchJs
    (do
      let tncCheckbox ← findElement ".checkboxWithLblWpr__label"
      let _ ← perform (.click tncCheckbox)
      consoleLog "T&C clicked."
      takeScreenshot "after_clicking_tnc.png")
    (fun _ => consoleLog "T&C checkbox not found, skipping...")
  consoleLog "Looking for Pay Now button (.btnContinuePayment.primaryBtn.capText)..."
  tryCatchJs
    (do
      let payNowBtn ← waitLocated ".btnContinuePayment.primaryBtn.capText" 15000
      let _ ← perform (.waitVisible payNowBtn 15000)
      let _ ← perform (.click payNowBtn)
      consoleLog "Pay Now clicked."
      takeScreenshot "after_clicking_pay_now.png")
    (fun error => consoleErrorWith "Failed to click Pay Now:" error)

/-- Steps 11-13 of newest.js (248-280): payment options, scroll, UPI. -/
def paymentNewest (q : Query) : M Unit := do
  consoleLog "Waiting for .payment__options__tab..."
  let _ ← waitLocated ".payment__options__tab" 30000
  let tab ← findElement ".payment__options__tab"
  let _ ← perform (.waitVisible tab 30000)
  consoleLog "Payment options tab is visible."
  takeScreenshot "after_payment_options_loaded.png"
  consoleLog "Scrolling down to find UPI fields..."
  let _ ← perform (.executeScript "window.scrollBy(0, 600);" [])
  let _ ← perform (.sleep 1000)
  if truthy q.upiId then do
    consoleLog s!"Entering UPI ID slowly: {textOf q.upiId}"
    let upiInput ← waitLocated "#inputVpa" 15000
    let _ ← perform (.waitVisible upiInput 15000)
    typeSlowly upiInput (textOf q.upiId) 250
    consoleLog "UPI ID entered slowly."
    takeScreenshot "after_filling_upi.png"
  else
    consoleLog "No UPI ID provided, skipping UPI step."

/-- The `try` block of newest.js after `driver` is assigned (93-385). -/
def workflowNewest (q : Query) : M Response := do
  openDetailNewest
  bookNewest
  fillTravellerNewest q
  paymentNewest q
  let _ ← payPhase MAX_ITERATIONS
  consoleLog "All done. Waiting 30 seconds to observe..."
  let _ ← perform (.sleep 30000)
  consoleLog "Flow completed. Closing browser..."
  let _ ← perform .quit
  pure ⟨200, successMessageNewest⟩

/-- The `/scrape` handler of newest.js. The `try` block is split where `driver`
is assigned: an error of `launch` reaches the `catch` block with `driver`
unassigned, a later one with `driver` assigned. -/
def scrapeNewest (q : Query) : M Response := do
  consoleLog "Incoming /scrape request..."
  if missingRequired q then do
    consoleError missingMessage
    pure ⟨400, missingMessage⟩
  else
    tryCatchJs
      (do
        launch
        tryCatchJs (workflowNewest q) (catchScrape true))
      (catchScrape false)

/-! ## The `/scrape` handler of app1.js (9-266) -/

/-- The script of app1.js that clicks SKIP in the modal. -/
def skipScript : String :=
  "() => \x7b const modal = document.querySelector('section[data-cy=\"CommonModal_2\"]'); if (!modal) return; const skipSpans = modal.querySelectorAll('span'); const skipSpan = [...skipSpans].find(el => el.textContent.trim() === 'SKIP'); if (skipSpan) skipSpan.click(); \x7d"

/-- The body app1.js sends with status 200. -/
def successMessageApp1 : String :=
  "Scraping and booking completed (with UPI). Browser will close after script ends."

/-- Steps 2-5 of app1.js (43-78): open the listing, click the first hotel,
switch to the detail tab. -/
def openDetailApp1 : M Unit := do
  consoleLog "Navigating to MMT Delhi hotels..."
  let _ ← perform (.get listingUrl)
  let _ ← waitLocated "body" 60000
  consoleLog "Main listing page loaded."
  consoleLog "Waiting for #Listing_hotel_0..."
  let _ ← waitLocated "#Listing_hotel_0" 60000
  let listing ← findElement "#Listing_hotel_0"
  let _ ← perform (.waitVisible listing 60000)
  consoleLog "Hotel listing is visible."
  let oldTabs ← getAllWindowHandles
  consoleLog "Clicking the first hotel listing..."
  let listing ← findElement "#Listing_hotel_0"
  let _ ← perform (.click listing)
  consoleLog "Waiting 3s to see if a new tab opens..."
  let _ ← perform (.sleep 3000)
  let newTabs ← getAllWindowHandles
  let current ← getWindowHandle
  let _ ← perform (.switchToWindow (detailTab oldTabs newTabs current))
  consoleLog "Switched to detail page tab."
  consoleLog "Waiting for <body> on the detail page..."
  let _ ← waitLocated "body" 60000
  consoleLog "Detail page loaded."

/-- Steps 6-7 of app1.js (80-115): the search button and BOOK THIS NOW. -/
def bookApp1 : M Unit := do
  consoleLog "Looking for #hsw_search_button..."
  tryCatchJs
    (do
      let searchBtn ← waitLocated "#hsw_search_button" 15000
      let _ ← perform (.waitVisible searchBtn 15000)
      let _ ← perform (.click searchBtn)
      consoleLog "Search button clicked.")
    (fun _ => consoleLog "Search button not found or not clickable. Continuing...")
  let _ ← perform (.sleep 3000)
  consoleLog "Looking for .bkngOption__cta (BOOK THIS NOW)..."
  tryCatchJs
    (do
      let bookThisNowBtn ← waitLocated ".bkngOption__cta" 15000
      let _ ← perform (.waitVisible bookThisNowBtn 15000)
      let _ ← perform (.click bookThisNowBtn)
      consoleLog "BOOK THIS NOW clicked.")
    (fun err => do
      consoleErrorWith "BOOK THIS NOW direct click failed, trying JS:" err
      let _ ← perform (.executeScript bookNowScript [])
      consoleLog "BOOK THIS NOW clicked via JS injection.")
  let _ ← perform (.sleep 2000)

/-- Steps 8-11 of app1.js (117-169): traveller form, PAN, T&C, Pay Now. -/
def fillTravellerApp1 (q : Query) : M Unit := do
  consoleLog "Filling traveler form..."
  let fNameInput ← waitLocated "#fName" 15000
  let _ ← perform (.waitVisible fNameInput 15000)
  let _ ← perform (.sendKeys fNameInput (textOf q.firstName))
  let lNameInput ← findElement "#lName"
  let _ ← perform (.sendKeys lNameInput (textOf q.lastName))
  let emailInput ← findElement "#email"
  let _ ← perform (.sendKeys emailInput (textOf q.email))
  let mobileInput ← findElement "#mNo"
  let _ ← perform (.sendKeys mobileInput (textOf q.mobile))
  consoleLog "Traveler details entered."
  consoleLog "Checking if 'ENTER PAN HERE' input appears..."
  tryCatchJs
    (do
      let panField ← waitLocated "input[placeholder=\"ENTER PAN HERE\"]" 5000
      let _ ← perform (.waitVisible panField 5000)
      let _ ← perform (.sendKeys panField (textOf q.panNumber))
      consoleLog s!"PAN field found and filled: {textOf q.panNumber}")
    (fun _ => consoleLog "No new PAN field found. Moving on...")
  consoleLog "Clicking T&C checkbox..."
  tryCatchJs
    (do
      let tncCheckbox ← findElement ".checkboxWithLblWpr__label"
      let _ ← perform (.click tncCheckbox)
      consoleLog "T&C clicked.")
    (fun _ => consoleLog "T&C checkbox not found, skipping...")
  consoleLog "Looking for Pay Now button (.btnContinuePayment.primaryBtn.capText)..."
  tryCatchJs
    (do
      let payNowBtn ← waitLocated ".btnContinuePayment.primaryBtn.capText" 15000
      let _ ← perform (.waitVisible payNowBtn 15000)
      let _ ← perform (.click payNowBtn)
      consoleLog "Pay Now clicked.")
    (fun error => consoleErrorWith "Failed to click Pay Now:" error)

/-- Steps 12-14 of app1.js (171-194): payment options, scroll, UPI. -/
def paymentApp1 (q : Query) : M Unit := do
  consoleLog "Waiting for .payment__options__tab..."
  let _ ← waitLocated ".payment__options__tab" 30000
  let tab ← findElement ".payment__options__tab"
  let _ ← perform (.waitVisible tab 30000)
  consoleLog "Payment options tab is visible."
  consoleLog "Scrolling down to find UPI fields..."
  let _ ← perform (.executeScript "window.scrollBy(0, 600);" [])
  let _ ← perform (.sleep 1000)
  if truthy q.upiId then do
    consoleLog s!"Entering UPI ID: {textOf q.upiId}"
    let upiInput ← waitLocated "#inputVpa" 15000
    let _ ← perform (.waitVisible upiInput 15000)
    let _ ← perform (.sendKeys upiInput (textOf q.upiId))
    consoleLog "UPI ID entered."
  else
    consoleLog "No UPI ID provided, skipping UPI input step."

/-- Steps 15-17 of app1.js (196-242): final pay, SKIP, second final pay. -/
def finalPayApp1 : M Unit := do
  consoleLog "Looking for final pay button (.prime__btn)..."
  tryCatchJs
    (do
      let finalPayBtn ← waitLocated ".prime__btn" 15000
      let _ ← perform (.waitVisible finalPayBtn 15000)
      let _ ← perform (.click finalPayBtn)
      consoleLog "Payment Request Sent.")
    (fun error => consoleErrorWith "Failed to click final Pay button:" error)
  consoleLog "Looking for the 'SKIP' button in the modal..."
  tryCatchJs
    (do
      let _ ← waitLocated otpModalCss 15000
      let _ ← perform (.executeScript skipScript [])
      let _ ← perform (.sleep 2000)
      pure ())
    (fun _ => consoleLog "No modal found or 'SKIP' not visible.")
  consoleLog "Attempting second final pay (.prime__btn) if present..."
  tryCatchJs
    (do
      let finalPayBtn2 ← waitLocated ".prime__btn" 5000
      let _ ← perform (.waitVisible finalPayBtn2 5000)
      let _ ← perform (.click finalPayBtn2)
      consoleLog "Second Payment Request Sent.")
    (fun _ => consoleLog "No second final pay found or not clickable.")

/-- The `try` block of app1.js after `driver` is assigned (43-255). -/
def workflowApp1 (q : Query) : M Response := do
  openDetailApp1
  bookApp1
  fillTravellerApp1 q
  paymentApp1 q
  finalPayApp1
  consoleLog "Payment is done. Let's wait 30 seconds so you can observe the page..."
  let _ ← perform (.sleep 30000)
  consoleLog "Scraping flow completed. Browser is still open for 30s (or until closed)."
  pure ⟨200, successMessageApp1⟩

/-- The `/scrape` handler of app1.js, split like `scrapeNewest`. -/
def scrapeApp1 (q : Query) : M Response := do
  consoleLog "Incoming /scrape request..."
  if missingRequired q then do
    consoleError missingMessage
    pure ⟨400, missingMessage⟩
  else
    tryCatchJs
      (do
        launch
        tryCatchJs (workflowApp1 q) (catchScrape true))
      (catchScrape false)

/-! ## Specification vocabulary -/

/-- A query parameter is missing or the empty string. -/
def absentOrEmpty (p : Option String) : Prop := p = none ∨ p = some ""

/-- At least one of the five required parameters is missing or the empty string. -/
def lacksRequired (q : Query) : Prop :=
  absentOrEmpty q.firstName ∨ absentOrEmpty q.lastName ∨ absentOrEmpty q.email ∨
    absentOrEmpty q.mobile ∨ absentOrEmpty q.panNumber

/-- The history of a request that is rejected by the validation: two console
lines and no call into the outside world. -/
def rejectedHistory : List Event :=
  [Event.console .log "Incoming /scrape request..." none,
   Event.console .error missingMessage none]

/-- Whenever `m` resolves, its value satisfies `P`. -/
def Returns {α : Type} (P : α → Prop) (m : M α) : Prop :=
  ∀ w t a t1, m w t = (.ok a, t1) → P a

/-- The computation `m` always resolves, and its value satisfies `P`. -/
def Resolves {α : Type} (P : α → Prop) (m : M α) : Prop :=
  ∀ w t, ∃ a t1, m w t = (.ok a, t1) ∧ P a

/-- A world in which every call succeeds with `undefined`. -/
def calmWorld : World := ⟨fun _ _ => .ok .undefined⟩

/-- A world in which every call fails with the same error. -/
def deadWorld : World := ⟨fun _ _ => .error ⟨"session is gone"⟩⟩

/-- A query with all five required parameters and no `upiId`. -/
def sampleQuery : Query :=
  ⟨some "A", some "B", some "a@b.com", some "9999999999", some "ABCDE1234F", none⟩

/-- A world in which the callback `action` fails on its first `k` invocations
and resolves to `v` afterwards; every other call resolves to `undefined`. -/
def flakyWorld (k : Nat) (v : Val) : World :=
  ⟨fun t o =>
    if o = Op.invoke "action" then
      if invocations (Op.invoke "action") t < k then .error ⟨"not yet"⟩ else .ok v
    else .ok .undefined⟩

/-- A world in which every call fails with the given error. -/
def failingWorld (e : JsError) : World := ⟨fun _ _ => .error e⟩

/-- The computation `m` appends to the history, and what it appends contains
the event `mk` at most `n` times. -/
def Adds {α : Type} (mk : Event) (n : Nat) (m : M α) : Prop :=
  ∀ w t, ∃ added, (m w t).2 = t ++ added ∧ added.count mk ≤ n

/-- The console line that opens step 1 (the trigger step) of an iteration. -/
def triggerStarted : Event :=
  .console .log "Looking for final pay button (.prime__btn.paynow__btn)..." none

/-- The console line that opens step 2 (the SKIP dismissal) of an iteration. -/
def dismissStarted : Event :=
  .console .log "Waiting for OTP modal with 'SKIP' button..." none

/-- The console line printed after a click on SKIP that did not throw. -/
def skipClicked : Event := .console .log "Clicked 'SKIP' button." none

/-- The cap warning as an event. -/
def capWarned (maxIterations : Nat) : Event := .console .warn (capWarning maxIterations) none

/-- The events the theorems about the loop count. -/
def loopMarkers : List Event :=
  [triggerStarted, dismissStarted, skipClicked, Event.op (.click skipXPath),
   Event.op (.waitLocated otpModalCss 15000)]

/-- The three console lines that mark the start of step 1, the start of step 2
and a click on SKIP that went through. -/
def stepMarkers : List Event := [triggerStarted, dismissStarted, skipClicked]

/-- The console line that opens the iteration numbered `iterationLoop`. -/
def iterationLine (iterationLoop : Nat) : Event :=
  .console .log s!"\n--- Iteration {iterationLoop} ---" none

/-- The console line of the `catch` block of step 1. -/
def triggerFailedLine (iterationLoop : Nat) (error : JsError) : Event :=
  .console .error s!"Failed to click 'Verify and Pay' on iteration {iterationLoop}:" (some error)

/-- The console line that closes step 1 when it went through. -/
def paymentClickedLine : Event := .console .log "Final Payment Request (verify/pay) clicked." none

/-- The console line of the `catch` block of step 2. -/
def noModalLine : Event :=
  .console .log "No OTP modal or 'SKIP' button found. Assuming payment can proceed." none

/-- The console line printed before the loop. -/
def loopStartLine : Event :=
  .console .log "Starting continuous loop: Click 'Verify and Pay' -> Click 'SKIP' -> Repeat..." none

/-- The console line printed after the loop. -/
def loopEndedLine : Event := .console .log "\n--- Loop Ended ---" none

/-- A world in which every call succeeds, except that the wait for the SKIP
element to go stale always times out: the modal is found, SKIP is clicked, and
SKIP never disappears. -/
def stubbornWorld : World :=
  ⟨fun _ o =>
    match o with
    | .waitStale _ _ => .error ⟨"Wait timed out after 10000ms"⟩
    | _ => .ok .undefined⟩

/-- A world in which every call succeeds, except that the OTP modal is never
located. -/
def noModalWorld : World :=
  ⟨fun _ o =>
    if o = Op.waitLocated otpModalCss 15000 then .error ⟨"Wait timed out after 15000ms"⟩
    else .ok .undefined⟩

/-- How many inter-attempt delays of `retryAction` have elapsed in a history. -/
def delays (delayMs : Nat) (t : List Event) : Nat := t.count (Event.timeout delayMs)

/-- The history of a valid request when the `try` block is entered. -/
def enteredHistory : List Event := [Event.console .log "Incoming /scrape request..." none]

/-- The `try` block of newest.js as a whole (80-385). -/
def tryBlockNewest (q : Query) : M Response := do
  launch
  workflowNewest q

/-- The `try` block of app1.js as a whole (29-255). -/
def tryBlockApp1 (q : Query) : M Response := do
  launch
  workflowApp1 q

/-- A world in which `build()` fails and every other call succeeds. -/
def noBrowserWorld : World :=
  ⟨fun _ o => if o = Op.build then .error ⟨"chromedriver not found"⟩ else .ok .undefined⟩

/-- The steps of newest.js between the launch and the loop (93-280). -/
def prePayNewest (q : Query) : M Unit := do
  openDetailNewest
  bookNewest
  fillTravellerNewest q
  paymentNewest q

/-- The history of a valid request to newest.js once the browser is launched. -/
def launchedHistory : List Event :=
  enteredHistory ++ [Event.console .log "Launching Selenium WebDriver..." none, Event.op .build,
    Event.console .log "Browser launched." none]

/-- The console line printed before the observation sleep of newest.js. -/
def allDoneLine : Event := .console .log "All done. Waiting 30 seconds to observe..." none

/-- The console line printed before `driver.quit()` on the success path of newest.js. -/
def closingLine : Event := .console .log "Flow completed. Closing browser..." none

/-- A world in which the final pay button is never located and every other call
succeeds: the trigger step runs out of attempts in the first iteration. -/
def noPayButtonWorld : World :=
  ⟨fun _ o =>
    if o = Op.waitLocated payButtonCss 15000 then .error ⟨"Wait timed out after 15000ms"⟩
    else .ok .undefined⟩

/-- A world in which `driver.takeScreenshot()` always fails and every other
call succeeds. -/
def noCaptureWorld : World :=
  ⟨fun _ o => if o = Op.takeScreenshot then .error ⟨"screenshot failed"⟩ else .ok .undefined⟩

/-- A world in which the file write of the capture after the direct click on
BOOK THIS NOW fails and every other call succeeds. -/
def bookCaptureWorld : World :=
  ⟨fun _ o =>
    if o = Op.writeFileSync "after_click_book_this_now.png" then .error ⟨"EACCES"⟩
    else .ok .undefined⟩

/-- In every world that satisfies `W`, the computation `m` never resolves. -/
def Blocked {α : Type} (W : World → Prop) (m : M α) : Prop :=
  ∀ w, W w → ∀ t a t1, m w t ≠ (.ok a, t1)

/-- Every call of `driver.takeScreenshot()` fails in the world. -/
def CaptureFails (w : World) : Prop := ∀ t, ∃ e, w.answer t .takeScreenshot = .error e

/-- The computation `m` appends to the history, and every call it starts
satisfies `allowed`. -/
def Calls {α : Type} (allowed : Op → Bool) (m : M α) : Prop :=
  ∀ w t, ∃ added, (m w t).2 = t ++ added ∧ ∀ o, Event.op o ∈ added → allowed o = true

/-- The call waits for, locates, clicks or types into the element `#inputVpa`. -/
def touchesVpa : Op → Bool
  | .waitLocated css _ => css == "#inputVpa"
  | .waitVisible element _ => element == "#inputVpa"
  | .waitStale element _ => element == "#inputVpa"
  | .findElement by_ => by_ == "#inputVpa"
  | .click element => element == "#inputVpa"
  | .sendKeys element _ => element == "#inputVpa"
  | .actionsClick element => element == "#inputVpa"
  | .executeScript _ args => args.contains "#inputVpa"
  | _ => false

/-- The call is `driver.quit()`. -/
def isQuit : Op → Bool
  | .quit => true
  | _ => false

/-- The call neither closes the session nor touches `#inputVpa`. -/
def benign (o : Op) : Bool := !isQuit o && !touchesVpa o

/-- The call does not touch `#inputVpa`. -/
def sparesVpa (o : Op) : Bool := !touchesVpa o

/-- Whenever `m` resolves, the last event of the history is `e`. -/
def EndsWith {α : Type} (e : Event) (m : M α) : Prop :=
  ∀ w t a t1, m w t = (.ok a, t1) → ∃ t0, t1 = t0 ++ [e]

/-- The calls either handler makes outside the body of a local `try`, the UPI
step apart: a failure of one of them ends the run with status 500. -/
def criticalSteps : Op → Bool
  | .build => true
  | .quit => true
  | .getAllWindowHandles => true
  | .getWindowHandle => true
  | .takeScreenshot => true
  | .switchToWindow _ => true
  | .sleep _ => true
  | .writeFileSync _ => true
  | .get url => url == listingUrl
  | .executeScript script args =>
    (script == bookNowScript || script == "window.scrollBy(0, 600);") && args.isEmpty
  | .waitLocated css _ =>
    ["body", "#Listing_hotel_0", "#fName", ".payment__options__tab"].contains css
  | .waitVisible element _ =>
    ["#Listing_hotel_0", "#fName", ".payment__options__tab"].contains element
  | .findElement by_ =>
    ["#Listing_hotel_0", "#lName", "#email", "#mNo", ".payment__options__tab"].contains by_
  | .click element => element == "#Listing_hotel_0"
  | .sendKeys element _ => ["#fName", "#lName", "#email", "#mNo"].contains element
  | _ => false

/-- Every call that satisfies `crit` succeeds in the world, whenever it is made. -/
def Obeys (crit : Op → Bool) (w : World) : Prop :=
  ∀ t o, crit o = true → ∃ v, w.answer t o = .ok v

/-- In every world that obeys `crit`, the computation `m` resolves. -/
def Survives {α : Type} (crit : Op → Bool) (m : M α) : Prop :=
  ∀ w, Obeys crit w → ∀ t, ∃ a t1, m w t = (.ok a, t1)

/-- Whenever `m` resolves, the history contains the event `e`. -/
def Marks {α : Type} (e : Event) (m : M α) : Prop :=
  ∀ w t a t1, m w t = (.ok a, t1) → e ∈ t1

/-- The characters typed into `element` in a history, in order. -/
def typedInto (element : String) : List Event → List Char
  | [] => []
  | .op (.sendKeys target text) :: rest =>
    if target = element then text.toList ++ typedInto element rest else typedInto element rest
  | _ :: rest => typedInto element rest

/-- The call types nothing into `#inputVpa`. -/
def typesNothing : Op → Bool
  | .sendKeys element _ => !(element == "#inputVpa")
  | _ => true

/-- Whenever `m` resolves, it has extended the history and typed exactly the
characters `cs` into `#inputVpa`. -/
def Types {α : Type} (cs : List Char) (m : M α) : Prop :=
  ∀ w t a t1, m w t = (.ok a, t1) →
    ∃ added, t1 = t ++ added ∧ typedInto "#inputVpa" added = cs

/-- The console line that opens the final pay phase of app1.js. -/
def finalPayLine : Event := .console .log "Looking for final pay button (.prime__btn)..." none

/-- A query with all five required parameters and a `upiId`. -/
def upiQuery : Query :=
  ⟨some "A", some "B", some "a@b.com", some "9999999999", some "ABCDE1234F", some "a@upi"⟩

/-! ## Running computations -/

theorem pure_run {α : Type} (a : α) (w : World) (t : List Event) :
    (pure a : M α) w t = (.ok a, t) := rfl

theorem bind_run {α β : Type} (m : M α) (f : α → M β) (w : World) (t : List Event) :
    (m >>= f) w t =
      match m w t with
      | (.ok a, t1) => f a w t1
      | (.error e, t1) => (.error e, t1) := rfl

theorem bind_run_ok {α β : Type} (m : M α) (f : α → M β) (w : World) (t t1 : List Event)
    (a : α) (h : m w t = (.ok a, t1)) : (m >>= f) w t = f a w t1 := by
  rw [bind_run, h]

theorem bind_run_error {α β : Type} (m : M α) (f : α → M β) (w : World) (t t1 : List Event)
    (e : JsError) (h : m w t = (.error e, t1)) : (m >>= f) w t = (.error e, t1) := by
  rw [bind_run, h]

theorem tryCatchJs_run_ok {α : Type} (body : M α) (handler : JsError → M α) (w : World)
    (t t1 : List Event) (a : α) (h : body w t = (.ok a, t1)) :
    tryCatchJs body handler w t = (.ok a, t1) := by
  simp only [tryCatchJs, h]

theorem tryCatchJs_run_error {α : Type} (body : M α) (handler : JsError → M α) (w : World)
    (t t1 : List Event) (e : JsError) (h : body w t = (.error e, t1)) :
    tryCatchJs body handler w t = handler e w t1 := by
  simp only [tryCatchJs, h]

theorem perform_run (o : Op) (w : World) (t : List Event) :
    perform o w t = (w.answer t o, t ++ [Event.op o]) := rfl

theorem emit_run (e : Event) (w : World) (t : List Event) :
    emit e w t = (.ok (), t ++ [e]) := rfl

theorem throwJs_run {α : Type} (e : JsError) (w : World) (t : List Event) :
    (throwJs e : M α) w t = (.error e, t) := rfl

theorem invocations_append (o : Op) (t u : List Event) :
    invocations o (t ++ u) = invocations o t + invocations o u := by
  simp [invocations]

/-! ## Postconditions -/

theorem returns_pure {α : Type} (P : α → Prop) (a : α) (h : P a) : Returns P (pure a : M α) := by
  intro w t b t1 hb
  rw [pure_run] at hb
  cases hb
  exact h

theorem returns_bind {α β : Type} (P : β → Prop) (m : M α) (f : α → M β)
    (h : ∀ a, Returns P (f a)) : Returns P (m >>= f) := by
  intro w t b t1 hb
  rw [bind_run] at hb
  split at hb
  · exact h _ w _ b t1 hb
  · cases hb

theorem returns_tryCatchJs {α : Type} (P : α → Prop) (body : M α) (handler : JsError → M α)
    (hb : Returns P body) (hh : ∀ e, Returns P (handler e)) :
    Returns P (tryCatchJs body handler) := by
  intro w t b t1 h
  unfold tryCatchJs at h
  split at h
  · next a t2 heq =>
    cases h
    exact hb w t _ _ heq
  · exact hh _ w _ b t1 h

theorem resolves_pure {α : Type} (P : α → Prop) (a : α) (h : P a) : Resolves P (pure a : M α) :=
  fun _ t => ⟨a, t, rfl, h⟩

theorem resolves_emit (e : Event) : Resolves (fun _ => True) (emit e) :=
  fun _ t => ⟨(), t ++ [e], rfl, trivial⟩

theorem resolves_bind {α β : Type} (Q : α → Prop) (P : β → Prop) (m : M α) (f : α → M β)
    (hm : Resolves Q m) (h : ∀ a, Q a → Resolves P (f a)) : Resolves P (m >>= f) := by
  intro w t
  obtain ⟨a, t1, h1, hq⟩ := hm w t
  obtain ⟨b, t2, h2, hp⟩ := h a hq w t1
  exact ⟨b, t2, by rw [bind_run, h1]; exact h2, hp⟩

theorem resolves_tryCatchJs {α : Type} (P : α → Prop) (body : M α) (handler : JsError → M α)
    (hb : Returns P body) (hh : ∀ e, Resolves P (handler e)) :
    Resolves P (tryCatchJs body handler) := by
  intro w t
  unfold tryCatchJs
  split
  · next a t1 heq => exact ⟨a, t1, rfl, hb w t a t1 heq⟩
  · next e t1 heq => exact hh e w t1

/-! ## `retryAction`: one attempt -/

/-- An attempt that succeeds ends the loop with the value of the action. -/
theorem retryLoop_attempt_ok {α : Type} (action : M α) (retries : Int) (delayMs fuel : Nat)
    (attempt : Int) (w : World) (t t1 : List Event) (a : α)
    (hle : attempt ≤ retries) (h : action w t = (.ok a, t1)) :
    retryLoop action retries delayMs (fuel + 1) attempt w t = (.ok (some a), t1) := by
  simp only [retryLoop, if_pos hle]
  apply tryCatchJs_run_ok
  rw [bind_run, h]
  rfl

/-- An attempt that fails before the last one is logged, waited out and followed
by the next attempt. -/
theorem retryLoop_attempt_retry {α : Type} (action : M α) (retries : Int) (delayMs fuel : Nat)
    (attempt : Int) (w : World) (t t1 : List Event) (e : JsError)
    (hlt : attempt < retries) (h : action w t = (.error e, t1)) :
    retryLoop action retries delayMs (fuel + 1) attempt w t =
      retryLoop action retries delayMs fuel (attempt + 1) w
        (t1 ++ [Event.console .warn s!"Attempt {attempt} failed: {e.message}" none,
                Event.retryNotice delayMs, Event.timeout delayMs]) := by
  have hne : attempt ≠ retries := by omega
  simp only [retryLoop, if_pos (le_of_lt hlt)]
  rw [tryCatchJs_run_error _ _ w t t1 e (by rw [bind_run, h])]
  simp only [bind_run, consoleWarn, emit_run, if_neg hne, List.append_assoc, List.singleton_append,
    List.cons_append, List.nil_append]

/-- The last attempt, when it fails, is logged and the loop throws. -/
theorem retryLoop_attempt_last {α : Type} (action : M α) (retries : Int) (delayMs fuel : Nat)
    (w : World) (t t1 : List Event) (e : JsError)
    (h : action w t = (.error e, t1)) :
    retryLoop action retries delayMs (fuel + 1) retries w t =
      (.error ⟨s!"All {retries} attempts failed."⟩,
        t1 ++ [Event.console .warn s!"Attempt {retries} failed: {e.message}" none]) := by
  simp only [retryLoop, if_pos (le_refl retries)]
  rw [tryCatchJs_run_error _ _ w t t1 e (by rw [bind_run, h])]
  simp only [bind_run, consoleWarn, emit_run, if_pos, throwJs_run]

/-! ## `retryAction`: whole runs -/

theorem invocations_snoc_self (o : Op) (t : List Event) (u : List Event)
    (hu : invocations o u = 0) : invocations o (t ++ Event.op o :: u) = invocations o t + 1 := by
  have h : invocations o (Event.op o :: u) = 1 := by
    simp only [invocations, List.count_cons_self] at hu ⊢
    omega
  rw [invocations_append, h]

/-- A call that fails `k` times and then resolves to `v`: the loop resolves to
`v` after `k + 1` invocations. -/
theorem retryLoop_fail_then_ok (o : Op) (w : World) (retries : Int) (delayMs : Nat) (v : Val) :
    ∀ (k fuel : Nat) (attempt : Int) (t : List Event), k < fuel → attempt + k ≤ retries →
      (∀ u, invocations o t ≤ invocations o u → invocations o u < invocations o t + k →
        ∃ e, w.answer u o = .error e) →
      (∀ u, invocations o u = invocations o t + k → w.answer u o = .ok v) →
      ∃ t1, retryLoop (perform o) retries delayMs fuel attempt w t = (.ok (some v), t1) ∧
        invocations o t1 = invocations o t + k + 1 := by
  intro k
  induction k with
  | zero =>
    intro fuel attempt t hfuel hle _ hok
    obtain ⟨f, rfl⟩ : ∃ f, fuel = f + 1 := ⟨fuel - 1, by omega⟩
    refine ⟨t ++ [Event.op o], ?_, ?_⟩
    · apply retryLoop_attempt_ok
      · omega
      · rw [perform_run, hok t rfl]
    · exact invocations_snoc_self o t [] rfl
  | succ k ih =>
    intro fuel attempt t hfuel hle hfail hok
    obtain ⟨f, rfl⟩ : ∃ f, fuel = f + 1 := ⟨fuel - 1, by omega⟩
    obtain ⟨e, he⟩ := hfail t (le_refl _) (by omega)
    have hstep := retryLoop_attempt_retry (perform o) retries delayMs f attempt w t
      (t ++ [Event.op o]) e (by omega) (by rw [perform_run, he])
    have hcount : invocations o (t ++ [Event.op o] ++
        [Event.console .warn s!"Attempt {attempt} failed: {e.message}" none,
          Event.retryNotice delayMs, Event.timeout delayMs]) = invocations o t + 1 := by
      rw [List.append_assoc]
      exact invocations_snoc_self o t _ (by simp [invocations])
    obtain ⟨t1, h1, h2⟩ := ih f (attempt + 1) _ (by omega) (by omega)
      (fun u hu1 hu => hfail u (by rw [hcount] at hu1; omega) (by rw [hcount] at hu; omega))
      (fun u hu => hok u (by rw [hcount] at hu; omega))
    exact ⟨t1, by rw [hstep]; exact h1, by rw [hcount] at h2; omega⟩

/-- A call that always fails: the loop throws its own error after the remaining
attempts, and the last line it prints carries the message of the last failure. -/
theorem retryLoop_all_fail (o : Op) (w : World) (retries : Int) (delayMs : Nat)
    (hfail : ∀ u, ∃ e, w.answer u o = .error e) :
    ∀ (n fuel : Nat) (attempt : Int) (t : List Event), n < fuel → attempt + n = retries →
      ∃ t1 e, w.answer t1 o = .error e ∧
        retryLoop (perform o) retries delayMs fuel attempt w t =
          (.error ⟨s!"All {retries} attempts failed."⟩,
            t1 ++ [Event.op o,
              Event.console .warn s!"Attempt {retries} failed: {e.message}" none]) ∧
        invocations o t1 = invocations o t + n := by
  intro n
  induction n with
  | zero =>
    intro fuel attempt t hfuel hle
    obtain ⟨f, rfl⟩ : ∃ f, fuel = f + 1 := ⟨fuel - 1, by omega⟩
    obtain ⟨e, he⟩ := hfail t
    have hat : attempt = retries := by omega
    subst hat
    refine ⟨t, e, he, ?_, rfl⟩
    rw [retryLoop_attempt_last (perform o) attempt delayMs f w t (t ++ [Event.op o]) e
      (by rw [perform_run, he])]
    simp
  | succ n ih =>
    intro fuel attempt t hfuel hle
    obtain ⟨f, rfl⟩ : ∃ f, fuel = f + 1 := ⟨fuel - 1, by omega⟩
    obtain ⟨e, he⟩ := hfail t
    have hstep := retryLoop_attempt_retry (perform o) retries delayMs f attempt w t
      (t ++ [Event.op o]) e (by omega) (by rw [perform_run, he])
    have hcount : invocations o (t ++ [Event.op o] ++
        [Event.console .warn s!"Attempt {attempt} failed: {e.message}" none,
          Event.retryNotice delayMs, Event.timeout delayMs]) = invocations o t + 1 := by
      rw [List.append_assoc]
      exact invocations_snoc_self o t _ (by simp [invocations])
    obtain ⟨t1, e1, h0, h1, h2⟩ := ih f (attempt + 1) _ (by omega) (by omega)
    exact ⟨t1, e1, h0, by rw [hstep]; exact h1, by rw [hcount] at h2; omega⟩

/-! ## C2, C3, C4: the retry executor -/

/-- C2: for every maxAttempts >= 1, every k with 0 <= k < maxAttempts and every
delayMs, if the action fails on its first k invocations (counted from the call
of retryAction) and resolves to v on invocation k+1, then
retryAction(action, maxAttempts, delayMs) resolves to v and has invoked the
action exactly k+1 times. -/
theorem retryAction_succeeds_after_failures (o : Op) (w : World) (maxAttempts : Int)
    (k delayMs : Nat) (v : Val) (t : List Event)
    (h1 : 1 ≤ maxAttempts) (hk : (k : Int) < maxAttempts)
    (hfail : ∀ u, invocations o t ≤ invocations o u → invocations o u < invocations o t + k →
      ∃ e, w.answer u o = .error e)
    (hok : ∀ u, invocations o u = invocations o t + k → w.answer u o = .ok v) :
    (retryAction (perform o) maxAttempts delayMs w t).1 = .ok (some v) ∧
      invocations o (retryAction (perform o) maxAttempts delayMs w t).2 =
        invocations o t + (k + 1) := by
  obtain ⟨t1, hrun, hcount⟩ := retryLoop_fail_then_ok o w maxAttempts delayMs v k
    maxAttempts.toNat 1 t (by omega) (by omega) hfail hok
  unfold retryAction
  rw [hrun]
  exact ⟨rfl, hcount⟩

/-- C2 at a concrete input: the callback fails twice and then resolves to "done";
with five attempts allowed it is invoked three times. -/
theorem retryAction_succeeds_after_failures_witness :
    (retryAction (perform (.invoke "action")) 5 2000 (flakyWorld 2 (.str "done")) []).1 =
        .ok (some (.str "done")) ∧
      invocations (.invoke "action")
        (retryAction (perform (.invoke "action")) 5 2000 (flakyWorld 2 (.str "done")) []).2 =
        invocations (.invoke "action") [] + (2 + 1) :=
  retryAction_succeeds_after_failures (.invoke "action") (flakyWorld 2 (.str "done")) 5 2 2000
    (.str "done") [] (by decide) (by decide)
    (fun u _ hu => ⟨⟨"not yet"⟩, by
      have hu2 : invocations (Op.invoke "action") u < 2 := by
        simpa [invocations] using hu
      simp [flakyWorld, hu2]⟩)
    (fun u hu => by
      have hu2 : ¬ invocations (Op.invoke "action") u < 2 := by
        have : invocations (Op.invoke "action") u = 2 := by simpa [invocations] using hu
        omega
      simp [flakyWorld, hu2])

/-- C3 as stated fails for maxAttempts = 0: the action always fails, yet
retryAction resolves (to undefined) and does not reject. -/
theorem retryAction_zero_attempts_resolves :
    retryAction (perform (.invoke "action")) 0 2000 deadWorld [] = (.ok none, []) ∧
      ¬ ∃ e t, retryAction (perform (.invoke "action")) 0 2000 deadWorld [] = (.error e, t) := by
  have h : retryAction (perform (.invoke "action")) 0 2000 deadWorld [] = (.ok none, []) := rfl
  refine ⟨h, ?_⟩
  rintro ⟨e, t, he⟩
  rw [h] at he
  cases he

/-- C3, amended: for every maxAttempts >= 1 and an action that fails on every
invocation, retryAction(action, maxAttempts, delayMs) rejects after invoking
the action exactly maxAttempts times. -/
theorem retryAction_rejects_after_max_attempts (o : Op) (w : World) (maxAttempts : Int)
    (delayMs : Nat) (t : List Event) (h1 : 1 ≤ maxAttempts)
    (hfail : ∀ u, ∃ e, w.answer u o = .error e) :
    (∃ e, (retryAction (perform o) maxAttempts delayMs w t).1 = .error e) ∧
      (invocations o (retryAction (perform o) maxAttempts delayMs w t).2 : Int) =
        invocations o t + maxAttempts := by
  obtain ⟨t1, e, _, hrun, hcount⟩ := retryLoop_all_fail o w maxAttempts delayMs hfail
    (maxAttempts.toNat - 1) maxAttempts.toNat 1 t (by omega) (by omega)
  unfold retryAction
  rw [hrun]
  refine ⟨⟨_, rfl⟩, ?_⟩
  have h2 : invocations o (t1 ++ [Event.op o,
      Event.console .warn s!"Attempt {maxAttempts} failed: {e.message}" none]) =
      invocations o t1 + 1 := invocations_snoc_self o t1 _ (by simp [invocations])
  simp only [h2, hcount]
  omega

/-- C3 at a concrete input: three attempts allowed, every call fails. -/
theorem retryAction_rejects_after_max_attempts_witness :
    (∃ e, (retryAction (perform (.invoke "action")) 3 2000 deadWorld []).1 = .error e) ∧
      (invocations (.invoke "action")
        (retryAction (perform (.invoke "action")) 3 2000 deadWorld []).2 : Int) =
        invocations (.invoke "action") [] + 3 :=
  retryAction_rejects_after_max_attempts (.invoke "action") deadWorld 3 2000 [] (by decide)
    (fun _ => ⟨⟨"session is gone"⟩, rfl⟩)

/-- C4 as stated fails: the error raised by retryAction does not determine the
error of the final attempt, so no function recovers the cause from it. -/
theorem retryAction_error_forgets_cause :
    ¬ ∃ recover : JsError → JsError, ∀ (cause raised : JsError) (t : List Event),
      retryAction (perform (.invoke "action")) 1 2000 (failingWorld cause) [] =
        (.error raised, t) → recover raised = cause := by
  rintro ⟨recover, h⟩
  have ha := h ⟨"a"⟩ _ _ rfl
  have hb := h ⟨"b"⟩ _ _ rfl
  rw [ha] at hb
  exact absurd hb (by decide)

/-- C4, amended: when every attempt fails (maxAttempts >= 1), retryAction
rejects with a new error whose message is "All <maxAttempts> attempts failed.",
the same for every underlying cause; the message of the error thrown by the
final attempt is printed by console.warn as the last line before the rejection. -/
theorem retryAction_rejection_error (o : Op) (w : World) (maxAttempts : Int)
    (delayMs : Nat) (t : List Event) (h1 : 1 ≤ maxAttempts)
    (hfail : ∀ u, ∃ e, w.answer u o = .error e) :
    ∃ before last, w.answer before o = .error last ∧
      retryAction (perform o) maxAttempts delayMs w t =
        (.error ⟨s!"All {maxAttempts} attempts failed."⟩,
          before ++ [Event.op o,
            Event.console .warn s!"Attempt {maxAttempts} failed: {last.message}" none]) := by
  obtain ⟨t1, e, h0, hrun, _⟩ := retryLoop_all_fail o w maxAttempts delayMs hfail
    (maxAttempts.toNat - 1) maxAttempts.toNat 1 t (by omega) (by omega)
  exact ⟨t1, e, h0, hrun⟩

/-- C4 at a concrete input: one attempt allowed, the call fails with "boom". -/
theorem retryAction_rejection_error_witness :
    ∃ before last, (failingWorld ⟨"boom"⟩).answer before (.invoke "action") = .error last ∧
      retryAction (perform (.invoke "action")) 1 2000 (failingWorld ⟨"boom"⟩) [] =
        (.error ⟨s!"All {(1 : Int)} attempts failed."⟩,
          before ++ [Event.op (.invoke "action"),
            Event.console .warn s!"Attempt {(1 : Int)} failed: {last.message}" none]) :=
  retryAction_rejection_error (.invoke "action") (failingWorld ⟨"boom"⟩) 1 2000 [] (by decide)
    (fun _ => ⟨⟨"boom"⟩, rfl⟩)

/-! ## C5, C6: the tab selection -/

theorem filter_headD {α : Type} (p : α → Bool) (l : List α) (d : α) :
    (l.filter p).headD d = (l.find? p).getD d := by
  induction l with
  | nil => rfl
  | cons a l ih =>
    by_cases h : p a = true
    · simp [List.filter, List.find?, h]
    · simp only [Bool.not_eq_true] at h
      simp only [List.filter, List.find?, h]
      exact ih

/-- The tab selection in closed form: the first handle of `newTabs` that is not
in `oldTabs` when `newTabs` is the longer list and has one, `current` otherwise. -/
theorem detailTab_eq (oldTabs newTabs : List String) (current : String) :
    detailTab oldTabs newTabs current =
      if oldTabs.length < newTabs.length then
        (newTabs.find? (fun x => !oldTabs.contains x)).getD current
      else current := by
  unfold detailTab
  by_cases hlen : oldTabs.length < newTabs.length
  · have hgt : newTabs.length > oldTabs.length := hlen
    simp only [hgt, hlen, if_true]
    by_cases hd : (newTabs.filter (fun x => !oldTabs.contains x)).length ≠ 0
    · simp only [hd, ne_eq, not_false_eq_true, if_true]
      exact filter_headD _ _ _
    · have hnil : newTabs.filter (fun x => !oldTabs.contains x) = [] := by
        simpa using hd
      rw [← filter_headD, hnil]
      simp
  · have hgt : ¬ newTabs.length > oldTabs.length := hlen
    simp only [hgt, hlen, if_false]

/-- C5 as stated fails: with two new handles (not exactly one) the selection
does not return the fallback. -/
theorem detailTab_two_new_is_not_fallback :
    (["A", "B", "C", "D"].filter (fun x => !(List.contains ["A", "B"] x))).length = 2 ∧
      detailTab ["A", "B"] ["A", "B", "C", "D"] "A" = "C" ∧
      detailTab ["A", "B"] ["A", "B", "C", "D"] "A" ≠ "A" := by
  decide

/-- C5, amended: the selection returns the first element of after that is not
in before when after has more entries than before and has such an element (so
the unique new handle when there is exactly one and after is the longer list),
and returns fallback in every other case; resolve([A,B],[A,B],A) = A and
resolve([A,B],[A,B,C],A) = C. -/
theorem detailTab_selection (before after : List String) (fallback : String) :
    (∀ x, before.length < after.length →
        after.find? (fun y => !before.contains y) = some x →
        detailTab before after fallback = x) ∧
      (∀ x, before.length < after.length → (∀ y, (y ∈ after ∧ y ∉ before) ↔ y = x) →
        detailTab before after fallback = x) ∧
      (¬ (before.length < after.length ∧ ∃ y, y ∈ after ∧ y ∉ before) →
        detailTab before after fallback = fallback) ∧
      detailTab ["A", "B"] ["A", "B"] "A" = "A" ∧
      detailTab ["A", "B"] ["A", "B", "C"] "A" = "C" := by
  refine ⟨?_, ?_, ?_, by decide, by decide⟩
  · intro x hlen hfind
    rw [detailTab_eq, if_pos hlen, hfind]
    rfl
  · intro x hlen huniq
    rw [detailTab_eq, if_pos hlen]
    cases hfind : after.find? (fun y => !before.contains y) with
    | none =>
      rw [List.find?_eq_none] at hfind
      have hx := (huniq x).mpr rfl
      have := hfind x hx.1
      simp [hx.2] at this
    | some z =>
      have hz1 := List.mem_of_find?_eq_some hfind
      have hz2 := List.find?_some hfind
      have hz3 : z ∉ before := by simpa using hz2
      have := (huniq z).mp ⟨hz1, hz3⟩
      simp [this]
  · intro hnot
    rw [detailTab_eq]
    by_cases hlen : before.length < after.length
    · rw [if_pos hlen]
      cases hfind : after.find? (fun y => !before.contains y) with
      | none => rfl
      | some z =>
        have hz1 := List.mem_of_find?_eq_some hfind
        have hz2 := List.find?_some hfind
        have hz3 : z ∉ before := by simpa using hz2
        exact absurd ⟨hlen, z, hz1, hz3⟩ hnot
    · rw [if_neg hlen]

/-- C5 at concrete inputs: one handle added, one handle swapped, none added. -/
theorem detailTab_selection_witness :
    detailTab ["A", "B"] ["A", "B", "C"] "A" = "C" ∧
      detailTab ["A", "B"] ["A", "C", "B"] "A" = "C" ∧
      detailTab ["A", "B"] ["A", "C"] "A" = "A" :=
  ⟨(detailTab_selection ["A", "B"] ["A", "B", "C"] "A").1 "C" (by decide) (by decide),
   (detailTab_selection ["A", "B"] ["A", "C", "B"] "A").2.1 "C" (by decide) (by
      intro y
      simp only [List.mem_cons, List.mem_singleton, List.not_mem_nil, or_false]
      constructor
      · rintro ⟨h1, h2⟩
        rcases h1 with h | h | h
        · exact absurd (Or.inl h) h2
        · exact h
        · exact absurd (Or.inr h) h2
      · rintro rfl
        exact ⟨Or.inr (Or.inl rfl), by decide⟩),
   (detailTab_selection ["A", "B"] ["A", "C"] "A").2.2.1 (by
      rintro ⟨h, _⟩
      exact absurd h (by decide))⟩

/-- C6 as stated fails: two handles of after are not in before, yet the
selection returns the fallback, which is none of them, because after is not
longer than before. -/
theorem detailTab_two_new_same_length :
    ["A", "D", "E"].filter (fun x => !(List.contains ["A", "B", "C"] x)) = ["D", "E"] ∧
      detailTab ["A", "B", "C"] ["A", "D", "E"] "A" = "A" := by
  decide

/-- C6, amended: when after has more entries than before and contains handles
that are not in before (two or more included, e.g. before = [A,B],
after = [A,B,C,D], fallback = A), the selection returns the first element of
after, in list order, that is not in before (C in the example): it is a new
handle and every element of after in front of it is in before. -/
theorem detailTab_first_new (before after : List String) (fallback : String)
    (hlen : before.length < after.length) (hnew : ∃ y, y ∈ after ∧ y ∉ before) :
    (∃ front back, after = front ++ detailTab before after fallback :: back ∧
        (∀ y ∈ front, y ∈ before) ∧ detailTab before after fallback ∉ before) ∧
      detailTab ["A", "B"] ["A", "B", "C", "D"] "A" = "C" := by
  refine ⟨?_, by decide⟩
  rw [detailTab_eq, if_pos hlen]
  cases hfind : after.find? (fun y => !before.contains y) with
  | none =>
    rw [List.find?_eq_none] at hfind
    obtain ⟨y, hy1, hy2⟩ := hnew
    have := hfind y hy1
    simp [hy2] at this
  | some z =>
    obtain ⟨hz, front, back, hsplit, hfront⟩ := List.find?_eq_some.mp hfind
    refine ⟨front, back, hsplit, ?_, ?_⟩
    · intro y hy
      have := hfront y hy
      simpa using this
    · simpa using hz

/-- C6 at the input of the claim: before = [A,B], after = [A,B,C,D]. -/
theorem detailTab_first_new_witness :
    (∃ front back, ["A", "B", "C", "D"] =
        front ++ detailTab ["A", "B"] ["A", "B", "C", "D"] "A" :: back ∧
        (∀ y ∈ front, y ∈ ["A", "B"]) ∧
        detailTab ["A", "B"] ["A", "B", "C", "D"] "A" ∉ ["A", "B"]) ∧
      detailTab ["A", "B"] ["A", "B", "C", "D"] "A" = "C" :=
  detailTab_first_new ["A", "B"] ["A", "B", "C", "D"] "A" (by decide)
    ⟨"C", by decide, by decide⟩

/-! ## Counting events -/

theorem adds_mono {α : Type} (mk : Event) (n k : Nat) (m : M α) (h : Adds mk n m)
    (hle : n ≤ k) : Adds mk k m := by
  intro w t
  obtain ⟨added, h1, h2⟩ := h w t
  exact ⟨added, h1, le_trans h2 hle⟩

theorem adds_pure {α : Type} (mk : Event) (a : α) : Adds mk 0 (pure a : M α) :=
  fun _ t => ⟨[], by simp [pure_run], by simp⟩

theorem adds_throwJs {α : Type} (mk : Event) (e : JsError) : Adds mk 0 (throwJs e : M α) :=
  fun _ t => ⟨[], by simp [throwJs_run], by simp⟩

theorem adds_emit (mk e : Event) (h : e ≠ mk) : Adds mk 0 (emit e) :=
  fun _ t => ⟨[e], rfl, by simp [List.count_cons, h]⟩

theorem adds_emit_one (mk e : Event) : Adds mk 1 (emit e) :=
  fun _ t => ⟨[e], rfl, by
    rw [List.count_cons, List.count_nil]
    split <;> omega⟩

theorem adds_perform (mk : Event) (o : Op) (h : Event.op o ≠ mk) : Adds mk 0 (perform o) :=
  fun _ t => ⟨[Event.op o], rfl, by simp [List.count_cons, h]⟩

theorem adds_bind {α β : Type} (mk : Event) (n k : Nat) (m : M α) (f : α → M β)
    (hm : Adds mk n m) (hf : ∀ a, Adds mk k (f a)) : Adds mk (n + k) (m >>= f) := by
  intro w t
  obtain ⟨a1, h1, c1⟩ := hm w t
  rw [bind_run]
  cases hr : m w t with
  | mk r t1 =>
    rw [hr] at h1
    simp only at h1
    subst h1
    cases r with
    | error e => exact ⟨a1, rfl, by omega⟩
    | ok a =>
      obtain ⟨a2, h2, c2⟩ := hf a w (t ++ a1)
      refine ⟨a1 ++ a2, ?_, ?_⟩
      · simp only [h2, List.append_assoc]
      · rw [List.count_append]
        omega

theorem adds_tryCatchJs {α : Type} (mk : Event) (n k : Nat) (body : M α)
    (handler : JsError → M α) (hb : Adds mk n body) (hh : ∀ e, Adds mk k (handler e)) :
    Adds mk (n + k) (tryCatchJs body handler) := by
  intro w t
  obtain ⟨a1, h1, c1⟩ := hb w t
  unfold tryCatchJs
  cases hr : body w t with
  | mk r t1 =>
    rw [hr] at h1
    simp only at h1
    subst h1
    cases r with
    | ok a => exact ⟨a1, rfl, by omega⟩
    | error e =>
      obtain ⟨a2, h2, c2⟩ := hh e w (t ++ a1)
      refine ⟨a1 ++ a2, ?_, ?_⟩
      · simp only [h2, List.append_assoc]
      · rw [List.count_append]
        omega

theorem quiet_bind {α β : Type} (mk : Event) (m : M α) (f : α → M β)
    (hm : Adds mk 0 m) (hf : ∀ a, Adds mk 0 (f a)) : Adds mk 0 (m >>= f) :=
  adds_bind mk 0 0 m f hm hf

theorem quiet_tryCatchJs {α : Type} (mk : Event) (body : M α) (handler : JsError → M α)
    (hb : Adds mk 0 body) (hh : ∀ e, Adds mk 0 (handler e)) :
    Adds mk 0 (tryCatchJs body handler) :=
  adds_tryCatchJs mk 0 0 body handler hb hh

/-- A console line built from a fixed opening and a variable rest differs from
every line that starts with another character. -/
theorem interpolated_ne (lvl lvl2 : Level) (a b c lit : String) (d d2 : Option JsError)
    (h : a.data.head? ≠ lit.data.head? ∧ a.data ≠ []) :
    Event.console lvl (a ++ b ++ c) d ≠ Event.console lvl2 lit d2 := by
  intro heq
  injection heq with _ htext _
  have hdata := congrArg String.data htext
  simp only [String.data_append] at hdata
  obtain ⟨h1, h2⟩ := h
  cases ha : a.data with
  | nil => exact h2 ha
  | cons x xs =>
    rw [ha] at hdata h1
    rw [← hdata] at h1
    simp at h1

/-- The retry loop adds nothing that its action does not add, apart from its
own warning, notice and timer. -/
theorem quiet_retryLoop {α : Type} (mk : Event) (action : M α) (retries : Int) (delayMs : Nat)
    (ha : Adds mk 0 action) (hw : ∀ s, Event.console .warn s none ≠ mk)
    (hn : Event.retryNotice delayMs ≠ mk) (ht : Event.timeout delayMs ≠ mk) :
    ∀ (fuel : Nat) (attempt : Int), Adds mk 0 (retryLoop action retries delayMs fuel attempt) := by
  intro fuel
  induction fuel with
  | zero => exact fun _ => adds_pure mk _
  | succ fuel ih =>
    intro attempt
    unfold retryLoop
    split
    · refine quiet_tryCatchJs mk _ _ (quiet_bind mk _ _ ha (fun _ => adds_pure mk _)) (fun e => ?_)
      refine quiet_bind mk _ _ (adds_emit mk _ (hw _)) (fun _ => ?_)
      split
      · exact adds_throwJs mk _
      · exact quiet_bind mk _ _ (adds_emit mk _ hn)
          (fun _ => quiet_bind mk _ _ (adds_emit mk _ ht) (fun _ => ih _))
    · exact adds_pure mk _

theorem quiet_retryAction {α : Type} (mk : Event) (action : M α) (retries : Int) (delayMs : Nat)
    (ha : Adds mk 0 action) (hw : ∀ s, Event.console .warn s none ≠ mk)
    (hn : Event.retryNotice delayMs ≠ mk) (ht : Event.timeout delayMs ≠ mk) :
    Adds mk 0 (retryAction action retries delayMs) :=
  quiet_retryLoop mk action retries delayMs ha hw hn ht _ _

theorem mem_loopMarkers (mk : Event) (h : mk ∈ loopMarkers) :
    mk = triggerStarted ∨ mk = dismissStarted ∨ mk = skipClicked ∨
      mk = Event.op (.click skipXPath) ∨ mk = Event.op (.waitLocated otpModalCss 15000) := by
  simpa [loopMarkers] using h

theorem takeScreenshot_quiet (mk : Event) (hmk : mk ∈ loopMarkers) (filename : String) :
    Adds mk 0 (takeScreenshot filename) := by
  unfold takeScreenshot consoleLog
  rcases mem_loopMarkers mk hmk with rfl | rfl | rfl | rfl | rfl <;>
  · refine quiet_bind _ _ _ (adds_perform _ _ (by decide)) (fun _ => ?_)
    refine quiet_bind _ _ _ (adds_perform _ _ (by intro h; cases h)) (fun _ => ?_)
    refine adds_emit _ _ ?_
    first
      | exact interpolated_ne _ _ _ _ _ _ _ _ (by decide)
      | (intro h; cases h)

theorem waitLocated_quiet (mk : Event) (css : String) (ms : Nat)
    (h : Event.op (.waitLocated css ms) ≠ mk) : Adds mk 0 (waitLocated css ms) :=
  quiet_bind mk _ _ (adds_perform mk _ h) (fun _ => adds_pure mk _)

theorem findElement_quiet (mk : Event) (by_ : String)
    (h : Event.op (.findElement by_) ≠ mk) : Adds mk 0 (findElement by_) :=
  quiet_bind mk _ _ (adds_perform mk _ h) (fun _ => adds_pure mk _)

theorem clickVerifyPay_quiet (mk : Event) (hmk : mk ∈ loopMarkers) (iterationLoop : Nat) :
    Adds mk 0 (clickVerifyPay iterationLoop) := by
  unfold clickVerifyPay consoleLog consoleWarn
  rcases mem_loopMarkers mk hmk with rfl | rfl | rfl | rfl | rfl <;>
  · refine quiet_bind _ _ _ (waitLocated_quiet _ _ _ (by decide)) (fun _ => ?_)
    refine quiet_bind _ _ _ (adds_perform _ _ (by intro h; cases h)) (fun _ => ?_)
    refine quiet_bind _ _ _ (adds_perform _ _ (by intro h; cases h)) (fun _ => ?_)
    refine quiet_bind _ _ _ (adds_perform _ _ (by decide)) (fun _ => ?_)
    refine quiet_bind _ _ _ (quiet_tryCatchJs _ _ _ ?_ (fun _ => ?_)) (fun _ => ?_)
    · exact quiet_bind _ _ _ (adds_perform _ _ (by intro h; cases h))
        (fun _ => adds_emit _ _ (by decide))
    · refine quiet_bind _ _ _ (adds_emit _ _ (by decide)) (fun _ => ?_)
      exact quiet_bind _ _ _ (adds_perform _ _ (by intro h; cases h))
        (fun _ => adds_emit _ _ (by decide))
    · exact takeScreenshot_quiet _ hmk _

theorem retry_lines_ne (mk : Event) (hmk : mk ∈ loopMarkers) (delayMs : Nat) :
    (∀ s, Event.console .warn s none ≠ mk) ∧ Event.retryNotice delayMs ≠ mk ∧
      Event.timeout delayMs ≠ mk := by
  rcases mem_loopMarkers mk hmk with rfl | rfl | rfl | rfl | rfl <;>
  · refine ⟨fun s h => ?_, fun h => ?_, fun h => ?_⟩ <;> cases h

/-- Step 1 prints its opening line once and none of the other counted events. -/
theorem triggerStep_adds (mk : Event) (hmk : mk ∈ loopMarkers) (iterationLoop : Nat) :
    Adds mk (if mk = triggerStarted then 1 else 0) (triggerStep iterationLoop) := by
  have hretry : Adds mk 0 (retryAction (clickVerifyPay iterationLoop) 5 2000) :=
    quiet_retryAction mk _ _ _ (clickVerifyPay_quiet mk hmk iterationLoop)
      (retry_lines_ne mk hmk 2000).1 (retry_lines_ne mk hmk 2000).2.1
      (retry_lines_ne mk hmk 2000).2.2
  have hrest : Adds mk 0 (do
      let _ ← retryAction (clickVerifyPay iterationLoop) 5 2000
      consoleLog "Final Payment Request (verify/pay) clicked."
      pure true) := by
    refine quiet_bind _ _ _ hretry (fun _ => ?_)
    refine quiet_bind _ _ _ (adds_emit _ _ ?_) (fun _ => adds_pure _ _)
    rcases mem_loopMarkers mk hmk with rfl | rfl | rfl | rfl | rfl <;> decide
  have hcatch : ∀ error : JsError, Adds mk 0 (do
      consoleErrorWith
        s!"Failed to click 'Verify and Pay' on iteration {iterationLoop}:" error
      pure false) := by
    intro error
    refine quiet_bind _ _ _ (adds_emit _ _ ?_) (fun _ => adds_pure _ _)
    rcases mem_loopMarkers mk hmk with rfl | rfl | rfl | rfl | rfl <;>
    · intro h
      cases h
  have hopen : Adds mk (if mk = triggerStarted then 1 else 0)
      (consoleLog "Looking for final pay button (.prime__btn.paynow__btn)...") := by
    by_cases h : mk = triggerStarted
    · rw [if_pos h]
      exact adds_emit_one _ _
    · rw [if_neg h]
      exact adds_emit _ _ (fun h2 => h h2.symm)
  unfold triggerStep
  exact adds_mono mk (((if mk = triggerStarted then 1 else 0) + 0) + 0) _ _
    (adds_tryCatchJs mk _ 0 _ _ (adds_bind mk _ 0 _ _ hopen (fun _ => hrest)) hcatch) (by omega)

/-- One run of `clickSkip` prints "Clicked 'SKIP' button." only when it resolves,
and then once. -/
theorem clickSkip_adds (w : World) (t : List Event) :
    ∃ added, (clickSkip w t).2 = t ++ added ∧ added.count skipClicked ≤ 1 ∧
      ((∃ e, (clickSkip w t).1 = .error e) → added.count skipClicked = 0) := by
  unfold clickSkip findElement consoleLog
  simp only [bind_run, perform_run, emit_run, pure_run]
  cases w.answer t (Op.findElement skipXPath) with
  | error e => exact ⟨[Event.op (.findElement skipXPath)], rfl, by decide, fun _ => by decide⟩
  | ok v =>
    simp only []
    cases w.answer (t ++ [Event.op (Op.findElement skipXPath)]) (Op.click skipXPath) with
    | error e =>
      exact ⟨[Event.op (.findElement skipXPath), Event.op (.click skipXPath)], by simp,
        by decide, fun _ => by decide⟩
    | ok v2 =>
      refine ⟨[Event.op (.findElement skipXPath), Event.op (.click skipXPath), skipClicked],
        by simp [skipClicked], by decide, ?_⟩
      rintro ⟨e, he⟩
      cases he

/-- A retry loop whose action adds the event only when it resolves, and then at
most once, adds it at most once. -/
theorem adds_retryLoop_once {α : Type} (mk : Event) (action : M α) (retries : Int)
    (delayMs : Nat)
    (ha : ∀ w t, ∃ added, (action w t).2 = t ++ added ∧ added.count mk ≤ 1 ∧
      ((∃ e, (action w t).1 = .error e) → added.count mk = 0))
    (hw : ∀ s, Event.console .warn s none ≠ mk)
    (hn : Event.retryNotice delayMs ≠ mk) (ht : Event.timeout delayMs ≠ mk) :
    ∀ (fuel : Nat) (attempt : Int), Adds mk 1 (retryLoop action retries delayMs fuel attempt) := by
  intro fuel
  induction fuel with
  | zero => exact fun _ => adds_mono mk 0 1 _ (adds_pure mk _) (by omega)
  | succ fuel ih =>
    intro attempt w t
    by_cases hle : attempt ≤ retries
    · obtain ⟨added, h1, h2, h3⟩ := ha w t
      cases hr : action w t with
      | mk r t1 =>
        rw [hr] at h1 h3
        simp only at h1 h3
        subst h1
        cases r with
        | ok a =>
          rw [retryLoop_attempt_ok action retries delayMs fuel attempt w t _ a hle hr]
          exact ⟨added, rfl, h2⟩
        | error e =>
          have h0 : added.count mk = 0 := h3 ⟨e, rfl⟩
          by_cases heq : attempt = retries
          · subst heq
            rw [retryLoop_attempt_last action attempt delayMs fuel w t _ e hr]
            refine ⟨added ++ [Event.console .warn s!"Attempt {attempt} failed: {e.message}" none],
              by simp, ?_⟩
            rw [List.count_append, h0, List.count_cons, List.count_nil]
            simp [hw]
          · rw [retryLoop_attempt_retry action retries delayMs fuel attempt w t _ e
              (lt_of_le_of_ne hle heq) hr]
            obtain ⟨a2, h4, h5⟩ := ih (attempt + 1) w (t ++ added ++
              [Event.console .warn s!"Attempt {attempt} failed: {e.message}" none,
                Event.retryNotice delayMs, Event.timeout delayMs])
            refine ⟨added ++ ([Event.console .warn s!"Attempt {attempt} failed: {e.message}" none,
                Event.retryNotice delayMs, Event.timeout delayMs] ++ a2), ?_, ?_⟩
            · rw [h4]
              simp
            · rw [List.count_append, List.count_append, h0]
              have : List.count mk
                  [Event.console .warn s!"Attempt {attempt} failed: {e.message}" none,
                    Event.retryNotice delayMs, Event.timeout delayMs] = 0 := by
                simp [List.count_cons, hw, hn, ht]
              omega
    · refine ⟨[], ?_, by simp⟩
      simp only [retryLoop, if_neg hle, pure_run, List.append_nil]

theorem mem_stepMarkers (mk : Event) (h : mk ∈ stepMarkers) :
    mk = triggerStarted ∨ mk = dismissStarted ∨ mk = skipClicked := by
  simpa [stepMarkers] using h

theorem stepMarkers_subset (mk : Event) (h : mk ∈ stepMarkers) : mk ∈ loopMarkers := by
  rcases mem_stepMarkers mk h with rfl | rfl | rfl <;> decide

/-- The retried click on SKIP adds each step marker at most once, and the
opening line of step 1 never. -/
theorem retryAction_clickSkip_adds (mk : Event) (hmk : mk ∈ stepMarkers) :
    Adds mk (if mk = triggerStarted then 0 else 1) (retryAction clickSkip 5 2000) := by
  have hl := retry_lines_ne mk (stepMarkers_subset mk hmk) 2000
  rcases mem_stepMarkers mk hmk with rfl | rfl | rfl
  · rw [if_pos rfl]
    refine quiet_retryAction _ _ _ _ ?_ hl.1 hl.2.1 hl.2.2
    unfold clickSkip consoleLog
    refine quiet_bind _ _ _ (findElement_quiet _ _ (by decide)) (fun _ => ?_)
    exact quiet_bind _ _ _ (adds_perform _ _ (by intro h; cases h))
      (fun _ => adds_emit _ _ (by decide))
  · rw [if_neg (by decide)]
    refine adds_mono _ 0 1 _ (quiet_retryAction _ _ _ _ ?_ hl.1 hl.2.1 hl.2.2) (by omega)
    unfold clickSkip consoleLog
    refine quiet_bind _ _ _ (findElement_quiet _ _ (by decide)) (fun _ => ?_)
    exact quiet_bind _ _ _ (adds_perform _ _ (by intro h; cases h))
      (fun _ => adds_emit _ _ (by decide))
  · rw [if_neg (by decide)]
    exact adds_retryLoop_once _ _ _ _ clickSkip_adds hl.1 hl.2.1 hl.2.2 _ _

/-- Step 2 adds its opening line and the line of a click on SKIP at most once
each, and the opening line of step 1 never. -/
theorem dismissStep_adds (mk : Event) (hmk : mk ∈ stepMarkers) (iterationLoop : Nat) :
    Adds mk (if mk = triggerStarted then 0 else 1) (dismissStep iterationLoop) := by
  have hopen : Adds mk (if mk = dismissStarted then 1 else 0)
      (consoleLog "Waiting for OTP modal with 'SKIP' button...") := by
    by_cases h : mk = dismissStarted
    · rw [if_pos h]
      exact adds_emit_one _ _
    · rw [if_neg h]
      exact adds_emit _ _ (fun h2 => h h2.symm)
  have hclick : Adds mk (if mk = skipClicked then 1 else 0) (retryAction clickSkip 5 2000) := by
    have h := retryAction_clickSkip_adds mk hmk
    rcases mem_stepMarkers mk hmk with rfl | rfl | rfl
    · rw [if_pos rfl] at h
      rw [if_neg (by decide)]
      exact h
    · rw [if_neg (by decide)]
      have hl := retry_lines_ne dismissStarted (by decide) 2000
      refine quiet_retryAction _ _ _ _ ?_ hl.1 hl.2.1 hl.2.2
      unfold clickSkip consoleLog
      refine quiet_bind _ _ _ (findElement_quiet _ _ (by decide)) (fun _ => ?_)
      exact quiet_bind _ _ _ (adds_perform _ _ (by intro h; cases h))
        (fun _ => adds_emit _ _ (by decide))
    · rw [if_neg (by decide)] at h
      rw [if_pos rfl]
      exact h
  have htail : Adds mk 0 (do
      takeScreenshot s!"after_click_skip_otp_iter_{iterationLoop}.png"
      let skipSpan ← findElement skipXPath
      let _ ← perform (.waitStale skipSpan 10000)
      consoleLog "OTP modal closed after clicking 'SKIP'."
      pure true) := by
    refine quiet_bind _ _ _ (takeScreenshot_quiet mk (stepMarkers_subset mk hmk) _) (fun _ => ?_)
    rcases mem_stepMarkers mk hmk with rfl | rfl | rfl <;>
    · refine quiet_bind _ _ _ (findElement_quiet _ _ (by decide)) (fun _ => ?_)
      refine quiet_bind _ _ _ (adds_perform _ _ (by intro h; cases h)) (fun _ => ?_)
      exact quiet_bind _ _ _ (adds_emit _ _ (by decide)) (fun _ => adds_pure _ _)
  have hmid : Adds mk (if mk = skipClicked then 1 else 0) (do
      let _ ← waitLocated otpModalCss 15000
      consoleLog "OTP modal appeared."
      let _ ← perform (.sleep 2000)
      let _ ← retryAction clickSkip 5 2000
      takeScreenshot s!"after_click_skip_otp_iter_{iterationLoop}.png"
      let skipSpan ← findElement skipXPath
      let _ ← perform (.waitStale skipSpan 10000)
      consoleLog "OTP modal closed after clicking 'SKIP'."
      pure true) := by
    have h3 : Adds mk ((if mk = skipClicked then 1 else 0) + 0) (do
        let _ ← retryAction clickSkip 5 2000
        takeScreenshot s!"after_click_skip_otp_iter_{iterationLoop}.png"
        let skipSpan ← findElement skipXPath
        let _ ← perform (.waitStale skipSpan 10000)
        consoleLog "OTP modal closed after clicking 'SKIP'."
        pure true) := adds_bind mk _ 0 _ _ hclick (fun _ => htail)
    have hq : Event.op (.waitLocated otpModalCss 15000) ≠ mk ∧
        Event.console .log "OTP modal appeared." none ≠ mk ∧ Event.op (.sleep 2000) ≠ mk := by
      rcases mem_stepMarkers mk hmk with rfl | rfl | rfl <;> decide
    refine adds_mono mk (0 + (0 + (0 + ((if mk = skipClicked then 1 else 0) + 0)))) _ _ ?_
      (by omega)
    exact adds_bind mk 0 _ _ _ (waitLocated_quiet mk _ _ hq.1)
      (fun _ => adds_bind mk 0 _ _ _ (adds_emit mk _ hq.2.1)
        (fun _ => adds_bind mk 0 _ _ _ (adds_perform mk _ hq.2.2) (fun _ => h3)))
  have hcatch : ∀ e : JsError, Adds mk 0 (do
      consoleLog "No OTP modal or 'SKIP' button found. Assuming payment can proceed."
      pure false) := by
    intro e
    refine quiet_bind _ _ _ (adds_emit _ _ ?_) (fun _ => adds_pure _ _)
    rcases mem_stepMarkers mk hmk with rfl | rfl | rfl <;> decide
  unfold dismissStep
  refine adds_mono mk (((if mk = dismissStarted then 1 else 0) +
    (if mk = skipClicked then 1 else 0)) + 0) _ _
    (adds_tryCatchJs mk _ 0 _ _ (adds_bind mk _ _ _ _ hopen (fun _ => hmid)) hcatch) ?_
  rcases mem_stepMarkers mk hmk with rfl | rfl | rfl <;> decide

/-- One iteration adds each step marker at most once. -/
theorem iteration_adds (mk : Event) (hmk : mk ∈ stepMarkers) (iterationLoop : Nat) :
    Adds mk 1 (iteration iterationLoop) := by
  have hline : Adds mk 0 (consoleLog s!"\n--- Iteration {iterationLoop} ---") := by
    refine adds_emit _ _ ?_
    rcases mem_stepMarkers mk hmk with rfl | rfl | rfl <;>
    · exact interpolated_ne _ _ _ _ _ _ _ _ (by decide)
  have hrest : ∀ clicked : Bool, Adds mk (if mk = triggerStarted then 0 else 1)
      (if clicked = true then do
          let skipExists ← dismissStep iterationLoop
          pure (some skipExists)
        else pure none) := by
    intro clicked
    cases clicked
    · exact adds_mono mk 0 _ _ (adds_pure mk _) (by omega)
    · exact adds_mono mk ((if mk = triggerStarted then 0 else 1) + 0) _ _
        (adds_bind mk _ 0 _ _ (dismissStep_adds mk hmk iterationLoop) (fun _ => adds_pure mk _))
        (by omega)
  unfold iteration
  refine adds_mono mk (0 + ((if mk = triggerStarted then 1 else 0) +
    (if mk = triggerStarted then 0 else 1))) _ _
    (adds_bind mk 0 _ _ _ hline (fun _ => adds_bind mk _ _ _ _
      (triggerStep_adds mk (stepMarkers_subset mk hmk) iterationLoop) hrest)) ?_
  split <;> omega

/-- An iteration never throws: both of its steps catch what they raise. -/
theorem iteration_resolves (iterationLoop : Nat) :
    Resolves (fun _ => True) (iteration iterationLoop) := by
  unfold iteration consoleLog
  refine resolves_bind (fun _ => True) _ _ _ (resolves_emit _) (fun _ _ => ?_)
  refine resolves_bind (fun _ => True) _ _ _ ?_ (fun clicked _ => ?_)
  · unfold triggerStep consoleErrorWith
    exact resolves_tryCatchJs _ _ _ (fun _ _ _ _ _ => trivial)
      (fun _ => resolves_bind (fun _ => True) _ _ _ (resolves_emit _)
        (fun _ _ => resolves_pure _ _ trivial))
  · cases clicked
    · exact resolves_pure _ _ trivial
    · refine resolves_bind (fun _ => True) _ _ _ ?_ (fun _ _ => resolves_pure _ _ trivial)
      unfold dismissStep consoleLog
      exact resolves_tryCatchJs _ _ _ (fun _ _ _ _ _ => trivial)
        (fun _ => resolves_bind (fun _ => True) _ _ _ (resolves_emit _)
          (fun _ _ => resolves_pure _ _ trivial))

/-! ## The loop, one iteration at a time -/

theorem payLoop_exit (maxIterations fuel iterationLoop : Nat) (skipExists : Bool)
    (h : ¬ (skipExists = true ∧ iterationLoop < maxIterations)) :
    payLoop maxIterations fuel iterationLoop skipExists = pure ⟨iterationLoop, skipExists, false⟩ := by
  cases fuel with
  | zero => rfl
  | succ fuel =>
    have hc : (skipExists && decide (iterationLoop < maxIterations)) = false := by
      cases skipExists <;> simp_all
    simp only [payLoop, hc, Bool.false_eq_true, if_false]

theorem payLoop_run_break (maxIterations fuel iterationLoop : Nat) (w : World)
    (t t1 : List Event) (hcap : iterationLoop < maxIterations)
    (h : iteration (iterationLoop + 1) w t = (.ok none, t1)) :
    payLoop maxIterations (fuel + 1) iterationLoop true w t =
      (.ok ⟨iterationLoop + 1, true, true⟩, t1) := by
  simp only [payLoop, hcap, decide_True, Bool.and_self, if_true, bind_run, h]
  rfl

theorem payLoop_run_next (maxIterations fuel iterationLoop : Nat) (w : World)
    (t t1 : List Event) (skipExists : Bool) (hcap : iterationLoop < maxIterations)
    (h : iteration (iterationLoop + 1) w t = (.ok (some skipExists), t1)) :
    payLoop maxIterations (fuel + 1) iterationLoop true w t =
      payLoop maxIterations fuel (iterationLoop + 1) skipExists w t1 := by
  simp only [payLoop, hcap, decide_True, Bool.and_self, if_true, bind_run, h]

/-- The bound on unfolding is never the reason the loop stops: any bound of at
least `maxIterations - iterationLoop` gives the same run. -/
theorem payLoop_fuel (maxIterations : Nat) :
    ∀ (fuel iterationLoop : Nat) (skipExists : Bool), maxIterations - iterationLoop ≤ fuel →
      payLoop maxIterations fuel iterationLoop skipExists =
        payLoop maxIterations (maxIterations - iterationLoop) iterationLoop skipExists := by
  intro fuel
  induction fuel with
  | zero =>
    intro iterationLoop skipExists h
    have h0 : maxIterations - iterationLoop = 0 := by omega
    rw [h0]
  | succ fuel ih =>
    intro iterationLoop skipExists h
    by_cases hc : skipExists = true ∧ iterationLoop < maxIterations
    · obtain ⟨hs, hcap⟩ := hc
      subst hs
      obtain ⟨k, hk⟩ : ∃ k, maxIterations - iterationLoop = k + 1 :=
        ⟨maxIterations - iterationLoop - 1, by omega⟩
      have hk2 : maxIterations - (iterationLoop + 1) = k := by omega
      rw [hk]
      funext w t
      cases hr : iteration (iterationLoop + 1) w t with
      | mk r t1 =>
        cases r with
        | error e =>
          simp only [payLoop, hcap, decide_True, Bool.and_self, if_true, bind_run, hr]
        | ok b =>
          cases b with
          | none =>
            rw [payLoop_run_break _ _ _ w t t1 hcap hr, payLoop_run_break _ _ _ w t t1 hcap hr]
          | some s =>
            rw [payLoop_run_next _ _ _ w t t1 s hcap hr, payLoop_run_next _ _ _ w t t1 s hcap hr,
              ih (iterationLoop + 1) s (by omega), hk2]
    · rw [payLoop_exit _ _ _ _ hc, payLoop_exit _ _ _ _ hc]

/-- The loop never throws, its counter never passes the cap, and each step
marker is added at most once per iteration. -/
theorem payLoop_bounded (maxIterations : Nat) (mk : Event) (hmk : mk ∈ stepMarkers) :
    ∀ (fuel iterationLoop : Nat) (skipExists : Bool) (w : World) (t : List Event),
      ∃ exit added, payLoop maxIterations fuel iterationLoop skipExists w t =
          (.ok exit, t ++ added) ∧
        iterationLoop ≤ exit.iterationLoop ∧
        exit.iterationLoop ≤ max iterationLoop maxIterations ∧
        added.count mk ≤ exit.iterationLoop - iterationLoop := by
  intro fuel
  induction fuel with
  | zero =>
    intro iterationLoop skipExists w t
    exact ⟨⟨iterationLoop, skipExists, false⟩, [], by simp [payLoop, pure_run], le_refl _,
      le_max_left _ _, by simp⟩
  | succ fuel ih =>
    intro iterationLoop skipExists w t
    by_cases hc : skipExists = true ∧ iterationLoop < maxIterations
    · obtain ⟨hs, hcap⟩ := hc
      subst hs
      obtain ⟨r, t1, hr, _⟩ := iteration_resolves (iterationLoop + 1) w t
      obtain ⟨a1, ha1, hc1⟩ := iteration_adds mk hmk (iterationLoop + 1) w t
      rw [hr] at ha1
      simp only at ha1
      subst ha1
      cases r with
      | none =>
        refine ⟨⟨iterationLoop + 1, true, true⟩, a1,
          payLoop_run_break _ _ _ w t _ hcap hr, by simp, ?_, by simpa using hc1⟩
        simp only [le_max_iff]
        omega
      | some s =>
        obtain ⟨exit, a2, h2, h3, h4, h5⟩ := ih (iterationLoop + 1) s w (t ++ a1)
        refine ⟨exit, a1 ++ a2, ?_, by omega, ?_, ?_⟩
        · rw [payLoop_run_next _ _ _ w t _ s hcap hr, h2, List.append_assoc]
        · simp only [le_max_iff] at h4 ⊢
          omega
        · rw [List.count_append]
          omega
    · rw [payLoop_exit _ _ _ _ hc]
      exact ⟨⟨iterationLoop, skipExists, false⟩, [], by simp [pure_run], le_refl _,
        le_max_left _ _, by simp⟩

/-- The only error the retry loop raises is its own. -/
theorem retryLoop_error {α : Type} (action : M α) (retries : Int) (delayMs : Nat) :
    ∀ (fuel : Nat) (attempt : Int) (w : World) (t : List Event) (e : JsError),
      (retryLoop action retries delayMs fuel attempt w t).1 = .error e →
      e = ⟨s!"All {retries} attempts failed."⟩ := by
  intro fuel
  induction fuel with
  | zero =>
    intro attempt w t e h
    cases h
  | succ fuel ih =>
    intro attempt w t e h
    by_cases hle : attempt ≤ retries
    · cases hr : action w t with
      | mk r t1 =>
        cases r with
        | ok a =>
          rw [retryLoop_attempt_ok action retries delayMs fuel attempt w t t1 a hle hr] at h
          cases h
        | error e1 =>
          by_cases heq : attempt = retries
          · subst heq
            rw [retryLoop_attempt_last action attempt delayMs fuel w t t1 e1 hr] at h
            exact (Except.error.inj h).symm
          · rw [retryLoop_attempt_retry action retries delayMs fuel attempt w t t1 e1
              (lt_of_le_of_ne hle heq) hr] at h
            exact ih _ _ _ _ h
    · simp only [retryLoop, if_neg hle, pure_run] at h
      cases h

/-- An iteration whose retried trigger step throws prints the failure and
leaves the loop. -/
theorem iteration_run_trigger_failed (n : Nat) (w : World) (t : List Event) (e : JsError)
    (h : (retryAction (clickVerifyPay n) 5 2000 w
      (t ++ [iterationLine n, triggerStarted])).1 = .error e) :
    iteration n w t =
      (.ok none, (retryAction (clickVerifyPay n) 5 2000 w
        (t ++ [iterationLine n, triggerStarted])).2 ++ [triggerFailedLine n e]) := by
  cases hr : retryAction (clickVerifyPay n) 5 2000 w (t ++ [iterationLine n, triggerStarted]) with
  | mk r t1 =>
    rw [hr] at h
    simp only at h
    subst h
    simp only [iterationLine, triggerStarted] at hr
    simp only [iteration, triggerStep, bind_run, consoleLog, emit_run, tryCatchJs, consoleErrorWith,
      pure_run, List.append_assoc, List.singleton_append, hr, triggerFailedLine]
    rfl

/-- An iteration whose trigger step goes through and whose modal is not
located ends with `skipExists = false` right after the failed lookup. -/
theorem iteration_run_modal_absent (n : Nat) (w : World) (t : List Event) (v : Option Unit)
    (e : JsError)
    (h : (retryAction (clickVerifyPay n) 5 2000 w
      (t ++ [iterationLine n, triggerStarted])).1 = .ok v)
    (hmodal : w.answer ((retryAction (clickVerifyPay n) 5 2000 w
      (t ++ [iterationLine n, triggerStarted])).2 ++ [paymentClickedLine, dismissStarted])
      (.waitLocated otpModalCss 15000) = .error e) :
    iteration n w t =
      (.ok (some false), (retryAction (clickVerifyPay n) 5 2000 w
        (t ++ [iterationLine n, triggerStarted])).2 ++
          [paymentClickedLine, dismissStarted, Event.op (.waitLocated otpModalCss 15000),
            noModalLine]) := by
  cases hr : retryAction (clickVerifyPay n) 5 2000 w (t ++ [iterationLine n, triggerStarted]) with
  | mk r t1 =>
    rw [hr] at h hmodal
    simp only at h hmodal
    subst h
    simp only [iterationLine, triggerStarted] at hr
    simp only [paymentClickedLine, dismissStarted] at hmodal
    simp only [iteration, triggerStep, dismissStep, waitLocated, bind_run, consoleLog, emit_run,
      tryCatchJs, consoleErrorWith, pure_run, perform_run, List.append_assoc,
      List.singleton_append, hr, hmodal, if_true, paymentClickedLine, dismissStarted, noModalLine]
    rfl

/-! ## The cap warning is printed by nothing but the check after the loop -/

theorem head_append (a b : String) (x : Char) (h : a.data.head? = some x) :
    (a ++ b).data.head? = some x := by
  rw [String.data_append]
  cases ha : a.data with
  | nil => rw [ha] at h; cases h
  | cons y ys => rw [ha] at h; simpa using h

theorem console_ne_of_head (l1 l2 : Level) (s1 s2 : String) (d1 d2 : Option JsError)
    (x y : Char) (h1 : s1.data.head? = some x) (h2 : s2.data.head? = some y) (hxy : x ≠ y) :
    Event.console l1 s1 d1 ≠ Event.console l2 s2 d2 := by
  intro h
  injection h with _ hs _
  rw [hs, h2] at h1
  exact hxy (Option.some.inj h1).symm

theorem capWarning_head (maxIterations : Nat) :
    (capWarning maxIterations).data.head? = some 'R' :=
  head_append _ _ _ (head_append _ _ _ rfl)

theorem takeScreenshot_quiet_cap (maxIterations : Nat) (filename : String) :
    Adds (capWarned maxIterations) 0 (takeScreenshot filename) := by
  unfold takeScreenshot consoleLog capWarned
  refine quiet_bind _ _ _ (adds_perform _ _ (by intro h; cases h)) (fun _ => ?_)
  refine quiet_bind _ _ _ (adds_perform _ _ (by intro h; cases h)) (fun _ => ?_)
  exact adds_emit _ _ (by intro h; cases h)

theorem clickVerifyPay_quiet_cap (maxIterations iterationLoop : Nat) :
    Adds (capWarned maxIterations) 0 (clickVerifyPay iterationLoop) := by
  have hscreen := takeScreenshot_quiet_cap maxIterations
    s!"after_click_verify_pay_iter_{iterationLoop}.png"
  unfold clickVerifyPay waitLocated consoleLog consoleWarn
  unfold capWarned at hscreen ⊢
  refine quiet_bind _ _ _ (quiet_bind _ _ _ (adds_perform _ _ (by intro h; cases h))
    (fun _ => adds_pure _ _)) (fun _ => ?_)
  refine quiet_bind _ _ _ (adds_perform _ _ (by intro h; cases h)) (fun _ => ?_)
  refine quiet_bind _ _ _ (adds_perform _ _ (by intro h; cases h)) (fun _ => ?_)
  refine quiet_bind _ _ _ (adds_perform _ _ (by intro h; cases h)) (fun _ => ?_)
  refine quiet_bind _ _ _ (quiet_tryCatchJs _ _ _ ?_ (fun _ => ?_)) (fun _ => hscreen)
  · exact quiet_bind _ _ _ (adds_perform _ _ (by intro h; cases h))
      (fun _ => adds_emit _ _ (by intro h; cases h))
  · refine quiet_bind _ _ _ (adds_emit _ _ ?_) (fun _ => ?_)
    · exact console_ne_of_head _ _ _ _ _ _ 'A' 'R' rfl (capWarning_head maxIterations) (by decide)
    · exact quiet_bind _ _ _ (adds_perform _ _ (by intro h; cases h))
        (fun _ => adds_emit _ _ (by intro h; cases h))

/-- The retry loop adds nothing that its action does not add, apart from its
own lines; this form only asks that the warning it really prints differs from
the event. -/
theorem quiet_retryLoop_lines {α : Type} (mk : Event) (action : M α) (retries : Int)
    (delayMs : Nat) (ha : Adds mk 0 action)
    (hw : ∀ (attempt : Int) (message : String),
      Event.console .warn s!"Attempt {attempt} failed: {message}" none ≠ mk)
    (hn : Event.retryNotice delayMs ≠ mk) (ht : Event.timeout delayMs ≠ mk) :
    ∀ (fuel : Nat) (attempt : Int), Adds mk 0 (retryLoop action retries delayMs fuel attempt) := by
  intro fuel
  induction fuel with
  | zero => exact fun _ => adds_pure mk _
  | succ fuel ih =>
    intro attempt
    unfold retryLoop
    split
    · refine quiet_tryCatchJs mk _ _ (quiet_bind mk _ _ ha (fun _ => adds_pure mk _)) (fun e => ?_)
      refine quiet_bind mk _ _ (adds_emit mk _ (hw _ _)) (fun _ => ?_)
      split
      · exact adds_throwJs mk _
      · exact quiet_bind mk _ _ (adds_emit mk _ hn)
          (fun _ => quiet_bind mk _ _ (adds_emit mk _ ht) (fun _ => ih _))
    · exact adds_pure mk _

theorem retryAction_clickVerifyPay_quiet_cap (maxIterations iterationLoop : Nat) :
    Adds (capWarned maxIterations) 0 (retryAction (clickVerifyPay iterationLoop) 5 2000) := by
  refine quiet_retryLoop_lines _ _ _ _ (clickVerifyPay_quiet_cap maxIterations iterationLoop)
    (fun attempt message => ?_) (by intro h; cases h) (by intro h; cases h) _ _
  exact console_ne_of_head _ _ _ _ _ _ 'A' 'R'
    (head_append _ _ _ (head_append _ _ _ (head_append _ _ _ (head_append _ _ _ rfl))))
    (capWarning_head maxIterations) (by decide)

/-! ## C7: the loop is bounded -/

/-- C7: for every behaviour of the page (every world) and every history, the
pay/skip loop with cap maxIterations ends without throwing after at most
maxIterations iterations (and MAX_ITERATIONS is 10): its counter ends at most
at the cap, step 1 (the trigger step) is started at most maxIterations times,
step 2 (the SKIP dismissal) is started at most maxIterations times and at most
maxIterations clicks on SKIP go through; the bound on unfolding is not what
stops it, every larger bound gives the same run. -/
theorem payLoop_terminates_within_cap (maxIterations : Nat) (w : World) (t : List Event) :
    ∃ exit added, payLoop maxIterations maxIterations 0 true w t = (.ok exit, t ++ added) ∧
      (∀ fuel, maxIterations ≤ fuel →
        payLoop maxIterations fuel 0 true w t = (.ok exit, t ++ added)) ∧
      exit.iterationLoop ≤ maxIterations ∧
      added.count triggerStarted ≤ maxIterations ∧
      added.count dismissStarted ≤ maxIterations ∧
      added.count skipClicked ≤ maxIterations ∧
      MAX_ITERATIONS = 10 := by
  obtain ⟨exit, added, h1, _, h3, h4⟩ :=
    payLoop_bounded maxIterations triggerStarted (by decide) maxIterations 0 true w t
  obtain ⟨exit2, added2, h1b, _, _, h4b⟩ :=
    payLoop_bounded maxIterations dismissStarted (by decide) maxIterations 0 true w t
  obtain ⟨exit3, added3, h1c, _, _, h4c⟩ :=
    payLoop_bounded maxIterations skipClicked (by decide) maxIterations 0 true w t
  rw [h1] at h1b h1c
  have e2 : exit2 = exit ∧ added2 = added := by
    have := (Prod.mk.inj h1b)
    exact ⟨(Except.ok.inj this.1).symm, (List.append_cancel_left this.2).symm⟩
  have e3 : exit3 = exit ∧ added3 = added := by
    have := (Prod.mk.inj h1c)
    exact ⟨(Except.ok.inj this.1).symm, (List.append_cancel_left this.2).symm⟩
  rw [e2.1, e2.2] at h4b
  rw [e3.1, e3.2] at h4c
  have hcap : exit.iterationLoop ≤ maxIterations := by simpa using h3
  refine ⟨exit, added, h1, ?_, hcap, by omega, by omega, by omega, rfl⟩
  intro fuel hfuel
  rw [payLoop_fuel maxIterations fuel 0 true (by omega)]
  exact h1

/-- C7 for the loop of the handler when every call fails. -/
theorem payLoop_terminates_within_cap_witness :
    ∃ exit added, payLoop MAX_ITERATIONS MAX_ITERATIONS 0 true deadWorld [] =
        (.ok exit, [] ++ added) ∧
      (∀ fuel, MAX_ITERATIONS ≤ fuel →
        payLoop MAX_ITERATIONS fuel 0 true deadWorld [] = (.ok exit, [] ++ added)) ∧
      exit.iterationLoop ≤ MAX_ITERATIONS ∧
      added.count triggerStarted ≤ MAX_ITERATIONS ∧
      added.count dismissStarted ≤ MAX_ITERATIONS ∧
      added.count skipClicked ≤ MAX_ITERATIONS ∧
      MAX_ITERATIONS = 10 :=
  payLoop_terminates_within_cap MAX_ITERATIONS deadWorld []

/-! ## C8: a SKIP element that never disappears -/

/-- C8, the code at the input of the claim: cap 3 (and cap 10), every trigger
step goes through, the modal is found and SKIP is clicked in every iteration,
and the wait for SKIP to disappear always times out. The loop runs one
iteration, not three: the timeout is caught by the `catch` of step 2, which
sets skipExists to false; no cap warning is printed. -/
theorem payPhase_stubborn_modal_stops_after_one :
    (payPhase 3 stubbornWorld []).1 = .ok ⟨1, false, false⟩ ∧
      (payPhase 3 stubbornWorld []).2.count triggerStarted = 1 ∧
      (payPhase 3 stubbornWorld []).2.count paymentClickedLine = 1 ∧
      (payPhase 3 stubbornWorld []).2.count skipClicked = 1 ∧
      invocations (.waitStale skipXPath 10000) (payPhase 3 stubbornWorld []).2 = 1 ∧
      noModalLine ∈ (payPhase 3 stubbornWorld []).2 ∧
      capWarned 3 ∉ (payPhase 3 stubbornWorld []).2 ∧
      (payPhase MAX_ITERATIONS stubbornWorld []).1 = .ok ⟨1, false, false⟩ ∧
      capWarned MAX_ITERATIONS ∉ (payPhase MAX_ITERATIONS stubbornWorld []).2 := by
  refine ⟨rfl, ?_, ?_, ?_, ?_, ?_, ?_, rfl, ?_⟩ <;> decide

/-! ## C9: the modal is absent on the first iteration -/

/-- C9: if the trigger step goes through on iteration 1 and the modal
section[data-cy="CommonModal_2"] is not located on iteration 1, the loop phase
ends with iteration count 1, skipExists false and no break, right after the
failed lookup; step 1 was started exactly once, SKIP was never clicked, and no
cap warning was printed (the cap is above 1, as MAX_ITERATIONS = 10 is). -/
theorem payPhase_stops_when_modal_absent (maxIterations : Nat) (w : World) (t : List Event)
    (v : Option Unit) (e : JsError) (hcap : 1 < maxIterations)
    (htrigger : (retryAction (clickVerifyPay 1) 5 2000 w
      (t ++ [loopStartLine] ++ [iterationLine 1, triggerStarted])).1 = .ok v)
    (hmodal : w.answer ((retryAction (clickVerifyPay 1) 5 2000 w
      (t ++ [loopStartLine] ++ [iterationLine 1, triggerStarted])).2 ++
        [paymentClickedLine, dismissStarted]) (.waitLocated otpModalCss 15000) = .error e) :
    ∃ added, payPhase maxIterations w t = (.ok ⟨1, false, false⟩, t ++ added) ∧
      t ++ added = (retryAction (clickVerifyPay 1) 5 2000 w
        (t ++ [loopStartLine] ++ [iterationLine 1, triggerStarted])).2 ++
          [paymentClickedLine, dismissStarted, Event.op (.waitLocated otpModalCss 15000),
            noModalLine, loopEndedLine] ∧
      added.count triggerStarted = 1 ∧
      added.count (Event.op (.click skipXPath)) = 0 ∧
      added.count skipClicked = 0 ∧
      added.count (capWarned maxIterations) = 0 ∧
      1 < MAX_ITERATIONS := by
  obtain ⟨k, rfl⟩ : ∃ k, maxIterations = k + 1 := ⟨maxIterations - 1, by omega⟩
  have hiter := iteration_run_modal_absent 1 w (t ++ [loopStartLine]) v e htrigger hmodal
  obtain ⟨a, ha, hc1⟩ := retryAction_clickVerifyPay_quiet_cap (k + 1) 1 w
    (t ++ [loopStartLine] ++ [iterationLine 1, triggerStarted])
  obtain ⟨a2, ha2, hc2⟩ := quiet_retryAction triggerStarted (clickVerifyPay 1) 5 2000
    (clickVerifyPay_quiet _ (by decide) 1) (retry_lines_ne _ (by decide) 2000).1
    (retry_lines_ne _ (by decide) 2000).2.1 (retry_lines_ne _ (by decide) 2000).2.2 w
    (t ++ [loopStartLine] ++ [iterationLine 1, triggerStarted])
  obtain ⟨a3, ha3, hc3⟩ := quiet_retryAction (Event.op (.click skipXPath)) (clickVerifyPay 1)
    5 2000 (clickVerifyPay_quiet _ (by decide) 1) (retry_lines_ne _ (by decide) 2000).1
    (retry_lines_ne _ (by decide) 2000).2.1 (retry_lines_ne _ (by decide) 2000).2.2 w
    (t ++ [loopStartLine] ++ [iterationLine 1, triggerStarted])
  obtain ⟨a4, ha4, hc4⟩ := quiet_retryAction skipClicked (clickVerifyPay 1) 5 2000
    (clickVerifyPay_quiet _ (by decide) 1) (retry_lines_ne _ (by decide) 2000).1
    (retry_lines_ne _ (by decide) 2000).2.1 (retry_lines_ne _ (by decide) 2000).2.2 w
    (t ++ [loopStartLine] ++ [iterationLine 1, triggerStarted])
  have e2 : a2 = a := List.append_cancel_left (ha2.symm.trans ha)
  have e3 : a3 = a := List.append_cancel_left (ha3.symm.trans ha)
  have e4 : a4 = a := List.append_cancel_left (ha4.symm.trans ha)
  rw [e2] at hc2
  rw [e3] at hc3
  rw [e4] at hc4
  rw [ha] at hiter
  have hloop : payLoop (k + 1) (k + 1) 0 true w (t ++ [loopStartLine]) =
      (.ok ⟨1, false, false⟩, t ++ [loopStartLine] ++ [iterationLine 1, triggerStarted] ++ a ++
        [paymentClickedLine, dismissStarted, Event.op (.waitLocated otpModalCss 15000),
          noModalLine]) := by
    rw [payLoop_run_next (k + 1) k 0 w _ _ false (by omega) hiter,
      payLoop_exit (k + 1) k 1 false (by simp)]
    rfl
  have hrun : payPhase (k + 1) w t =
      (.ok ⟨1, false, false⟩, t ++ [loopStartLine] ++ [iterationLine 1, triggerStarted] ++ a ++
        [paymentClickedLine, dismissStarted, Event.op (.waitLocated otpModalCss 15000),
          noModalLine] ++ [loopEndedLine]) := by
    have hge : ¬ (1 ≥ k + 1) := by omega
    simp only [payPhase, bind_run, consoleLog, emit_run]
    rw [show t ++ [Event.console Level.log
      "Starting continuous loop: Click 'Verify and Pay' -> Click 'SKIP' -> Repeat..." none] =
      t ++ [loopStartLine] from rfl, hloop]
    simp only [hge, if_false, pure_run, bind_run]
    rfl
  have hcapfix : ∀ l : List Event, capWarned (k + 1) ∉ l → l.count (capWarned (k + 1)) = 0 :=
    fun l h => List.count_eq_zero.mpr h
  refine ⟨[loopStartLine] ++ [iterationLine 1, triggerStarted] ++ a ++
    [paymentClickedLine, dismissStarted, Event.op (.waitLocated otpModalCss 15000),
      noModalLine] ++ [loopEndedLine], ?_, ?_, ?_, ?_, ?_, ?_, by decide⟩
  · rw [hrun]
    simp only [List.append_assoc]
  · rw [ha]
    simp only [List.append_assoc, List.cons_append, List.nil_append]
  · have h0 : a.count triggerStarted = 0 := by omega
    simp only [List.count_append, h0]
    decide
  · have h0 : a.count (Event.op (.click skipXPath)) = 0 := by omega
    simp only [List.count_append, h0]
    decide
  · have h0 : a.count skipClicked = 0 := by omega
    simp only [List.count_append, h0]
    decide
  · have h0 : a.count (capWarned (k + 1)) = 0 := by omega
    simp only [List.count_append, h0]
    rw [hcapfix [loopStartLine], hcapfix [iterationLine 1, triggerStarted],
      hcapfix [paymentClickedLine, dismissStarted, Event.op (.waitLocated otpModalCss 15000),
        noModalLine], hcapfix [loopEndedLine]]
    all_goals
      simp [capWarned, loopStartLine, iterationLine, triggerStarted, paymentClickedLine,
        dismissStarted, noModalLine, loopEndedLine]

/-- C9 in a world where every call succeeds except the lookup of the modal. -/
theorem payPhase_stops_when_modal_absent_witness :
    ∃ added, payPhase 10 noModalWorld [] = (.ok ⟨1, false, false⟩, [] ++ added) ∧
      [] ++ added = (retryAction (clickVerifyPay 1) 5 2000 noModalWorld
        ([] ++ [loopStartLine] ++ [iterationLine 1, triggerStarted])).2 ++
          [paymentClickedLine, dismissStarted, Event.op (.waitLocated otpModalCss 15000),
            noModalLine, loopEndedLine] ∧
      added.count triggerStarted = 1 ∧
      added.count (Event.op (.click skipXPath)) = 0 ∧
      added.count skipClicked = 0 ∧
      added.count (capWarned 10) = 0 ∧
      1 < MAX_ITERATIONS :=
  payPhase_stops_when_modal_absent 10 noModalWorld [] (some ()) ⟨"Wait timed out after 15000ms"⟩
    (by decide) rfl rfl

/-! ## C10: the trigger step runs out of attempts -/

/-- C10: in any iteration (any counter below the cap, any history), if the
retried click on 'Verify and Pay' rejects, the loop ends at once: the run of
the loop from that iteration on is the run of the retried click followed by
the one console.error line of the `catch` block, so no lookup of the modal, no
click on SKIP and no further iteration follows; the loop is left by `break`
with the counter of that iteration. The rejection is the one of exhausted
attempts, "All 5 attempts failed.". -/
theorem payLoop_aborts_when_trigger_exhausted (maxIterations fuel iterationLoop : Nat)
    (w : World) (t : List Event) (e : JsError)
    (hcap : iterationLoop < maxIterations) (hfuel : maxIterations - iterationLoop ≤ fuel)
    (hfail : (retryAction (clickVerifyPay (iterationLoop + 1)) 5 2000 w
      (t ++ [iterationLine (iterationLoop + 1), triggerStarted])).1 = .error e) :
    payLoop maxIterations fuel iterationLoop true w t =
        (.ok ⟨iterationLoop + 1, true, true⟩,
          (retryAction (clickVerifyPay (iterationLoop + 1)) 5 2000 w
            (t ++ [iterationLine (iterationLoop + 1), triggerStarted])).2 ++
            [triggerFailedLine (iterationLoop + 1) e]) ∧
      e = ⟨"All 5 attempts failed."⟩ := by
  obtain ⟨f, rfl⟩ : ∃ f, fuel = f + 1 := ⟨fuel - 1, by omega⟩
  constructor
  · exact payLoop_run_break maxIterations f iterationLoop w t _ hcap
      (iteration_run_trigger_failed (iterationLoop + 1) w t e hfail)
  · rw [retryLoop_error _ _ _ _ _ _ _ e hfail]
    rfl

/-- C10 in a world where every call fails, on the first iteration. -/
theorem payLoop_aborts_when_trigger_exhausted_witness :
    payLoop 10 10 0 true deadWorld [] =
        (.ok ⟨0 + 1, true, true⟩,
          (retryAction (clickVerifyPay (0 + 1)) 5 2000 deadWorld
            ([] ++ [iterationLine (0 + 1), triggerStarted])).2 ++
            [triggerFailedLine (0 + 1) ⟨"All 5 attempts failed."⟩]) ∧
      (⟨"All 5 attempts failed."⟩ : JsError) = ⟨"All 5 attempts failed."⟩ :=
  payLoop_aborts_when_trigger_exhausted 10 10 0 deadWorld [] ⟨"All 5 attempts failed."⟩
    (by decide) (by decide) rfl

/-! ## The handlers always answer -/

/-- The `catch` block of the handlers always answers with status 500. -/
theorem catchScrape_resolves (driver : Bool) (error : JsError) :
    Resolves (fun r => r = ⟨500, failureMessage⟩) (catchScrape driver error) := by
  intro w t
  cases driver
  · exact ⟨_, _, rfl, rfl⟩
  · cases h : w.answer (t ++ [Event.console .error "Error during scraping and booking:" (some error)])
        Op.quit with
    | ok v =>
      refine ⟨_, (t ++ [Event.console .error "Error during scraping and booking:" (some error)])
        ++ [Event.op .quit], ?_, rfl⟩
      simp [catchScrape, bind_run, consoleErrorWith, emit_run, tryCatchJs, perform_run, h, pure_run]
    | error e =>
      refine ⟨_, (t ++ [Event.console .error "Error during scraping and booking:" (some error)])
        ++ [Event.op .quit], ?_, rfl⟩
      simp [catchScrape, bind_run, consoleErrorWith, emit_run, tryCatchJs, perform_run, h, pure_run]

theorem workflowNewest_returns (q : Query) :
    Returns (fun r => r = ⟨200, successMessageNewest⟩) (workflowNewest q) := by
  unfold workflowNewest
  repeat (first | exact returns_pure _ _ rfl | (refine returns_bind _ _ _ (fun _ => ?_)))

theorem workflowApp1_returns (q : Query) :
    Returns (fun r => r = ⟨200, successMessageApp1⟩) (workflowApp1 q) := by
  unfold workflowApp1
  repeat (first | exact returns_pure _ _ rfl | (refine returns_bind _ _ _ (fun _ => ?_)))

/-- After the validation has passed, a handler always answers, with the 200 of
its workflow or with the 500 of the `catch` block. -/
theorem guarded_resolves (workflow : M Response) (okBody : String)
    (h : Returns (fun r => r = ⟨200, okBody⟩) workflow) :
    Resolves (fun r => r = ⟨200, okBody⟩ ∨ r = ⟨500, failureMessage⟩)
      (tryCatchJs (do launch; tryCatchJs workflow (catchScrape true)) (catchScrape false)) := by
  refine resolves_tryCatchJs _ _ _ ?_ (fun e w t => ?_)
  · refine returns_bind _ _ _ (fun _ => ?_)
    refine returns_tryCatchJs _ _ _ (fun w t a t1 h1 => Or.inl (h w t a t1 h1)) (fun e w t a t1 h1 => ?_)
    obtain ⟨b, t2, h2, hb⟩ := catchScrape_resolves true e w t
    rw [h2] at h1
    cases h1
    exact Or.inr hb
  · obtain ⟨b, t2, h2, hb⟩ := catchScrape_resolves false e w t
    exact ⟨b, t2, h2, Or.inr hb⟩

theorem truthy_eq_false_iff (p : Option String) : truthy p = false ↔ absentOrEmpty p := by
  cases p with
  | none => simp [truthy, absentOrEmpty]
  | some s => simp [truthy, absentOrEmpty]

theorem missingRequired_iff (q : Query) : missingRequired q = true ↔ lacksRequired q := by
  simp only [missingRequired, lacksRequired, Bool.or_eq_true, Bool.not_eq_true', truthy_eq_false_iff]
  tauto

/-! ## C1: validation -/

/-- C1: for every query in which one of firstName, lastName, email, mobile,
panNumber is missing or empty, both handlers (newest.js and app1.js) answer 400
after two console lines and without any call into the browser session or the
page; and for every query in which the five are present, whatever upiId is
(absent included), both handlers answer, and never with 400. -/
theorem scrape_validation (w : World) :
    (∀ q : Query, lacksRequired q →
      scrapeNewest q w [] = (.ok ⟨400, missingMessage⟩, rejectedHistory) ∧
      scrapeApp1 q w [] = (.ok ⟨400, missingMessage⟩, rejectedHistory) ∧
      ∀ o : Op, Event.op o ∉ rejectedHistory) ∧
    (∀ q : Query, ¬ lacksRequired q →
      (∃ r t, scrapeNewest q w [] = (.ok r, t) ∧ r.status ≠ 400) ∧
      (∃ r t, scrapeApp1 q w [] = (.ok r, t) ∧ r.status ≠ 400)) := by
  constructor
  · intro q hq
    have hm : missingRequired q = true := (missingRequired_iff q).mpr hq
    refine ⟨?_, ?_, ?_⟩
    · simp only [scrapeNewest, hm, if_true, bind_run, consoleLog, consoleError, emit_run, pure_run]
      rfl
    · simp only [scrapeApp1, hm, if_true, bind_run, consoleLog, consoleError, emit_run, pure_run]
      rfl
    · intro o ho
      simp [rejectedHistory] at ho
  · intro q hq
    have hm : missingRequired q = false := by
      rw [← Bool.not_eq_true]
      exact fun h => hq ((missingRequired_iff q).mp h)
    constructor
    · obtain ⟨r, t, h, hr⟩ := guarded_resolves _ _ (workflowNewest_returns q) w
        ([] ++ [Event.console .log "Incoming /scrape request..." none])
      refine ⟨r, t, ?_, ?_⟩
      · simp only [scrapeNewest, hm, bind_run, consoleLog, emit_run]
        exact h
      · rcases hr with hr | hr <;> rw [hr] <;> decide
    · obtain ⟨r, t, h, hr⟩ := guarded_resolves _ _ (workflowApp1_returns q) w
        ([] ++ [Event.console .log "Incoming /scrape request..." none])
      refine ⟨r, t, ?_, ?_⟩
      · simp only [scrapeApp1, hm, bind_run, consoleLog, emit_run]
        exact h
      · rcases hr with hr | hr <;> rw [hr] <;> decide

/-- C1 at concrete queries: without `email` both handlers answer 400 before the
session is built; with the five required parameters and no `upiId` the answer
is not 400. -/
theorem scrape_validation_witness :
    (scrapeNewest ⟨some "A", some "B", none, some "9", some "P", none⟩ calmWorld [] =
        (.ok ⟨400, missingMessage⟩, rejectedHistory) ∧
      scrapeApp1 ⟨some "A", some "B", none, some "9", some "P", none⟩ calmWorld [] =
        (.ok ⟨400, missingMessage⟩, rejectedHistory) ∧
      ∀ o : Op, Event.op o ∉ rejectedHistory) ∧
    ((∃ r t, scrapeNewest sampleQuery calmWorld [] = (.ok r, t) ∧ r.status ≠ 400) ∧
      (∃ r t, scrapeApp1 sampleQuery calmWorld [] = (.ok r, t) ∧ r.status ≠ 400)) :=
  ⟨(scrape_validation calmWorld).1 _ (Or.inr (Or.inr (Or.inl (Or.inl rfl)))),
   (scrape_validation calmWorld).2 sampleQuery (by
      simp [lacksRequired, absentOrEmpty, sampleQuery])⟩

/-! ## C16: attempts and delays of `retryAction` -/

/-- The retry loop on a single call, from any attempt: what it appends to the
history has one delay less than invocations when it resolves to a value, and
`retries - attempt` delays and one invocation more when it throws; it ends
without `return` only when the loop guard fails at once. -/
theorem retryLoop_delays (o : Op) (w : World) (retries : Int) (delayMs : Nat) :
    ∀ (fuel : Nat) (attempt : Int) (t : List Event), (retries - attempt + 1).toNat ≤ fuel →
      ∃ added, (retryLoop (perform o) retries delayMs fuel attempt w t).2 = t ++ added ∧
        (∀ v, (retryLoop (perform o) retries delayMs fuel attempt w t).1 = .ok (some v) →
          delays delayMs added + 1 = invocations o added) ∧
        ((retryLoop (perform o) retries delayMs fuel attempt w t).1 = .ok none →
          retries < attempt ∧ added = []) ∧
        (∀ e, (retryLoop (perform o) retries delayMs fuel attempt w t).1 = .error e →
          attempt ≤ retries ∧ (delays delayMs added : Int) = retries - attempt ∧
            (invocations o added : Int) = retries - attempt + 1) := by
  intro fuel
  induction fuel with
  | zero =>
    intro attempt t hfuel
    refine ⟨[], by simp [retryLoop, pure_run], ?_, ?_, ?_⟩
    · intro v h
      cases h
    · intro _
      exact ⟨by omega, rfl⟩
    · intro e h
      cases h
  | succ fuel ih =>
    intro attempt t hfuel
    by_cases hle : attempt ≤ retries
    · cases hans : w.answer t o with
      | ok v =>
        rw [retryLoop_attempt_ok (perform o) retries delayMs fuel attempt w t
          (t ++ [Event.op o]) v hle (by rw [perform_run, hans])]
        refine ⟨[Event.op o], rfl, ?_, ?_, ?_⟩
        · intro _ _
          simp [delays, invocations]
        · intro h
          cases h
        · intro e h
          cases h
      | error e1 =>
        by_cases heq : attempt = retries
        · subst heq
          rw [retryLoop_attempt_last (perform o) attempt delayMs fuel w t
            (t ++ [Event.op o]) e1 (by rw [perform_run, hans])]
          refine ⟨[Event.op o,
            Event.console .warn s!"Attempt {attempt} failed: {e1.message}" none],
            by simp, ?_, ?_, ?_⟩
          · intro v h
            cases h
          · intro h
            cases h
          · intro e _
            refine ⟨le_refl _, ?_, ?_⟩ <;> simp [delays, invocations]
        · have hlt : attempt < retries := lt_of_le_of_ne hle heq
          rw [retryLoop_attempt_retry (perform o) retries delayMs fuel attempt w t
            (t ++ [Event.op o]) e1 hlt (by rw [perform_run, hans])]
          obtain ⟨a2, h2, hsome, hnone, herr⟩ := ih (attempt + 1) (t ++ [Event.op o] ++
            [Event.console .warn s!"Attempt {attempt} failed: {e1.message}" none,
              Event.retryNotice delayMs, Event.timeout delayMs]) (by omega)
          have hd : delays delayMs ([Event.op o,
              Event.console .warn s!"Attempt {attempt} failed: {e1.message}" none,
              Event.retryNotice delayMs, Event.timeout delayMs] ++ a2) =
              delays delayMs a2 + 1 := by
            simp [delays, List.count_cons]
          have hi : invocations o ([Event.op o,
              Event.console .warn s!"Attempt {attempt} failed: {e1.message}" none,
              Event.retryNotice delayMs, Event.timeout delayMs] ++ a2) =
              invocations o a2 + 1 := by
            simp [invocations, List.count_cons]
          refine ⟨[Event.op o,
            Event.console .warn s!"Attempt {attempt} failed: {e1.message}" none,
            Event.retryNotice delayMs, Event.timeout delayMs] ++ a2, ?_, ?_, ?_, ?_⟩
          · rw [h2]
            simp
          · intro v h
            rw [hd, hi, hsome v h]
          · intro h
            have := (hnone h).1
            omega
          · intro e h
            obtain ⟨_, h4, h5⟩ := herr e h
            rw [hd, hi]
            refine ⟨hle, ?_, ?_⟩
            · push_cast
              omega
            · push_cast
              omega
    · refine ⟨[], by simp [retryLoop, if_neg hle, pure_run], ?_, ?_, ?_⟩
      · intro v h
        simp only [retryLoop, if_neg hle, pure_run] at h
        cases h
      · intro _
        exact ⟨by omega, rfl⟩
      · intro e h
        simp only [retryLoop, if_neg hle, pure_run] at h
        cases h

/-- C16: for every retries <= 0 and every action, retryAction never runs the
action and resolves to undefined with the history unchanged; retryAction
rejects only when retries >= 1; and for an action that is a single call, the
number of inter-attempt delays it has waited is the number of invocations
minus one when it resolves to a value (after at least one invocation) and
retries - 1 when it rejects. -/
theorem retryAction_attempts_and_delays {α : Type} (action : M α) (o : Op) (w : World)
    (retries : Int) (delayMs : Nat) (t : List Event) :
    (retries ≤ 0 → retryAction action retries delayMs w t = (.ok none, t)) ∧
      ((∃ e, (retryAction action retries delayMs w t).1 = .error e) → 1 ≤ retries) ∧
      ((∃ e, (retryAction (perform o) retries delayMs w t).1 = .error e) → 1 ≤ retries) ∧
      ∃ added, (retryAction (perform o) retries delayMs w t).2 = t ++ added ∧
        (∀ v, (retryAction (perform o) retries delayMs w t).1 = .ok (some v) →
          1 ≤ invocations o added ∧ delays delayMs added = invocations o added - 1) ∧
        (∀ e, (retryAction (perform o) retries delayMs w t).1 = .error e →
          (delays delayMs added : Int) = retries - 1 ∧
            (invocations o added : Int) = retries) := by
  have hzero : ∀ {β : Type} (act : M β), retries ≤ 0 →
      retryAction act retries delayMs w t = (.ok none, t) := by
    intro β act h
    have h0 : retries.toNat = 0 := by omega
    simp only [retryAction, h0, retryLoop, pure_run]
  have hrej : ∀ {β : Type} (act : M β),
      (∃ e, (retryAction act retries delayMs w t).1 = .error e) → 1 ≤ retries := by
    intro β act h
    by_contra hc
    obtain ⟨e, he⟩ := h
    rw [hzero act (by omega)] at he
    cases he
  refine ⟨hzero action, hrej action, hrej (perform o), ?_⟩
  obtain ⟨added, h1, hsome, _, herr⟩ :=
    retryLoop_delays o w retries delayMs retries.toNat 1 t (by omega)
  refine ⟨added, h1, ?_, ?_⟩
  · intro v h
    have := hsome v h
    omega
  · intro e h
    obtain ⟨_, h4, h5⟩ := herr e h
    constructor <;> omega

/-- C16 at concrete inputs: zero attempts allowed; two failures and a success
(three invocations, two delays); three failures out of three (two delays). -/
theorem retryAction_attempts_and_delays_witness :
    retryAction (perform (.invoke "action")) 0 2000 deadWorld [] = (.ok none, []) ∧
      (delays 2000 (retryAction (perform (.invoke "action")) 5 2000
          (flakyWorld 2 (.str "done")) []).2 = 2 ∧
        invocations (.invoke "action") (retryAction (perform (.invoke "action")) 5 2000
          (flakyWorld 2 (.str "done")) []).2 = 3) ∧
      ∃ added, (retryAction (perform (.invoke "action")) 3 2000 deadWorld []).2 = [] ++ added ∧
        (∀ v, (retryAction (perform (.invoke "action")) 3 2000 deadWorld []).1 =
            .ok (some v) →
          1 ≤ invocations (.invoke "action") added ∧
            delays 2000 added = invocations (.invoke "action") added - 1) ∧
        (∀ e, (retryAction (perform (.invoke "action")) 3 2000 deadWorld []).1 = .error e →
          (delays 2000 added : Int) = 3 - 1 ∧
            (invocations (.invoke "action") added : Int) = 3) :=
  ⟨(retryAction_attempts_and_delays (perform (.invoke "action")) (.invoke "action") deadWorld
      0 2000 []).1 (by decide),
    by decide,
    (retryAction_attempts_and_delays (perform (.invoke "action")) (.invoke "action") deadWorld
      3 2000 []).2.2.2⟩

/-! ## C12: engine failures answer 500 -/

theorem bind_ok_inv {α β : Type} (m : M α) (f : α → M β) (w : World) (t t2 : List Event)
    (b : β) (h : (m >>= f) w t = (.ok b, t2)) :
    ∃ a t1, m w t = (.ok a, t1) ∧ f a w t1 = (.ok b, t2) := by
  rw [bind_run] at h
  cases hr : m w t with
  | mk r t1 =>
    rw [hr] at h
    cases r with
    | ok a => exact ⟨a, t1, rfl, h⟩
    | error e => cases h

/-- The guarded `try` block of a handler, case by case: when the block throws,
the answer is the fixed 500; when it resolves, the answer is its 200 and the
history is that of the block. -/
theorem guarded_run (workflow : M Response) (okBody : String)
    (hret : Returns (fun r => r = ⟨200, okBody⟩) workflow) (w : World) (t : List Event) :
    (∀ e t1, (launch >>= fun _ => workflow) w t = (.error e, t1) →
      (tryCatchJs (do launch; tryCatchJs workflow (catchScrape true)) (catchScrape false) w t).1 =
        .ok ⟨500, failureMessage⟩) ∧
    (∀ r t1, (launch >>= fun _ => workflow) w t = (.ok r, t1) →
      tryCatchJs (do launch; tryCatchJs workflow (catchScrape true)) (catchScrape false) w t =
        (.ok ⟨200, okBody⟩, t1)) := by
  constructor
  · intro e t1 h
    rw [bind_run] at h
    cases hl : launch w t with
    | mk r tl =>
      rw [hl] at h
      cases r with
      | error e0 =>
        obtain ⟨b, t2, h2, hb⟩ := catchScrape_resolves false e0 w tl
        rw [tryCatchJs_run_error _ _ w t tl e0 (by rw [bind_run, hl]), h2, hb]
      | ok u =>
        simp only at h
        obtain ⟨b, t2, h2, hb⟩ := catchScrape_resolves true e w t1
        have hin : tryCatchJs workflow (catchScrape true) w tl = (.ok b, t2) := by
          rw [tryCatchJs_run_error _ _ w tl t1 e h, h2]
        rw [tryCatchJs_run_ok _ _ w t t2 b (by rw [bind_run, hl]; exact hin), hb]
  · intro r t1 h
    obtain ⟨u, tl, hl, hw⟩ := bind_ok_inv _ _ w t t1 r h
    have hr : r = ⟨200, okBody⟩ := hret w tl r t1 hw
    subst hr
    exact tryCatchJs_run_ok _ _ w t t1 _
      (by rw [bind_run, hl]; exact tryCatchJs_run_ok _ _ w tl t1 _ hw)

theorem scrape_valid_run (q : Query) (w : World) (hq : ¬ lacksRequired q) :
    scrapeNewest q w [] =
        tryCatchJs (do launch; tryCatchJs (workflowNewest q) (catchScrape true))
          (catchScrape false) w enteredHistory ∧
      scrapeApp1 q w [] =
        tryCatchJs (do launch; tryCatchJs (workflowApp1 q) (catchScrape true))
          (catchScrape false) w enteredHistory := by
  have hm : missingRequired q = false := by
    rw [← Bool.not_eq_true]
    exact fun h => hq ((missingRequired_iff q).mp h)
  constructor
  · simp only [scrapeNewest, hm, bind_run, consoleLog, emit_run]
    rfl
  · simp only [scrapeApp1, hm, bind_run, consoleLog, emit_run]
    rfl

/-- C12: for every valid input and both handlers, if the `try` block throws
(a step outside every local try/catch failed), the answer is status 500 with
the one fixed body "An error occurred during scraping and booking.", the same
for every underlying error; if the block resolves the answer is 200; so the
answer is 200 only when the block did not throw. -/
theorem scrape_engine_failure (q : Query) (w : World) (hq : ¬ lacksRequired q) :
    ((∀ e t1, tryBlockNewest q w enteredHistory = (.error e, t1) →
        (scrapeNewest q w []).1 = .ok ⟨500, failureMessage⟩) ∧
      (∀ r t1, tryBlockNewest q w enteredHistory = (.ok r, t1) →
        scrapeNewest q w [] = (.ok ⟨200, successMessageNewest⟩, t1)) ∧
      (∀ r, (scrapeNewest q w []).1 = .ok r → r.status = 200 →
        ∃ t1, tryBlockNewest q w enteredHistory = (.ok r, t1))) ∧
    ((∀ e t1, tryBlockApp1 q w enteredHistory = (.error e, t1) →
        (scrapeApp1 q w []).1 = .ok ⟨500, failureMessage⟩) ∧
      (∀ r t1, tryBlockApp1 q w enteredHistory = (.ok r, t1) →
        scrapeApp1 q w [] = (.ok ⟨200, successMessageApp1⟩, t1)) ∧
      (∀ r, (scrapeApp1 q w []).1 = .ok r → r.status = 200 →
        ∃ t1, tryBlockApp1 q w enteredHistory = (.ok r, t1))) := by
  obtain ⟨hn, ha⟩ := scrape_valid_run q w hq
  have gn := guarded_run (workflowNewest q) successMessageNewest (workflowNewest_returns q) w
    enteredHistory
  have ga := guarded_run (workflowApp1 q) successMessageApp1 (workflowApp1_returns q) w
    enteredHistory
  constructor
  · refine ⟨fun e t1 h => by rw [hn]; exact gn.1 e t1 h,
      fun r t1 h => by rw [hn]; exact gn.2 r t1 h, ?_⟩
    intro r hr h200
    cases hb : tryBlockNewest q w enteredHistory with
    | mk res t1 =>
      cases res with
      | error e =>
        have := gn.1 e t1 hb
        rw [← hn, hr] at this
        cases this
        cases h200
      | ok r2 =>
        have := gn.2 r2 t1 hb
        rw [← hn] at this
        rw [this] at hr
        cases hr
        have h2 := workflowNewest_returns q
        obtain ⟨u, tl, _, hw⟩ := bind_ok_inv _ _ w _ t1 r2 hb
        rw [h2 w tl r2 t1 hw]
        exact ⟨t1, rfl⟩
  · refine ⟨fun e t1 h => by rw [ha]; exact ga.1 e t1 h,
      fun r t1 h => by rw [ha]; exact ga.2 r t1 h, ?_⟩
    intro r hr h200
    cases hb : tryBlockApp1 q w enteredHistory with
    | mk res t1 =>
      cases res with
      | error e =>
        have := ga.1 e t1 hb
        rw [← ha, hr] at this
        cases this
        cases h200
      | ok r2 =>
        have := ga.2 r2 t1 hb
        rw [← ha] at this
        rw [this] at hr
        cases hr
        have h2 := workflowApp1_returns q
        obtain ⟨u, tl, _, hw⟩ := bind_ok_inv _ _ w _ t1 r2 hb
        rw [h2 w tl r2 t1 hw]
        exact ⟨t1, rfl⟩

/-- C12 at concrete inputs: when `build()` fails both handlers answer the fixed
500; when every call fails they do as well. -/
theorem scrape_engine_failure_witness :
    (scrapeNewest sampleQuery noBrowserWorld []).1 = .ok ⟨500, failureMessage⟩ ∧
      (scrapeApp1 sampleQuery deadWorld []).1 = .ok ⟨500, failureMessage⟩ :=
  ⟨(scrape_engine_failure sampleQuery noBrowserWorld
      (by simp [lacksRequired, absentOrEmpty, sampleQuery])).1.1 _ _ rfl,
   (scrape_engine_failure sampleQuery deadWorld
      (by simp [lacksRequired, absentOrEmpty, sampleQuery])).2.1 _ _ rfl⟩

/-! ## C15: the answer does not depend on how the loop ended -/

/-- The loop phase never throws. -/
theorem payPhase_resolves (maxIterations : Nat) (w : World) (t : List Event) :
    ∃ exit, (payPhase maxIterations w t).1 = .ok exit := by
  obtain ⟨exit, added, h, _⟩ := payLoop_bounded maxIterations triggerStarted (by decide)
    maxIterations 0 true w (t ++ [loopStartLine])
  have hstart : t ++ [Event.console Level.log
      "Starting continuous loop: Click 'Verify and Pay' -> Click 'SKIP' -> Repeat..." none] =
      t ++ [loopStartLine] := rfl
  refine ⟨exit, ?_⟩
  simp only [payPhase, bind_run, consoleLog, emit_run, hstart, h]
  split <;> rfl

/-- C15: in newest.js, for every valid input and every behaviour of the page,
once the steps before the loop have gone through, the answer is status 200
with the success message whenever the observation sleep and driver.quit()
after the loop succeed: the loop phase always ends without throwing, and
nothing about how it ended (break after an exhausted trigger step, cap
reached, or SKIP gone) enters the answer. -/
theorem scrapeNewest_ignores_loop_exit (q : Query) (w : World) (v0 v1 v2 : Val)
    (hq : ¬ lacksRequired q)
    (hbuild : w.answer (enteredHistory ++
      [Event.console .log "Launching Selenium WebDriver..." none]) .build = .ok v0)
    (hpre : (prePayNewest q w launchedHistory).1 = .ok ())
    (hsleep : w.answer ((payPhase MAX_ITERATIONS w (prePayNewest q w launchedHistory).2).2 ++
      [allDoneLine]) (.sleep 30000) = .ok v1)
    (hquit : w.answer ((payPhase MAX_ITERATIONS w (prePayNewest q w launchedHistory).2).2 ++
      [allDoneLine, Event.op (.sleep 30000), closingLine]) .quit = .ok v2) :
    (∃ exit, (payPhase MAX_ITERATIONS w (prePayNewest q w launchedHistory).2).1 = .ok exit) ∧
      scrapeNewest q w [] = (.ok ⟨200, successMessageNewest⟩,
        (payPhase MAX_ITERATIONS w (prePayNewest q w launchedHistory).2).2 ++
          [allDoneLine, Event.op (.sleep 30000), closingLine, Event.op .quit]) := by
  obtain ⟨exit, hexit⟩ := payPhase_resolves MAX_ITERATIONS w (prePayNewest q w launchedHistory).2
  refine ⟨⟨exit, hexit⟩, ?_⟩
  have hlaunch : launch w enteredHistory = (.ok (), launchedHistory) := by
    simp only [launch, bind_run, consoleLog, emit_run, perform_run, hbuild, pure_run,
      launchedHistory, List.append_assoc, List.singleton_append]
    rfl
  cases hp : prePayNewest q w launchedHistory with
  | mk r0 t1 =>
    rw [hp] at hpre hsleep hquit hexit
    simp only at hpre hsleep hquit hexit
    subst hpre
    simp only [prePayNewest] at hp
    obtain ⟨_, ta, ha, hp⟩ := bind_ok_inv _ _ w _ _ _ hp
    obtain ⟨_, tb, hb, hp⟩ := bind_ok_inv _ _ w _ _ _ hp
    obtain ⟨_, tc, hc, hd⟩ := bind_ok_inv _ _ w _ _ _ hp
    cases hpay : payPhase MAX_ITERATIONS w t1 with
    | mk r2 t2 =>
      rw [hpay] at hsleep hquit hexit
      simp only at hsleep hquit hexit
      subst hexit
      simp only [allDoneLine, closingLine] at hsleep hquit
      have hwork : workflowNewest q w launchedHistory =
          (.ok ⟨200, successMessageNewest⟩,
            t2 ++ [allDoneLine, Event.op (.sleep 30000), closingLine, Event.op .quit]) := by
        simp only [workflowNewest, bind_run, ha, hb, hc, hd, hpay, consoleLog, emit_run,
          perform_run, hsleep, List.append_assoc, List.singleton_append, List.cons_append,
          List.nil_append, hquit, pure_run, allDoneLine, closingLine]
      rw [(scrape_valid_run q w hq).1]
      exact (guarded_run (workflowNewest q) successMessageNewest (workflowNewest_returns q) w
        enteredHistory).2 _ _ (by rw [bind_run, hlaunch]; exact hwork)

/-- C15 in a world where the final pay button is never found: the trigger step
runs out of attempts in the first iteration, the loop is left by `break`, and
the answer is 200 with the success message; and in a world where every call
succeeds: the loop reaches the cap of 10 and the answer is the same. -/
theorem scrapeNewest_ignores_loop_exit_witness :
    ((∃ exit, (payPhase MAX_ITERATIONS noPayButtonWorld
          (prePayNewest sampleQuery noPayButtonWorld launchedHistory).2).1 = .ok exit) ∧
      scrapeNewest sampleQuery noPayButtonWorld [] = (.ok ⟨200, successMessageNewest⟩,
        (payPhase MAX_ITERATIONS noPayButtonWorld
          (prePayNewest sampleQuery noPayButtonWorld launchedHistory).2).2 ++
          [allDoneLine, Event.op (.sleep 30000), closingLine, Event.op .quit])) ∧
      (payPhase MAX_ITERATIONS noPayButtonWorld
        (prePayNewest sampleQuery noPayButtonWorld launchedHistory).2).1 =
          .ok ⟨1, true, true⟩ ∧
      (scrapeNewest sampleQuery calmWorld []).1 = .ok ⟨200, successMessageNewest⟩ ∧
      (payPhase MAX_ITERATIONS calmWorld
        (prePayNewest sampleQuery calmWorld launchedHistory).2).1 = .ok ⟨10, true, false⟩ :=
  ⟨scrapeNewest_ignores_loop_exit sampleQuery noPayButtonWorld .undefined .undefined .undefined
      (by simp [lacksRequired, absentOrEmpty, sampleQuery]) rfl rfl rfl rfl,
    rfl,
    congrArg Prod.fst (scrapeNewest_ignores_loop_exit sampleQuery calmWorld .undefined .undefined
      .undefined (by simp [lacksRequired, absentOrEmpty, sampleQuery]) rfl rfl rfl rfl).2,
    rfl⟩

/-! ## C13: a failing capture -/

theorem blocked_bind_left {α β : Type} (W : World → Prop) (m : M α) (f : α → M β)
    (h : Blocked W m) : Blocked W (m >>= f) := by
  intro w hw t b t2 hb
  obtain ⟨a, t1, h1, _⟩ := bind_ok_inv m f w t t2 b hb
  exact h w hw t a t1 h1

theorem blocked_bind_right {α β : Type} (W : World → Prop) (m : M α) (f : α → M β)
    (h : ∀ a, Blocked W (f a)) : Blocked W (m >>= f) := by
  intro w hw t b t2 hb
  obtain ⟨a, t1, _, h2⟩ := bind_ok_inv m f w t t2 b hb
  exact h a w hw t1 b t2 h2

/-- The helper has no error handling of its own: the error of
`driver.takeScreenshot()` or of the file write is the error of the helper. -/
theorem takeScreenshot_run_error (filename : String) (w : World) (t : List Event)
    (e : JsError) :
    (w.answer t .takeScreenshot = .error e →
      takeScreenshot filename w t = (.error e, t ++ [Event.op .takeScreenshot])) ∧
    (∀ v, w.answer t .takeScreenshot = .ok v →
      w.answer (t ++ [Event.op .takeScreenshot]) (.writeFileSync filename) = .error e →
      takeScreenshot filename w t =
        (.error e, t ++ [Event.op .takeScreenshot, Event.op (.writeFileSync filename)])) := by
  constructor
  · intro h
    simp only [takeScreenshot, bind_run, perform_run, h]
  · intro v h1 h2
    simp only [takeScreenshot, bind_run, perform_run, h1, h2, List.append_assoc,
      List.singleton_append]

theorem takeScreenshot_blocked (filename : String) :
    Blocked CaptureFails (takeScreenshot filename) := by
  intro w hw t a t1 h
  obtain ⟨e, he⟩ := hw t
  rw [(takeScreenshot_run_error filename w t e).1 he] at h
  cases h

theorem openDetailNewest_blocked : Blocked CaptureFails openDetailNewest := by
  unfold openDetailNewest
  repeat (first
    | exact blocked_bind_left _ _ _ (takeScreenshot_blocked _)
    | refine blocked_bind_right _ _ _ (fun _ => ?_))

set_option maxRecDepth 1000000 in
/-- C13 as stated fails. When the capture after switching tabs fails the
answer is 500 instead of 200; when the capture after the direct click on BOOK
THIS NOW fails, the fallback click by script is performed as well, an extra
page action. -/
theorem capture_failure_changes_the_run :
    (scrapeNewest sampleQuery calmWorld []).1 = .ok ⟨200, successMessageNewest⟩ ∧
      (scrapeNewest sampleQuery noCaptureWorld []).1 = .ok ⟨500, failureMessage⟩ ∧
      (scrapeNewest sampleQuery bookCaptureWorld []).1 = .ok ⟨200, successMessageNewest⟩ ∧
      invocations (.executeScript bookNowScript []) (scrapeNewest sampleQuery calmWorld []).2 = 0 ∧
      invocations (.executeScript bookNowScript [])
        (scrapeNewest sampleQuery bookCaptureWorld []).2 = 1 := by
  refine ⟨rfl, rfl, rfl, ?_, ?_⟩ <;> decide

/-! ## Which calls a computation makes -/

theorem calls_mono {α : Type} (p q : Op → Bool) (m : M α) (h : Calls p m)
    (hpq : ∀ o, p o = true → q o = true) : Calls q m := by
  intro w t
  obtain ⟨added, h1, h2⟩ := h w t
  exact ⟨added, h1, fun o ho => hpq o (h2 o ho)⟩

theorem calls_pure {α : Type} (p : Op → Bool) (a : α) : Calls p (pure a : M α) :=
  fun _ t => ⟨[], by simp [pure_run], by simp⟩

theorem calls_throwJs {α : Type} (p : Op → Bool) (e : JsError) : Calls p (throwJs e : M α) :=
  fun _ t => ⟨[], by simp [throwJs_run], by simp⟩

theorem calls_console (p : Op → Bool) (lvl : Level) (text : String) (d : Option JsError) :
    Calls p (emit (.console lvl text d)) :=
  fun _ t => ⟨[.console lvl text d], rfl, by simp⟩

theorem calls_retryNotice (p : Op → Bool) (delayMs : Nat) :
    Calls p (emit (.retryNotice delayMs)) :=
  fun _ t => ⟨[.retryNotice delayMs], rfl, by simp⟩

theorem calls_timeout (p : Op → Bool) (delayMs : Nat) : Calls p (emit (.timeout delayMs)) :=
  fun _ t => ⟨[.timeout delayMs], rfl, by simp⟩

theorem calls_perform (p : Op → Bool) (o : Op) (h : p o = true) : Calls p (perform o) :=
  fun _ t => ⟨[Event.op o], rfl, by
    intro o2 ho2
    simp only [List.mem_singleton, Event.op.injEq] at ho2
    rw [ho2]
    exact h⟩

theorem calls_bind {α β : Type} (p : Op → Bool) (m : M α) (f : α → M β)
    (hm : Calls p m) (hf : ∀ a, Calls p (f a)) : Calls p (m >>= f) := by
  intro w t
  obtain ⟨a1, h1, c1⟩ := hm w t
  rw [bind_run]
  cases hr : m w t with
  | mk r t1 =>
    rw [hr] at h1
    simp only at h1
    subst h1
    cases r with
    | error e => exact ⟨a1, rfl, c1⟩
    | ok a =>
      obtain ⟨a2, h2, c2⟩ := hf a w (t ++ a1)
      refine ⟨a1 ++ a2, by simp only [h2, List.append_assoc], ?_⟩
      intro o ho
      rcases List.mem_append.mp ho with h | h
      · exact c1 o h
      · exact c2 o h

theorem calls_tryCatchJs {α : Type} (p : Op → Bool) (body : M α) (handler : JsError → M α)
    (hb : Calls p body) (hh : ∀ e, Calls p (handler e)) : Calls p (tryCatchJs body handler) := by
  intro w t
  obtain ⟨a1, h1, c1⟩ := hb w t
  unfold tryCatchJs
  cases hr : body w t with
  | mk r t1 =>
    rw [hr] at h1
    simp only at h1
    subst h1
    cases r with
    | ok a => exact ⟨a1, rfl, c1⟩
    | error e =>
      obtain ⟨a2, h2, c2⟩ := hh e w (t ++ a1)
      refine ⟨a1 ++ a2, by simp only [h2, List.append_assoc], ?_⟩
      intro o ho
      rcases List.mem_append.mp ho with h | h
      · exact c1 o h
      · exact c2 o h

/-- The element a wait resolves to is the one its locator names. -/
theorem calls_waitLocated_bind {β : Type} (p : Op → Bool) (css : String) (ms : Nat)
    (f : String → M β) (h : p (.waitLocated css ms) = true) (hf : Calls p (f css)) :
    Calls p (waitLocated css ms >>= f) := by
  have : waitLocated css ms >>= f = perform (.waitLocated css ms) >>= fun _ => f css := by
    funext w t
    simp only [waitLocated, bind_run, perform_run]
    cases w.answer t (Op.waitLocated css ms) <;> rfl
  rw [this]
  exact calls_bind p _ _ (calls_perform p _ h) (fun _ => hf)

/-- The element a lookup resolves to is the one its locator names. -/
theorem calls_findElement_bind {β : Type} (p : Op → Bool) (by_ : String)
    (f : String → M β) (h : p (.findElement by_) = true) (hf : Calls p (f by_)) :
    Calls p (findElement by_ >>= f) := by
  have : findElement by_ >>= f = perform (.findElement by_) >>= fun _ => f by_ := by
    funext w t
    simp only [findElement, bind_run, perform_run]
    cases w.answer t (Op.findElement by_) <;> rfl
  rw [this]
  exact calls_bind p _ _ (calls_perform p _ h) (fun _ => hf)

theorem calls_getAllWindowHandles (p : Op → Bool) (h : p .getAllWindowHandles = true) :
    Calls p getAllWindowHandles := by
  unfold getAllWindowHandles
  refine calls_bind p _ _ (calls_perform p _ h) (fun v => ?_)
  cases v <;> exact calls_pure p _

theorem calls_getWindowHandle (p : Op → Bool) (h : p .getWindowHandle = true) :
    Calls p getWindowHandle := by
  unfold getWindowHandle
  refine calls_bind p _ _ (calls_perform p _ h) (fun v => ?_)
  cases v <;> exact calls_pure p _

theorem calls_typeChars (p : Op → Bool) (element : String) (delayMs : Nat)
    (h1 : ∀ s, p (.sendKeys element s) = true) (h2 : p (.sleep delayMs) = true) :
    ∀ cs, Calls p (typeChars element delayMs cs) := by
  intro cs
  induction cs with
  | nil => exact calls_pure p _
  | cons c cs ih =>
    unfold typeChars
    exact calls_bind p _ _ (calls_perform p _ (h1 _))
      (fun _ => calls_bind p _ _ (calls_perform p _ h2) (fun _ => ih))

theorem calls_typeSlowly (p : Op → Bool) (element text : String) (delayMs : Nat)
    (h1 : ∀ s, p (.sendKeys element s) = true) (h2 : p (.sleep delayMs) = true) :
    Calls p (typeSlowly element text delayMs) :=
  calls_typeChars p element delayMs h1 h2 _

theorem calls_takeScreenshot (p : Op → Bool) (filename : String)
    (h1 : p .takeScreenshot = true) (h2 : p (.writeFileSync filename) = true) :
    Calls p (takeScreenshot filename) := by
  unfold takeScreenshot consoleLog
  exact calls_bind p _ _ (calls_perform p _ h1)
    (fun _ => calls_bind p _ _ (calls_perform p _ h2) (fun _ => calls_console p _ _ _))

theorem calls_retryLoop {α : Type} (p : Op → Bool) (action : M α) (retries : Int)
    (delayMs : Nat) (ha : Calls p action) :
    ∀ (fuel : Nat) (attempt : Int), Calls p (retryLoop action retries delayMs fuel attempt) := by
  intro fuel
  induction fuel with
  | zero => exact fun _ => calls_pure p _
  | succ fuel ih =>
    intro attempt
    unfold retryLoop consoleWarn
    split
    · refine calls_tryCatchJs p _ _ (calls_bind p _ _ ha (fun _ => calls_pure p _)) (fun e => ?_)
      refine calls_bind p _ _ (calls_console p _ _ _) (fun _ => ?_)
      split
      · exact calls_throwJs p _
      · exact calls_bind p _ _ (calls_retryNotice p _)
          (fun _ => calls_bind p _ _ (calls_timeout p _) (fun _ => ih _))
    · exact calls_pure p _

theorem calls_retryAction {α : Type} (p : Op → Bool) (action : M α) (retries : Int)
    (delayMs : Nat) (ha : Calls p action) : Calls p (retryAction action retries delayMs) :=
  calls_retryLoop p action retries delayMs ha _ _

/-! ## The calls of app1.js -/

theorem calls_ite {α : Type} (p : Op → Bool) (c : Prop) [Decidable c] (a b : M α)
    (ha : Calls p a) (hb : Calls p b) : Calls p (if c then a else b) := by
  split
  · exact ha
  · exact hb

set_option linter.unreachableTactic false
set_option linter.unusedTactic false

theorem openDetailApp1_calls : Calls benign openDetailApp1 := by
  unfold openDetailApp1 consoleLog
  repeat' (first
    | exact calls_pure _ _
    | exact calls_console _ _ _ _
    | exact calls_perform _ _ rfl
    | exact calls_getAllWindowHandles _ rfl
    | exact calls_getWindowHandle _ rfl
    | exact calls_takeScreenshot _ _ rfl rfl
    | exact calls_typeSlowly _ _ _ _ (fun _ => rfl) rfl
    | refine calls_retryAction _ _ _ _ ?_
    | refine calls_ite _ _ _ _ ?_ ?_
    | refine calls_waitLocated_bind _ _ _ _ rfl ?_
    | refine calls_findElement_bind _ _ _ rfl ?_
    | refine calls_bind _ _ _ ?_ (fun _ => ?_)
    | refine calls_tryCatchJs _ _ _ ?_ (fun _ => ?_))

theorem bookApp1_calls : Calls benign bookApp1 := by
  unfold bookApp1 consoleLog consoleErrorWith
  repeat' (first
    | exact calls_pure _ _
    | exact calls_console _ _ _ _
    | exact calls_perform _ _ rfl
    | exact calls_getAllWindowHandles _ rfl
    | exact calls_getWindowHandle _ rfl
    | exact calls_takeScreenshot _ _ rfl rfl
    | exact calls_typeSlowly _ _ _ _ (fun _ => rfl) rfl
    | refine calls_retryAction _ _ _ _ ?_
    | refine calls_ite _ _ _ _ ?_ ?_
    | refine calls_waitLocated_bind _ _ _ _ rfl ?_
    | refine calls_findElement_bind _ _ _ rfl ?_
    | refine calls_bind _ _ _ ?_ (fun _ => ?_)
    | refine calls_tryCatchJs _ _ _ ?_ (fun _ => ?_))

theorem fillTravellerApp1_calls (q : Query) : Calls benign (fillTravellerApp1 q) := by
  unfold fillTravellerApp1 consoleLog consoleErrorWith
  repeat' (first
    | exact calls_pure _ _
    | exact calls_console _ _ _ _
    | exact calls_perform _ _ rfl
    | exact calls_getAllWindowHandles _ rfl
    | exact calls_getWindowHandle _ rfl
    | exact calls_takeScreenshot _ _ rfl rfl
    | exact calls_typeSlowly _ _ _ _ (fun _ => rfl) rfl
    | refine calls_retryAction _ _ _ _ ?_
    | refine calls_ite _ _ _ _ ?_ ?_
    | refine calls_waitLocated_bind _ _ _ _ rfl ?_
    | refine calls_findElement_bind _ _ _ rfl ?_
    | refine calls_bind _ _ _ ?_ (fun _ => ?_)
    | refine calls_tryCatchJs _ _ _ ?_ (fun _ => ?_))

theorem finalPayApp1_calls : Calls benign finalPayApp1 := by
  unfold finalPayApp1 consoleLog consoleErrorWith otpModalCss
  repeat' (first
    | exact calls_pure _ _
    | exact calls_console _ _ _ _
    | exact calls_perform _ _ rfl
    | exact calls_getAllWindowHandles _ rfl
    | exact calls_getWindowHandle _ rfl
    | exact calls_takeScreenshot _ _ rfl rfl
    | exact calls_typeSlowly _ _ _ _ (fun _ => rfl) rfl
    | refine calls_retryAction _ _ _ _ ?_
    | refine calls_ite _ _ _ _ ?_ ?_
    | refine calls_waitLocated_bind _ _ _ _ rfl ?_
    | refine calls_findElement_bind _ _ _ rfl ?_
    | refine calls_bind _ _ _ ?_ (fun _ => ?_)
    | refine calls_tryCatchJs _ _ _ ?_ (fun _ => ?_))

/-- The payment step of app1.js never closes the session. -/
theorem paymentApp1_calls (q : Query) : Calls (fun o => !isQuit o) (paymentApp1 q) := by
  unfold paymentApp1 consoleLog
  repeat' (first
    | exact calls_pure _ _
    | exact calls_console _ _ _ _
    | exact calls_perform _ _ rfl
    | exact calls_getAllWindowHandles _ rfl
    | exact calls_getWindowHandle _ rfl
    | exact calls_takeScreenshot _ _ rfl rfl
    | exact calls_typeSlowly _ _ _ _ (fun _ => rfl) rfl
    | refine calls_retryAction _ _ _ _ ?_
    | refine calls_ite _ _ _ _ ?_ ?_
    | refine calls_waitLocated_bind _ _ _ _ rfl ?_
    | refine calls_findElement_bind _ _ _ rfl ?_
    | refine calls_bind _ _ _ ?_ (fun _ => ?_)
    | refine calls_tryCatchJs _ _ _ ?_ (fun _ => ?_))

/-- Without a `upiId` the payment step of app1.js does not touch `#inputVpa`. -/
theorem paymentApp1_calls_skip (q : Query) (h : truthy q.upiId = false) :
    Calls benign (paymentApp1 q) := by
  unfold paymentApp1 consoleLog
  simp only [h, Bool.false_eq_true, if_false]
  repeat' (first
    | exact calls_pure _ _
    | exact calls_console _ _ _ _
    | exact calls_perform _ _ rfl
    | exact calls_getAllWindowHandles _ rfl
    | exact calls_getWindowHandle _ rfl
    | exact calls_takeScreenshot _ _ rfl rfl
    | exact calls_typeSlowly _ _ _ _ (fun _ => rfl) rfl
    | refine calls_retryAction _ _ _ _ ?_
    | refine calls_ite _ _ _ _ ?_ ?_
    | refine calls_waitLocated_bind _ _ _ _ rfl ?_
    | refine calls_findElement_bind _ _ _ rfl ?_
    | refine calls_bind _ _ _ ?_ (fun _ => ?_)
    | refine calls_tryCatchJs _ _ _ ?_ (fun _ => ?_))

/-! ## The calls of newest.js -/

theorem openDetailNewest_calls : Calls benign openDetailNewest := by
  unfold openDetailNewest consoleLog
  repeat' (first
    | exact calls_pure _ _
    | exact calls_console _ _ _ _
    | exact calls_perform _ _ rfl
    | exact calls_getAllWindowHandles _ rfl
    | exact calls_getWindowHandle _ rfl
    | exact calls_takeScreenshot _ _ rfl rfl
    | exact calls_typeSlowly _ _ _ _ (fun _ => rfl) rfl
    | refine calls_retryAction _ _ _ _ ?_
    | refine calls_ite _ _ _ _ ?_ ?_
    | refine calls_waitLocated_bind _ _ _ _ rfl ?_
    | refine calls_findElement_bind _ _ _ rfl ?_
    | refine calls_bind _ _ _ ?_ (fun _ => ?_)
    | refine calls_tryCatchJs _ _ _ ?_ (fun _ => ?_))

theorem bookNewest_calls : Calls benign bookNewest := by
  unfold bookNewest consoleLog consoleErrorWith
  repeat' (first
    | exact calls_pure _ _
    | exact calls_console _ _ _ _
    | exact calls_perform _ _ rfl
    | exact calls_getAllWindowHandles _ rfl
    | exact calls_getWindowHandle _ rfl
    | exact calls_takeScreenshot _ _ rfl rfl
    | exact calls_typeSlowly _ _ _ _ (fun _ => rfl) rfl
    | refine calls_retryAction _ _ _ _ ?_
    | refine calls_ite _ _ _ _ ?_ ?_
    | refine calls_waitLocated_bind _ _ _ _ rfl ?_
    | refine calls_findElement_bind _ _ _ rfl ?_
    | refine calls_bind _ _ _ ?_ (fun _ => ?_)
    | refine calls_tryCatchJs _ _ _ ?_ (fun _ => ?_))

theorem fillTravellerNewest_calls (q : Query) : Calls benign (fillTravellerNewest q) := by
  unfold fillTravellerNewest consoleLog consoleErrorWith
  repeat' (first
    | exact calls_pure _ _
    | exact calls_console _ _ _ _
    | exact calls_perform _ _ rfl
    | exact calls_getAllWindowHandles _ rfl
    | exact calls_getWindowHandle _ rfl
    | exact calls_takeScreenshot _ _ rfl rfl
    | exact calls_typeSlowly _ _ _ _ (fun _ => rfl) rfl
    | refine calls_retryAction _ _ _ _ ?_
    | refine calls_ite _ _ _ _ ?_ ?_
    | refine calls_waitLocated_bind _ _ _ _ rfl ?_
    | refine calls_findElement_bind _ _ _ rfl ?_
    | refine calls_bind _ _ _ ?_ (fun _ => ?_)
    | refine calls_tryCatchJs _ _ _ ?_ (fun _ => ?_))

/-- Without a `upiId` the payment step of newest.js does not touch `#inputVpa`. -/
theorem paymentNewest_calls_skip (q : Query) (h : truthy q.upiId = false) :
    Calls benign (paymentNewest q) := by
  unfold paymentNewest consoleLog
  simp only [h, Bool.false_eq_true, if_false]
  repeat' (first
    | exact calls_pure _ _
    | exact calls_console _ _ _ _
    | exact calls_perform _ _ rfl
    | exact calls_getAllWindowHandles _ rfl
    | exact calls_getWindowHandle _ rfl
    | exact calls_takeScreenshot _ _ rfl rfl
    | exact calls_typeSlowly _ _ _ _ (fun _ => rfl) rfl
    | refine calls_retryAction _ _ _ _ ?_
    | refine calls_ite _ _ _ _ ?_ ?_
    | refine calls_waitLocated_bind _ _ _ _ rfl ?_
    | refine calls_findElement_bind _ _ _ rfl ?_
    | refine calls_bind _ _ _ ?_ (fun _ => ?_)
    | refine calls_tryCatchJs _ _ _ ?_ (fun _ => ?_))

theorem iteration_calls (iterationLoop : Nat) : Calls benign (iteration iterationLoop) := by
  unfold iteration triggerStep dismissStep clickVerifyPay clickSkip consoleLog consoleWarn
    consoleErrorWith payButtonCss otpModalCss skipXPath
  repeat' (first
    | exact calls_pure _ _
    | exact calls_console _ _ _ _
    | exact calls_perform _ _ rfl
    | exact calls_getAllWindowHandles _ rfl
    | exact calls_getWindowHandle _ rfl
    | exact calls_takeScreenshot _ _ rfl rfl
    | exact calls_typeSlowly _ _ _ _ (fun _ => rfl) rfl
    | refine calls_retryAction _ _ _ _ ?_
    | refine calls_ite _ _ _ _ ?_ ?_
    | refine calls_waitLocated_bind _ _ _ _ rfl ?_
    | refine calls_findElement_bind _ _ _ rfl ?_
    | refine calls_bind _ _ _ ?_ (fun _ => ?_)
    | refine calls_tryCatchJs _ _ _ ?_ (fun _ => ?_))

theorem payLoop_calls (maxIterations : Nat) :
    ∀ (fuel iterationLoop : Nat) (skipExists : Bool),
      Calls benign (payLoop maxIterations fuel iterationLoop skipExists) := by
  intro fuel
  induction fuel with
  | zero => exact fun _ _ => calls_pure _ _
  | succ fuel ih =>
    intro iterationLoop skipExists
    unfold payLoop
    refine calls_ite _ _ _ _ ?_ (calls_pure _ _)
    refine calls_bind _ _ _ (iteration_calls _) (fun r => ?_)
    cases r with
    | none => exact calls_pure _ _
    | some s => exact ih _ _

theorem payPhase_calls (maxIterations : Nat) : Calls benign (payPhase maxIterations) := by
  unfold payPhase consoleLog consoleWarn
  refine calls_bind _ _ _ (calls_console _ _ _ _) (fun _ => ?_)
  refine calls_bind _ _ _ (payLoop_calls _ _ _ _) (fun r => ?_)
  split
  · exact calls_bind _ _ _ (calls_console _ _ _ _)
      (fun _ => calls_bind _ _ _ (calls_console _ _ _ _) (fun _ => calls_pure _ _))
  · exact calls_bind _ _ _ (calls_pure _ _)
      (fun _ => calls_bind _ _ _ (calls_console _ _ _ _) (fun _ => calls_pure _ _))

/-! ## C11: closing the session -/

theorem endsWith_bind {α β : Type} (e : Event) (m : M α) (f : α → M β)
    (h : ∀ a, EndsWith e (f a)) : EndsWith e (m >>= f) := by
  intro w t b t2 hb
  obtain ⟨a, t1, _, h2⟩ := bind_ok_inv m f w t t2 b hb
  exact h a w t1 b t2 h2

theorem endsWith_perform_pure {α : Type} (o : Op) (r : α) :
    EndsWith (Event.op o) (perform o >>= fun _ => (pure r : M α)) := by
  intro w t a t1 h
  obtain ⟨_, t2, h1, h2⟩ := bind_ok_inv _ _ w t t1 a h
  rw [perform_run] at h1
  rw [pure_run] at h2
  exact ⟨t, by rw [← (Prod.mk.inj h2).2, ← (Prod.mk.inj h1).2]⟩

/-- On its success path newest.js calls `driver.quit()` last. -/
theorem workflowNewest_endsWith_quit (q : Query) :
    EndsWith (Event.op .quit) (workflowNewest q) := by
  unfold workflowNewest
  repeat (first
    | exact endsWith_perform_pure _ _
    | refine endsWith_bind _ _ _ (fun _ => ?_))

/-- The `catch` block with `driver` assigned calls `driver.quit()` last, whether
or not that call succeeds. -/
theorem catchScrape_true_run (error : JsError) (w : World) (t : List Event) :
    catchScrape true error w t =
      (.ok ⟨500, failureMessage⟩,
        t ++ [Event.console .error "Error during scraping and booking:" (some error),
          Event.op .quit]) := by
  cases h : w.answer (t ++ [Event.console .error "Error during scraping and booking:"
      (some error)]) Op.quit <;>
    simp [catchScrape, bind_run, consoleErrorWith, emit_run, tryCatchJs, perform_run, h,
      pure_run]

theorem launch_run (w : World) (v0 : Val)
    (hbuild : w.answer (enteredHistory ++
      [Event.console .log "Launching Selenium WebDriver..." none]) .build = .ok v0) :
    launch w enteredHistory = (.ok (), launchedHistory) := by
  simp only [launch, bind_run, consoleLog, emit_run, perform_run, hbuild, pure_run,
    launchedHistory, List.append_assoc, List.singleton_append]
  rfl

/-- The workflow of app1.js never calls `driver.quit()`. -/
theorem workflowApp1_calls (q : Query) : Calls (fun o => !isQuit o) (workflowApp1 q) := by
  have hb : ∀ o, benign o = true → (fun o => !isQuit o) o = true := by
    intro o h
    simp only [benign, Bool.and_eq_true] at h
    exact h.1
  unfold workflowApp1 consoleLog
  refine calls_bind _ _ _ (calls_mono _ _ _ openDetailApp1_calls hb) (fun _ => ?_)
  refine calls_bind _ _ _ (calls_mono _ _ _ bookApp1_calls hb) (fun _ => ?_)
  refine calls_bind _ _ _ (calls_mono _ _ _ (fillTravellerApp1_calls q) hb) (fun _ => ?_)
  refine calls_bind _ _ _ (paymentApp1_calls q) (fun _ => ?_)
  refine calls_bind _ _ _ (calls_mono _ _ _ finalPayApp1_calls hb) (fun _ => ?_)
  refine calls_bind _ _ _ (calls_console _ _ _ _) (fun _ => ?_)
  refine calls_bind _ _ _ (calls_perform _ _ rfl) (fun _ => ?_)
  exact calls_bind _ _ _ (calls_console _ _ _ _) (fun _ => calls_pure _ _)

set_option maxRecDepth 1000000 in
/-- C11 as stated fails for app1.js: on its success path (status 200) the
session has been built and `driver.quit()` is never called. -/
theorem scrapeApp1_success_keeps_session :
    (scrapeApp1 sampleQuery calmWorld []).1 = .ok ⟨200, successMessageApp1⟩ ∧
      Event.op .build ∈ (scrapeApp1 sampleQuery calmWorld []).2 ∧
      invocations .quit (scrapeApp1 sampleQuery calmWorld []).2 = 0 := by
  refine ⟨rfl, ?_, ?_⟩ <;> decide

/-- C11, amended: once the session has been built, the handler of newest.js
calls driver.quit() on every exit path, success (200) and failure (500), as
the last thing before the answer; the handler of app1.js calls it as the last
thing before the answer on every failure path (500), and on its success path
(200) it never calls it. -/
theorem quit_on_exit_paths (q : Query) (w : World) (v0 : Val) (hq : ¬ lacksRequired q)
    (hbuild : w.answer (enteredHistory ++
      [Event.console .log "Launching Selenium WebDriver..." none]) .build = .ok v0) :
    (∃ r t0, scrapeNewest q w [] = (.ok r, t0 ++ [Event.op .quit]) ∧
      (r.status = 200 ∨ r.status = 500)) ∧
    (∃ r t1, scrapeApp1 q w [] = (.ok r, t1) ∧
      ((r.status = 500 ∧ ∃ t0, t1 = t0 ++ [Event.op .quit]) ∨
        (r.status = 200 ∧ Event.op .quit ∉ t1))) := by
  have hl := launch_run w v0 hbuild
  obtain ⟨hn, ha⟩ := scrape_valid_run q w hq
  constructor
  · rw [hn]
    cases hw : workflowNewest q w launchedHistory with
    | mk res t1 =>
      cases res with
      | ok r =>
        obtain ⟨t0, ht0⟩ := workflowNewest_endsWith_quit q w _ r t1 hw
        have hr := workflowNewest_returns q w _ r t1 hw
        refine ⟨r, t0, ?_, Or.inl (by rw [hr])⟩
        rw [← ht0]
        exact tryCatchJs_run_ok _ _ w _ t1 _
          (by rw [bind_run, hl]; exact tryCatchJs_run_ok _ _ w _ t1 _ hw)
      | error e =>
        have hinner : tryCatchJs (workflowNewest q) (catchScrape true) w launchedHistory =
            (.ok ⟨500, failureMessage⟩,
              t1 ++ [Event.console .error "Error during scraping and booking:" (some e),
                Event.op .quit]) := by
          rw [tryCatchJs_run_error _ _ w _ t1 e hw, catchScrape_true_run]
        refine ⟨⟨500, failureMessage⟩,
          t1 ++ [Event.console .error "Error during scraping and booking:" (some e)], ?_,
          Or.inr rfl⟩
        rw [tryCatchJs_run_ok _ _ w _ _ _ (by rw [bind_run, hl]; exact hinner)]
        simp
  · rw [ha]
    cases hw : workflowApp1 q w launchedHistory with
    | mk res t1 =>
      cases res with
      | ok r =>
        have hr := workflowApp1_returns q w _ r t1 hw
        refine ⟨r, t1, ?_, Or.inr ⟨by rw [hr], ?_⟩⟩
        · exact tryCatchJs_run_ok _ _ w _ t1 _
            (by rw [bind_run, hl]; exact tryCatchJs_run_ok _ _ w _ t1 _ hw)
        · obtain ⟨added, h1, h2⟩ := workflowApp1_calls q w launchedHistory
          rw [hw] at h1
          simp only at h1
          rw [h1]
          intro hmem
          rcases List.mem_append.mp hmem with h | h
          · revert h
            decide
          · have := h2 _ h
            simp [isQuit] at this
      | error e =>
        have hinner : tryCatchJs (workflowApp1 q) (catchScrape true) w launchedHistory =
            (.ok ⟨500, failureMessage⟩,
              t1 ++ [Event.console .error "Error during scraping and booking:" (some e),
                Event.op .quit]) := by
          rw [tryCatchJs_run_error _ _ w _ t1 e hw, catchScrape_true_run]
        refine ⟨⟨500, failureMessage⟩,
          t1 ++ [Event.console .error "Error during scraping and booking:" (some e),
            Event.op .quit], ?_, Or.inl ⟨rfl, ?_⟩⟩
        · exact tryCatchJs_run_ok _ _ w _ _ _ (by rw [bind_run, hl]; exact hinner)
        · exact ⟨t1 ++ [Event.console .error "Error during scraping and booking:" (some e)],
            by simp⟩

/-- C11 at concrete inputs: the final pay button is never found (newest.js
still answers 200 and closes the session); every call after the launch fails
(app1.js answers 500 and closes the session). -/
theorem quit_on_exit_paths_witness :
    ((∃ r t0, scrapeNewest sampleQuery noPayButtonWorld [] = (.ok r, t0 ++ [Event.op .quit]) ∧
        (r.status = 200 ∨ r.status = 500)) ∧
      (∃ r t1, scrapeApp1 sampleQuery noPayButtonWorld [] = (.ok r, t1) ∧
        ((r.status = 500 ∧ ∃ t0, t1 = t0 ++ [Event.op .quit]) ∨
          (r.status = 200 ∧ Event.op .quit ∉ t1)))) :=
  quit_on_exit_paths sampleQuery noPayButtonWorld .undefined
    (by simp [lacksRequired, absentOrEmpty, sampleQuery]) rfl

/-! ## C13, amended -/

/-- C13, amended: a failure of snapshot capture is not contained. The helper
takeScreenshot rejects with the error of driver.takeScreenshot or of the file
write, and for every valid input, if driver.takeScreenshot fails whenever it
is called, the handler of newest.js answers 500, whatever else succeeds: the
capture after switching tabs is outside every local try/catch. -/
theorem capture_failure_propagates (q : Query) (hq : ¬ lacksRequired q) :
    (∀ (w : World) (filename : String) (t : List Event) (e : JsError),
      (w.answer t .takeScreenshot = .error e →
        takeScreenshot filename w t = (.error e, t ++ [Event.op .takeScreenshot])) ∧
      (∀ v, w.answer t .takeScreenshot = .ok v →
        w.answer (t ++ [Event.op .takeScreenshot]) (.writeFileSync filename) = .error e →
        takeScreenshot filename w t =
          (.error e, t ++ [Event.op .takeScreenshot, Event.op (.writeFileSync filename)]))) ∧
    (∀ w : World, CaptureFails w →
      (scrapeNewest q w []).1 = .ok ⟨500, failureMessage⟩) := by
  refine ⟨fun w filename t e => takeScreenshot_run_error filename w t e, ?_⟩
  intro w hw
  rw [(scrape_valid_run q w hq).1]
  cases hb : (launch >>= fun _ => workflowNewest q) w enteredHistory with
  | mk res t1 =>
    cases res with
    | error e =>
      exact (guarded_run (workflowNewest q) successMessageNewest (workflowNewest_returns q) w
        enteredHistory).1 e t1 hb
    | ok r =>
      have hblocked : Blocked CaptureFails (launch >>= fun _ => workflowNewest q) := by
        refine blocked_bind_right _ _ _ (fun _ => ?_)
        unfold workflowNewest
        exact blocked_bind_left _ _ _ openDetailNewest_blocked
      exact absurd hb (hblocked w hw _ _ _)

/-- C13, amended, in a world where only `driver.takeScreenshot()` fails. -/
theorem capture_failure_propagates_witness :
    takeScreenshot "after_switching_tabs.png" noCaptureWorld [] =
        (.error ⟨"screenshot failed"⟩, [] ++ [Event.op .takeScreenshot]) ∧
      (scrapeNewest sampleQuery noCaptureWorld []).1 = .ok ⟨500, failureMessage⟩ :=
  ⟨((capture_failure_propagates sampleQuery
      (by simp [lacksRequired, absentOrEmpty, sampleQuery])).1 noCaptureWorld
        "after_switching_tabs.png" [] ⟨"screenshot failed"⟩).1 rfl,
   (capture_failure_propagates sampleQuery
      (by simp [lacksRequired, absentOrEmpty, sampleQuery])).2 noCaptureWorld
        (fun _ => ⟨⟨"screenshot failed"⟩, rfl⟩)⟩

/-! ## Runs in which the critical calls succeed -/

theorem survives_pure {α : Type} (crit : Op → Bool) (a : α) : Survives crit (pure a : M α) :=
  fun _ _ t => ⟨a, t, rfl⟩

theorem survives_emit (crit : Op → Bool) (e : Event) : Survives crit (emit e) :=
  fun _ _ t => ⟨(), t ++ [e], rfl⟩

theorem survives_perform (crit : Op → Bool) (o : Op) (h : crit o = true) :
    Survives crit (perform o) := by
  intro w hw t
  obtain ⟨v, hv⟩ := hw t o h
  exact ⟨v, t ++ [Event.op o], by rw [perform_run, hv]⟩

theorem survives_bind {α β : Type} (crit : Op → Bool) (m : M α) (f : α → M β)
    (hm : Survives crit m) (hf : ∀ a, Survives crit (f a)) : Survives crit (m >>= f) := by
  intro w hw t
  obtain ⟨a, t1, h1⟩ := hm w hw t
  obtain ⟨b, t2, h2⟩ := hf a w hw t1
  exact ⟨b, t2, by rw [bind_run, h1]; exact h2⟩

/-- A local `try` survives as soon as its `catch` block does. -/
theorem survives_tryCatchJs {α : Type} (crit : Op → Bool) (body : M α)
    (handler : JsError → M α) (hh : ∀ e, Survives crit (handler e)) :
    Survives crit (tryCatchJs body handler) := by
  intro w hw t
  unfold tryCatchJs
  cases hr : body w t with
  | mk r t1 =>
    cases r with
    | ok a => exact ⟨a, t1, rfl⟩
    | error e => exact hh e w hw t1

theorem survives_waitLocated_bind {β : Type} (crit : Op → Bool) (css : String) (ms : Nat)
    (f : String → M β) (h : crit (.waitLocated css ms) = true) (hf : Survives crit (f css)) :
    Survives crit (waitLocated css ms >>= f) := by
  have : waitLocated css ms >>= f = perform (.waitLocated css ms) >>= fun _ => f css := by
    funext w t
    simp only [waitLocated, bind_run, perform_run]
    cases w.answer t (Op.waitLocated css ms) <;> rfl
  rw [this]
  exact survives_bind crit _ _ (survives_perform crit _ h) (fun _ => hf)

theorem survives_findElement_bind {β : Type} (crit : Op → Bool) (by_ : String)
    (f : String → M β) (h : crit (.findElement by_) = true) (hf : Survives crit (f by_)) :
    Survives crit (findElement by_ >>= f) := by
  have : findElement by_ >>= f = perform (.findElement by_) >>= fun _ => f by_ := by
    funext w t
    simp only [findElement, bind_run, perform_run]
    cases w.answer t (Op.findElement by_) <;> rfl
  rw [this]
  exact survives_bind crit _ _ (survives_perform crit _ h) (fun _ => hf)

theorem survives_getAllWindowHandles (crit : Op → Bool) (h : crit .getAllWindowHandles = true) :
    Survives crit getAllWindowHandles := by
  unfold getAllWindowHandles
  refine survives_bind crit _ _ (survives_perform crit _ h) (fun v => ?_)
  cases v <;> exact survives_pure crit _

theorem survives_getWindowHandle (crit : Op → Bool) (h : crit .getWindowHandle = true) :
    Survives crit getWindowHandle := by
  unfold getWindowHandle
  refine survives_bind crit _ _ (survives_perform crit _ h) (fun v => ?_)
  cases v <;> exact survives_pure crit _

theorem survives_typeSlowly (crit : Op → Bool) (element text : String) (delayMs : Nat)
    (h1 : ∀ s, crit (.sendKeys element s) = true) (h2 : crit (.sleep delayMs) = true) :
    Survives crit (typeSlowly element text delayMs) := by
  unfold typeSlowly
  generalize text.toList = cs
  induction cs with
  | nil => exact survives_pure crit _
  | cons c cs ih =>
    unfold typeChars
    exact survives_bind crit _ _ (survives_perform crit _ (h1 _))
      (fun _ => survives_bind crit _ _ (survives_perform crit _ h2) (fun _ => ih))

theorem survives_takeScreenshot (crit : Op → Bool) (filename : String)
    (h1 : crit .takeScreenshot = true) (h2 : crit (.writeFileSync filename) = true) :
    Survives crit (takeScreenshot filename) := by
  unfold takeScreenshot consoleLog
  exact survives_bind crit _ _ (survives_perform crit _ h1)
    (fun _ => survives_bind crit _ _ (survives_perform crit _ h2) (fun _ => survives_emit crit _))

theorem launch_survives : Survives criticalSteps launch := by
  unfold launch consoleLog
  repeat' (first
    | exact survives_pure _ _
    | exact survives_emit _ _
    | exact survives_perform _ _ rfl
    | exact survives_getAllWindowHandles _ rfl
    | exact survives_getWindowHandle _ rfl
    | exact survives_takeScreenshot _ _ rfl rfl
    | exact survives_typeSlowly _ _ _ _ (fun _ => rfl) rfl
    | refine survives_tryCatchJs _ _ _ (fun _ => ?_)
    | refine survives_waitLocated_bind _ _ _ _ rfl ?_
    | refine survives_findElement_bind _ _ _ rfl ?_
    | refine survives_bind _ _ _ ?_ (fun _ => ?_))

theorem openDetailNewest_survives : Survives criticalSteps openDetailNewest := by
  unfold openDetailNewest consoleLog
  repeat' (first
    | exact survives_pure _ _
    | exact survives_emit _ _
    | exact survives_perform _ _ rfl
    | exact survives_getAllWindowHandles _ rfl
    | exact survives_getWindowHandle _ rfl
    | exact survives_takeScreenshot _ _ rfl rfl
    | exact survives_typeSlowly _ _ _ _ (fun _ => rfl) rfl
    | refine survives_tryCatchJs _ _ _ (fun _ => ?_)
    | refine survives_waitLocated_bind _ _ _ _ rfl ?_
    | refine survives_findElement_bind _ _ _ rfl ?_
    | refine survives_bind _ _ _ ?_ (fun _ => ?_))

theorem bookNewest_survives : Survives criticalSteps bookNewest := by
  unfold bookNewest consoleLog consoleErrorWith
  repeat' (first
    | exact survives_pure _ _
    | exact survives_emit _ _
    | exact survives_perform _ _ rfl
    | exact survives_getAllWindowHandles _ rfl
    | exact survives_getWindowHandle _ rfl
    | exact survives_takeScreenshot _ _ rfl rfl
    | exact survives_typeSlowly _ _ _ _ (fun _ => rfl) rfl
    | refine survives_tryCatchJs _ _ _ (fun _ => ?_)
    | refine survives_waitLocated_bind _ _ _ _ rfl ?_
    | refine survives_findElement_bind _ _ _ rfl ?_
    | refine survives_bind _ _ _ ?_ (fun _ => ?_))

theorem fillTravellerNewest_survives (q : Query) :
    Survives criticalSteps (fillTravellerNewest q) := by
  unfold fillTravellerNewest consoleLog consoleErrorWith
  repeat' (first
    | exact survives_pure _ _
    | exact survives_emit _ _
    | exact survives_perform _ _ rfl
    | exact survives_getAllWindowHandles _ rfl
    | exact survives_getWindowHandle _ rfl
    | exact survives_takeScreenshot _ _ rfl rfl
    | exact survives_typeSlowly _ _ _ _ (fun _ => rfl) rfl
    | refine survives_tryCatchJs _ _ _ (fun _ => ?_)
    | refine survives_waitLocated_bind _ _ _ _ rfl ?_
    | refine survives_findElement_bind _ _ _ rfl ?_
    | refine survives_bind _ _ _ ?_ (fun _ => ?_))

theorem paymentNewest_survives (q : Query) (h : truthy q.upiId = false) :
    Survives criticalSteps (paymentNewest q) := by
  unfold paymentNewest consoleLog
  simp only [h, Bool.false_eq_true, if_false]
  repeat' (first
    | exact survives_pure _ _
    | exact survives_emit _ _
    | exact survives_perform _ _ rfl
    | exact survives_getAllWindowHandles _ rfl
    | exact survives_getWindowHandle _ rfl
    | exact survives_takeScreenshot _ _ rfl rfl
    | exact survives_typeSlowly _ _ _ _ (fun _ => rfl) rfl
    | refine survives_tryCatchJs _ _ _ (fun _ => ?_)
    | refine survives_waitLocated_bind _ _ _ _ rfl ?_
    | refine survives_findElement_bind _ _ _ rfl ?_
    | refine survives_bind _ _ _ ?_ (fun _ => ?_))

theorem payPhase_survives (maxIterations : Nat) :
    Survives criticalSteps (payPhase maxIterations) := by
  intro w _ t
  obtain ⟨exit, h⟩ := payPhase_resolves maxIterations w t
  exact ⟨exit, (payPhase maxIterations w t).2, by rw [← h]⟩

theorem workflowNewest_survives (q : Query) (h : truthy q.upiId = false) :
    Survives criticalSteps (workflowNewest q) := by
  unfold workflowNewest consoleLog
  refine survives_bind _ _ _ openDetailNewest_survives (fun _ => ?_)
  refine survives_bind _ _ _ bookNewest_survives (fun _ => ?_)
  refine survives_bind _ _ _ (fillTravellerNewest_survives q) (fun _ => ?_)
  refine survives_bind _ _ _ (paymentNewest_survives q h) (fun _ => ?_)
  refine survives_bind _ _ _ (payPhase_survives _) (fun _ => ?_)
  repeat' (first
    | exact survives_pure _ _
    | exact survives_emit _ _
    | exact survives_perform _ _ rfl
    | exact survives_getAllWindowHandles _ rfl
    | exact survives_getWindowHandle _ rfl
    | exact survives_takeScreenshot _ _ rfl rfl
    | exact survives_typeSlowly _ _ _ _ (fun _ => rfl) rfl
    | refine survives_tryCatchJs _ _ _ (fun _ => ?_)
    | refine survives_waitLocated_bind _ _ _ _ rfl ?_
    | refine survives_findElement_bind _ _ _ rfl ?_
    | refine survives_bind _ _ _ ?_ (fun _ => ?_))

theorem openDetailApp1_survives : Survives criticalSteps openDetailApp1 := by
  unfold openDetailApp1 consoleLog
  repeat' (first
    | exact survives_pure _ _
    | exact survives_emit _ _
    | exact survives_perform _ _ rfl
    | exact survives_getAllWindowHandles _ rfl
    | exact survives_getWindowHandle _ rfl
    | exact survives_takeScreenshot _ _ rfl rfl
    | exact survives_typeSlowly _ _ _ _ (fun _ => rfl) rfl
    | refine survives_tryCatchJs _ _ _ (fun _ => ?_)
    | refine survives_waitLocated_bind _ _ _ _ rfl ?_
    | refine survives_findElement_bind _ _ _ rfl ?_
    | refine survives_bind _ _ _ ?_ (fun _ => ?_))

theorem bookApp1_survives : Survives criticalSteps bookApp1 := by
  unfold bookApp1 consoleLog consoleErrorWith
  repeat' (first
    | exact survives_pure _ _
    | exact survives_emit _ _
    | exact survives_perform _ _ rfl
    | exact survives_getAllWindowHandles _ rfl
    | exact survives_getWindowHandle _ rfl
    | exact survives_takeScreenshot _ _ rfl rfl
    | exact survives_typeSlowly _ _ _ _ (fun _ => rfl) rfl
    | refine survives_tryCatchJs _ _ _ (fun _ => ?_)
    | refine survives_waitLocated_bind _ _ _ _ rfl ?_
    | refine survives_findElement_bind _ _ _ rfl ?_
    | refine survives_bind _ _ _ ?_ (fun _ => ?_))

theorem fillTravellerApp1_survives (q : Query) :
    Survives criticalSteps (fillTravellerApp1 q) := by
  unfold fillTravellerApp1 consoleLog consoleErrorWith
  repeat' (first
    | exact survives_pure _ _
    | exact survives_emit _ _
    | exact survives_perform _ _ rfl
    | exact survives_getAllWindowHandles _ rfl
    | exact survives_getWindowHandle _ rfl
    | exact survives_takeScreenshot _ _ rfl rfl
    | exact survives_typeSlowly _ _ _ _ (fun _ => rfl) rfl
    | refine survives_tryCatchJs _ _ _ (fun _ => ?_)
    | refine survives_waitLocated_bind _ _ _ _ rfl ?_
    | refine survives_findElement_bind _ _ _ rfl ?_
    | refine survives_bind _ _ _ ?_ (fun _ => ?_))

theorem paymentApp1_survives (q : Query) (h : truthy q.upiId = false) :
    Survives criticalSteps (paymentApp1 q) := by
  unfold paymentApp1 consoleLog
  simp only [h, Bool.false_eq_true, if_false]
  repeat' (first
    | exact survives_pure _ _
    | exact survives_emit _ _
    | exact survives_perform _ _ rfl
    | exact survives_getAllWindowHandles _ rfl
    | exact survives_getWindowHandle _ rfl
    | exact survives_takeScreenshot _ _ rfl rfl
    | exact survives_typeSlowly _ _ _ _ (fun _ => rfl) rfl
    | refine survives_tryCatchJs _ _ _ (fun _ => ?_)
    | refine survives_waitLocated_bind _ _ _ _ rfl ?_
    | refine survives_findElement_bind _ _ _ rfl ?_
    | refine survives_bind _ _ _ ?_ (fun _ => ?_))

theorem finalPayApp1_survives : Survives criticalSteps finalPayApp1 := by
  unfold finalPayApp1 consoleLog consoleErrorWith
  repeat' (first
    | exact survives_pure _ _
    | exact survives_emit _ _
    | exact survives_perform _ _ rfl
    | exact survives_getAllWindowHandles _ rfl
    | exact survives_getWindowHandle _ rfl
    | exact survives_takeScreenshot _ _ rfl rfl
    | exact survives_typeSlowly _ _ _ _ (fun _ => rfl) rfl
    | refine survives_tryCatchJs _ _ _ (fun _ => ?_)
    | refine survives_waitLocated_bind _ _ _ _ rfl ?_
    | refine survives_findElement_bind _ _ _ rfl ?_
    | refine survives_bind _ _ _ ?_ (fun _ => ?_))

theorem workflowApp1_survives (q : Query) (h : truthy q.upiId = false) :
    Survives criticalSteps (workflowApp1 q) := by
  unfold workflowApp1 consoleLog
  refine survives_bind _ _ _ openDetailApp1_survives (fun _ => ?_)
  refine survives_bind _ _ _ bookApp1_survives (fun _ => ?_)
  refine survives_bind _ _ _ (fillTravellerApp1_survives q) (fun _ => ?_)
  refine survives_bind _ _ _ (paymentApp1_survives q h) (fun _ => ?_)
  refine survives_bind _ _ _ finalPayApp1_survives (fun _ => ?_)
  repeat' (first
    | exact survives_pure _ _
    | exact survives_emit _ _
    | exact survives_perform _ _ rfl
    | exact survives_getAllWindowHandles _ rfl
    | exact survives_getWindowHandle _ rfl
    | exact survives_takeScreenshot _ _ rfl rfl
    | exact survives_typeSlowly _ _ _ _ (fun _ => rfl) rfl
    | refine survives_tryCatchJs _ _ _ (fun _ => ?_)
    | refine survives_waitLocated_bind _ _ _ _ rfl ?_
    | refine survives_findElement_bind _ _ _ rfl ?_
    | refine survives_bind _ _ _ ?_ (fun _ => ?_))

/-! ## Reaching the final pay phase -/

theorem mem_of_calls {α : Type} (p : Op → Bool) (m : M α) (h : Calls p m) (w : World)
    (t : List Event) (e : Event) (he : e ∈ t) : e ∈ (m w t).2 := by
  obtain ⟨added, h1, _⟩ := h w t
  rw [h1]
  exact List.mem_append_left _ he

theorem marks_bind_right {α β : Type} (e : Event) (m : M α) (f : α → M β)
    (h : ∀ a, Marks e (f a)) : Marks e (m >>= f) := by
  intro w t b t2 hb
  obtain ⟨a, t1, _, h2⟩ := bind_ok_inv m f w t t2 b hb
  exact h a w t1 b t2 h2

theorem marks_bind_left {α β : Type} (e : Event) (p : Op → Bool) (m : M α) (f : α → M β)
    (hm : Marks e m) (hf : ∀ a, Calls p (f a)) : Marks e (m >>= f) := by
  intro w t b t2 hb
  obtain ⟨a, t1, h1, h2⟩ := bind_ok_inv m f w t t2 b hb
  have := mem_of_calls p (f a) (hf a) w t1 e (hm w t a t1 h1)
  rw [h2] at this
  exact this

theorem marks_emit_bind {β : Type} (e : Event) (p : Op → Bool) (f : Unit → M β)
    (hf : ∀ a, Calls p (f a)) : Marks e (emit e >>= f) :=
  marks_bind_left e p _ _ (fun _ t _ _ h => by
    rw [emit_run] at h
    rw [← (Prod.mk.inj h).2]
    simp) hf

/-- When the loop phase of newest.js has run, its opening line is in the history. -/
theorem payPhase_marks (maxIterations : Nat) : Marks loopStartLine (payPhase maxIterations) := by
  unfold payPhase consoleLog consoleWarn
  refine marks_emit_bind _ benign _ (fun _ => ?_)
  refine calls_bind _ _ _ (payLoop_calls _ _ _ _) (fun r => ?_)
  split
  · exact calls_bind _ _ _ (calls_console _ _ _ _)
      (fun _ => calls_bind _ _ _ (calls_console _ _ _ _) (fun _ => calls_pure _ _))
  · exact calls_bind _ _ _ (calls_pure _ _)
      (fun _ => calls_bind _ _ _ (calls_console _ _ _ _) (fun _ => calls_pure _ _))

theorem workflowNewest_marks (q : Query) : Marks loopStartLine (workflowNewest q) := by
  unfold workflowNewest consoleLog
  refine marks_bind_right _ _ _ (fun _ => ?_)
  refine marks_bind_right _ _ _ (fun _ => ?_)
  refine marks_bind_right _ _ _ (fun _ => ?_)
  refine marks_bind_right _ _ _ (fun _ => ?_)
  refine marks_bind_left _ (fun _ => true) _ _ (payPhase_marks _) (fun _ => ?_)
  repeat' (first
    | exact calls_pure _ _
    | exact calls_console _ _ _ _
    | exact calls_perform _ _ rfl
    | exact calls_takeScreenshot _ _ rfl rfl
    | refine calls_bind _ _ _ ?_ (fun _ => ?_))

theorem finalPayApp1_marks : Marks finalPayLine finalPayApp1 := by
  unfold finalPayApp1 consoleLog consoleErrorWith otpModalCss
  refine marks_emit_bind _ benign _ (fun _ => ?_)
  repeat' (first
    | exact calls_pure _ _
    | exact calls_console _ _ _ _
    | exact calls_perform _ _ rfl
    | refine calls_waitLocated_bind _ _ _ _ rfl ?_
    | refine calls_bind _ _ _ ?_ (fun _ => ?_)
    | refine calls_tryCatchJs _ _ _ ?_ (fun _ => ?_))

theorem workflowApp1_marks (q : Query) : Marks finalPayLine (workflowApp1 q) := by
  unfold workflowApp1 consoleLog
  refine marks_bind_right _ _ _ (fun _ => ?_)
  refine marks_bind_right _ _ _ (fun _ => ?_)
  refine marks_bind_right _ _ _ (fun _ => ?_)
  refine marks_bind_right _ _ _ (fun _ => ?_)
  refine marks_bind_left _ (fun _ => true) _ _ finalPayApp1_marks (fun _ => ?_)
  repeat' (first
    | exact calls_pure _ _
    | exact calls_console _ _ _ _
    | exact calls_perform _ _ rfl
    | exact calls_takeScreenshot _ _ rfl rfl
    | refine calls_bind _ _ _ ?_ (fun _ => ?_))

/-! ## What is typed into `#inputVpa` -/

theorem typedInto_append (element : String) (a b : List Event) :
    typedInto element (a ++ b) = typedInto element a ++ typedInto element b := by
  induction a with
  | nil => rfl
  | cons e a ih =>
    cases e with
    | op o =>
      cases o <;> simp only [List.cons_append, typedInto, List.append_eq, ih]
      split <;> simp
    | console _ _ _ => simp only [List.cons_append, typedInto, List.append_eq, ih]
    | retryNotice _ => simp only [List.cons_append, typedInto, List.append_eq, ih]
    | timeout _ => simp only [List.cons_append, typedInto, List.append_eq, ih]

theorem typedInto_nil (l : List Event)
    (h : ∀ o, Event.op o ∈ l → typesNothing o = true) : typedInto "#inputVpa" l = [] := by
  induction l with
  | nil => rfl
  | cons e l ih =>
    have ih2 := ih (fun o ho => h o (List.mem_cons_of_mem _ ho))
    cases e with
    | op o =>
      have ho := h o (List.mem_cons_self _ _)
      cases o <;> simp only [typedInto, ih2]
      simp only [typesNothing, Bool.not_eq_true', beq_eq_false_iff_ne, ne_eq] at ho
      rw [if_neg ho]
    | console _ _ _ => simp only [typedInto, ih2]
    | retryNotice _ => simp only [typedInto, ih2]
    | timeout _ => simp only [typedInto, ih2]

theorem typesNothing_of_benign (o : Op) (h : benign o = true) : typesNothing o = true := by
  cases o <;> simp_all [benign, typesNothing, touchesVpa, isQuit]

theorem types_of_calls {α : Type} (m : M α) (h : Calls typesNothing m) : Types [] m := by
  intro w t a t1 hr
  obtain ⟨added, h1, h2⟩ := h w t
  rw [hr] at h1
  exact ⟨added, h1, typedInto_nil added h2⟩

theorem types_bind_left_nil {α β : Type} (cs : List Char) (m : M α) (f : α → M β)
    (hm : Calls typesNothing m) (hf : ∀ a, Types cs (f a)) : Types cs (m >>= f) := by
  intro w t b t2 hb
  obtain ⟨a, t1, h1, h2⟩ := bind_ok_inv m f w t t2 b hb
  obtain ⟨a1, e1, c1⟩ := types_of_calls m hm w t a t1 h1
  obtain ⟨a2, e2, c2⟩ := hf a w t1 b t2 h2
  refine ⟨a1 ++ a2, by rw [e2, e1, List.append_assoc], ?_⟩
  rw [typedInto_append, c1, c2]
  rfl

theorem types_bind_right_nil {α β : Type} (cs : List Char) (m : M α) (f : α → M β)
    (hm : Types cs m) (hf : ∀ a, Calls typesNothing (f a)) : Types cs (m >>= f) := by
  intro w t b t2 hb
  obtain ⟨a, t1, h1, h2⟩ := bind_ok_inv m f w t t2 b hb
  obtain ⟨a1, e1, c1⟩ := hm w t a t1 h1
  obtain ⟨a2, e2, c2⟩ := types_of_calls (f a) (hf a) w t1 b t2 h2
  refine ⟨a1 ++ a2, by rw [e2, e1, List.append_assoc], ?_⟩
  rw [typedInto_append, c1, c2, List.append_nil]

theorem types_waitLocated_bind {β : Type} (cs : List Char) (css : String) (ms : Nat)
    (f : String → M β) (hf : Types cs (f css)) : Types cs (waitLocated css ms >>= f) := by
  have : waitLocated css ms >>= f = perform (.waitLocated css ms) >>= fun _ => f css := by
    funext w t
    simp only [waitLocated, bind_run, perform_run]
    cases w.answer t (Op.waitLocated css ms) <;> rfl
  rw [this]
  exact types_bind_left_nil cs _ _ (calls_perform _ _ rfl) (fun _ => hf)

theorem types_findElement_bind {β : Type} (cs : List Char) (by_ : String)
    (f : String → M β) (hf : Types cs (f by_)) : Types cs (findElement by_ >>= f) := by
  have : findElement by_ >>= f = perform (.findElement by_) >>= fun _ => f by_ := by
    funext w t
    simp only [findElement, bind_run, perform_run]
    cases w.answer t (Op.findElement by_) <;> rfl
  rw [this]
  exact types_bind_left_nil cs _ _ (calls_perform _ _ rfl) (fun _ => hf)

theorem types_sendKeys (text : String) :
    Types text.toList (perform (.sendKeys "#inputVpa" text)) := by
  intro w t a t1 h
  rw [perform_run] at h
  exact ⟨[Event.op (.sendKeys "#inputVpa" text)], (Prod.mk.inj h).2.symm, by
    simp [typedInto]⟩

theorem types_typeChars (delayMs : Nat) :
    ∀ cs, Types cs (typeChars "#inputVpa" delayMs cs) := by
  intro cs
  induction cs with
  | nil => exact types_of_calls _ (calls_pure _ _)
  | cons c cs ih =>
    unfold typeChars
    intro w t b t2 hb
    obtain ⟨_, t1, h1, h2⟩ := bind_ok_inv _ _ w t t2 b hb
    obtain ⟨_, t3, h3, h4⟩ := bind_ok_inv _ _ w t1 t2 b h2
    obtain ⟨a2, e2, c2⟩ := ih w t3 b t2 h4
    rw [perform_run] at h1 h3
    have e1 : t1 = t ++ [Event.op (.sendKeys "#inputVpa" (String.singleton c))] :=
      (Prod.mk.inj h1).2.symm
    have e3 : t3 = t1 ++ [Event.op (.sleep delayMs)] := (Prod.mk.inj h3).2.symm
    refine ⟨[Event.op (.sendKeys "#inputVpa" (String.singleton c)), Event.op (.sleep delayMs)]
      ++ a2, by rw [e2, e3, e1]; simp, ?_⟩
    rw [typedInto_append, c2]
    simp [typedInto, String.singleton]

theorem types_typeSlowly (text : String) (delayMs : Nat) :
    Types text.toList (typeSlowly "#inputVpa" text delayMs) :=
  types_typeChars delayMs _

/-- With a non-empty `upiId`, the payment step of newest.js, when it goes
through, has typed exactly the characters of `upiId` into `#inputVpa`. -/
theorem paymentNewest_types (q : Query) (upiId : String) (h : q.upiId = some upiId)
    (hne : upiId ≠ "") : Types upiId.toList (paymentNewest q) := by
  have ht : truthy q.upiId = true := by simp [h, truthy, hne]
  have hx : textOf q.upiId = upiId := by simp [h, textOf]
  unfold paymentNewest consoleLog
  simp only [ht, if_true, hx]
  repeat' (first
    | exact calls_pure _ _
    | exact calls_console _ _ _ _
    | exact calls_perform _ _ rfl
    | exact calls_takeScreenshot _ _ rfl rfl
    | refine types_bind_right_nil _ _ _ (types_typeSlowly _ _) (fun _ => ?_)
    | refine types_bind_right_nil _ _ _ (types_sendKeys _) (fun _ => ?_)
    | refine types_waitLocated_bind _ _ _ _ ?_
    | refine types_findElement_bind _ _ _ ?_
    | refine types_bind_left_nil _ _ _ ?_ (fun _ => ?_)
    | refine calls_bind _ _ _ ?_ (fun _ => ?_))

/-- With a non-empty `upiId`, the payment step of app1.js, when it goes
through, has typed exactly `upiId` into `#inputVpa`. -/
theorem paymentApp1_types (q : Query) (upiId : String) (h : q.upiId = some upiId)
    (hne : upiId ≠ "") : Types upiId.toList (paymentApp1 q) := by
  have ht : truthy q.upiId = true := by simp [h, truthy, hne]
  have hx : textOf q.upiId = upiId := by simp [h, textOf]
  unfold paymentApp1 consoleLog
  simp only [ht, if_true, hx]
  repeat' (first
    | exact calls_pure _ _
    | exact calls_console _ _ _ _
    | exact calls_perform _ _ rfl
    | exact calls_takeScreenshot _ _ rfl rfl
    | refine types_bind_right_nil _ _ _ (types_typeSlowly _ _) (fun _ => ?_)
    | refine types_bind_right_nil _ _ _ (types_sendKeys _) (fun _ => ?_)
    | refine types_waitLocated_bind _ _ _ _ ?_
    | refine types_findElement_bind _ _ _ ?_
    | refine types_bind_left_nil _ _ _ ?_ (fun _ => ?_)
    | refine calls_bind _ _ _ ?_ (fun _ => ?_))

/-! ## C14: the UPI step -/

theorem sparesVpa_of_benign (o : Op) (h : benign o = true) : sparesVpa o = true := by
  simp only [benign, Bool.and_eq_true] at h
  exact h.2

theorem launch_calls : Calls benign launch := by
  unfold launch consoleLog
  exact calls_bind _ _ _ (calls_console _ _ _ _)
    (fun _ => calls_bind _ _ _ (calls_perform _ _ rfl) (fun _ => calls_console _ _ _ _))

theorem catchScrape_calls (driver : Bool) (error : JsError) :
    Calls sparesVpa (catchScrape driver error) := by
  intro w t
  cases driver
  · refine ⟨[Event.console .error "Error during scraping and booking:" (some error)], rfl, ?_⟩
    intro o ho
    simp at ho
  · rw [catchScrape_true_run]
    refine ⟨_, rfl, ?_⟩
    intro o ho
    simp only [List.mem_cons, List.mem_singleton, Event.op.injEq, List.not_mem_nil,
      or_false, false_or, reduceCtorEq] at ho
    rw [ho]
    rfl

theorem workflowNewest_calls_skip (q : Query) (h : truthy q.upiId = false) :
    Calls sparesVpa (workflowNewest q) := by
  unfold workflowNewest consoleLog
  refine calls_bind _ _ _ (calls_mono _ _ _ openDetailNewest_calls sparesVpa_of_benign)
    (fun _ => ?_)
  refine calls_bind _ _ _ (calls_mono _ _ _ bookNewest_calls sparesVpa_of_benign) (fun _ => ?_)
  refine calls_bind _ _ _ (calls_mono _ _ _ (fillTravellerNewest_calls q) sparesVpa_of_benign)
    (fun _ => ?_)
  refine calls_bind _ _ _ (calls_mono _ _ _ (paymentNewest_calls_skip q h) sparesVpa_of_benign)
    (fun _ => ?_)
  refine calls_bind _ _ _ (calls_mono _ _ _ (payPhase_calls _) sparesVpa_of_benign)
    (fun _ => ?_)
  repeat' (first
    | exact calls_pure _ _
    | exact calls_console _ _ _ _
    | exact calls_perform _ _ rfl
    | refine calls_bind _ _ _ ?_ (fun _ => ?_))

theorem workflowApp1_calls_skip (q : Query) (h : truthy q.upiId = false) :
    Calls sparesVpa (workflowApp1 q) := by
  unfold workflowApp1 consoleLog
  refine calls_bind _ _ _ (calls_mono _ _ _ openDetailApp1_calls sparesVpa_of_benign)
    (fun _ => ?_)
  refine calls_bind _ _ _ (calls_mono _ _ _ bookApp1_calls sparesVpa_of_benign) (fun _ => ?_)
  refine calls_bind _ _ _ (calls_mono _ _ _ (fillTravellerApp1_calls q) sparesVpa_of_benign)
    (fun _ => ?_)
  refine calls_bind _ _ _ (calls_mono _ _ _ (paymentApp1_calls_skip q h) sparesVpa_of_benign)
    (fun _ => ?_)
  refine calls_bind _ _ _ (calls_mono _ _ _ finalPayApp1_calls sparesVpa_of_benign)
    (fun _ => ?_)
  repeat' (first
    | exact calls_pure _ _
    | exact calls_console _ _ _ _
    | exact calls_perform _ _ rfl
    | refine calls_bind _ _ _ ?_ (fun _ => ?_))

/-- The guarded `try` block makes no call that its parts do not make. -/
theorem guarded_calls (workflow : M Response) (hw : Calls sparesVpa workflow) :
    Calls sparesVpa
      (tryCatchJs (do launch; tryCatchJs workflow (catchScrape true)) (catchScrape false)) :=
  calls_tryCatchJs _ _ _
    (calls_bind _ _ _ (calls_mono _ _ _ launch_calls sparesVpa_of_benign)
      (fun _ => calls_tryCatchJs _ _ _ hw (catchScrape_calls true)))
    (catchScrape_calls false)

theorem workflowNewest_types (q : Query) (upiId : String) (h : q.upiId = some upiId)
    (hne : upiId ≠ "") : Types upiId.toList (workflowNewest q) := by
  unfold workflowNewest consoleLog
  refine types_bind_left_nil _ _ _
    (calls_mono _ _ _ openDetailNewest_calls typesNothing_of_benign) (fun _ => ?_)
  refine types_bind_left_nil _ _ _
    (calls_mono _ _ _ bookNewest_calls typesNothing_of_benign) (fun _ => ?_)
  refine types_bind_left_nil _ _ _
    (calls_mono _ _ _ (fillTravellerNewest_calls q) typesNothing_of_benign) (fun _ => ?_)
  refine types_bind_right_nil _ _ _ (paymentNewest_types q upiId h hne) (fun _ => ?_)
  refine calls_bind _ _ _ (calls_mono _ _ _ (payPhase_calls _) typesNothing_of_benign)
    (fun _ => ?_)
  repeat' (first
    | exact calls_pure _ _
    | exact calls_console _ _ _ _
    | exact calls_perform _ _ rfl
    | refine calls_bind _ _ _ ?_ (fun _ => ?_))

theorem workflowApp1_types (q : Query) (upiId : String) (h : q.upiId = some upiId)
    (hne : upiId ≠ "") : Types upiId.toList (workflowApp1 q) := by
  unfold workflowApp1 consoleLog
  refine types_bind_left_nil _ _ _
    (calls_mono _ _ _ openDetailApp1_calls typesNothing_of_benign) (fun _ => ?_)
  refine types_bind_left_nil _ _ _
    (calls_mono _ _ _ bookApp1_calls typesNothing_of_benign) (fun _ => ?_)
  refine types_bind_left_nil _ _ _
    (calls_mono _ _ _ (fillTravellerApp1_calls q) typesNothing_of_benign) (fun _ => ?_)
  refine types_bind_right_nil _ _ _ (paymentApp1_types q upiId h hne) (fun _ => ?_)
  refine calls_bind _ _ _ (calls_mono _ _ _ finalPayApp1_calls typesNothing_of_benign)
    (fun _ => ?_)
  repeat' (first
    | exact calls_pure _ _
    | exact calls_console _ _ _ _
    | exact calls_perform _ _ rfl
    | refine calls_bind _ _ _ ?_ (fun _ => ?_))

/-- A guarded `try` block that answers 200 is one whose block resolved, and its
history is the history of the block. -/
theorem guarded_run_200 (workflow : M Response) (okBody : String)
    (hret : Returns (fun r => r = ⟨200, okBody⟩) workflow) (w : World) (t : List Event)
    (r : Response)
    (h : (tryCatchJs (do launch; tryCatchJs workflow (catchScrape true))
      (catchScrape false) w t).1 = .ok r) (h200 : r.status = 200) :
    ∃ t1, (launch >>= fun _ => workflow) w t = (.ok r, t1) ∧
      tryCatchJs (do launch; tryCatchJs workflow (catchScrape true)) (catchScrape false) w t =
        (.ok r, t1) := by
  have g := guarded_run workflow okBody hret w t
  cases hb : (launch >>= fun _ => workflow) w t with
  | mk res t1 =>
    cases res with
    | error e =>
      have := g.1 e t1 hb
      rw [h] at this
      cases this
      cases h200
    | ok r2 =>
      obtain ⟨_, tl, _, hw2⟩ := bind_ok_inv _ _ w t t1 r2 hb
      have hr2 := hret w tl r2 t1 hw2
      subst hr2
      have h2 := g.2 _ t1 hb
      rw [h2] at h
      cases h
      exact ⟨t1, rfl, h2⟩

/-- A guarded `try` block whose workflow types `cs` into `#inputVpa` has, when
it answers 200 from a history without typing, typed exactly `cs`. -/
theorem guarded_types (workflow : M Response) (okBody : String) (cs : List Char)
    (hret : Returns (fun r => r = ⟨200, okBody⟩) workflow) (htypes : Types cs workflow)
    (w : World) (r : Response)
    (h : (tryCatchJs (do launch; tryCatchJs workflow (catchScrape true))
      (catchScrape false) w enteredHistory).1 = .ok r) (h200 : r.status = 200) :
    typedInto "#inputVpa" (tryCatchJs (do launch; tryCatchJs workflow (catchScrape true))
      (catchScrape false) w enteredHistory).2 = cs := by
  obtain ⟨t1, hb, hrun⟩ := guarded_run_200 workflow okBody hret w enteredHistory r h h200
  have ht : Types cs (launch >>= fun _ => workflow) :=
    types_bind_left_nil _ _ _ (calls_mono _ _ _ launch_calls typesNothing_of_benign)
      (fun _ => htypes)
  obtain ⟨added, e1, c1⟩ := ht w enteredHistory r t1 hb
  rw [hrun, e1, typedInto_append, c1]
  rfl

/-- A guarded `try` block whose workflow survives answers 200 in every world
that obeys the critical calls, and its history is marked by what the workflow
marks. -/
theorem guarded_survives (workflow : M Response) (okBody : String) (e : Event)
    (hret : Returns (fun r => r = ⟨200, okBody⟩) workflow)
    (hs : Survives criticalSteps workflow) (hm : Marks e workflow)
    (w : World) (hw : Obeys criticalSteps w) (t : List Event) :
    (tryCatchJs (do launch; tryCatchJs workflow (catchScrape true))
        (catchScrape false) w t).1 = .ok ⟨200, okBody⟩ ∧
      e ∈ (tryCatchJs (do launch; tryCatchJs workflow (catchScrape true))
        (catchScrape false) w t).2 := by
  obtain ⟨_, tl, hl⟩ := launch_survives w hw t
  obtain ⟨r, t1, hr⟩ := hs w hw tl
  have hmem := hm w tl r t1 hr
  have hb : (launch >>= fun _ => workflow) w t = (.ok r, t1) := by
    rw [bind_run, hl]
    exact hr
  rw [(guarded_run workflow okBody hret w t).2 r t1 hb]
  exact ⟨rfl, hmem⟩

/-- None of the critical calls concerns `#inputVpa`. -/
theorem critical_spares_vpa (o : Op) (h : criticalSteps o = true) : touchesVpa o = false := by
  cases o <;> simp_all [criticalSteps, touchesVpa]
  all_goals
    intro hc
    subst hc
    simp at h

theorem truthy_false_of_absentOrEmpty (p : Option String) (h : absentOrEmpty p) :
    truthy p = false := (truthy_eq_false_iff p).mpr h

/-- C14: for every valid input whose upiId is absent or empty, in both
handlers, no call waits for, locates or types into #inputVpa, whatever the
page does; and in every world in which the calls outside the local try
bodies succeed (none of them concerns #inputVpa) the run reaches the final
pay phase and the answer is 200. For a non-empty upiId, the payment step,
whenever it goes through, has typed exactly the characters of upiId into
#inputVpa, and so has every run that answers 200. -/
theorem upi_step (q : Query) (w : World) (hq : ¬ lacksRequired q) :
    (absentOrEmpty q.upiId →
      ((∀ o, Event.op o ∈ (scrapeNewest q w []).2 → touchesVpa o = false) ∧
        (∀ o, Event.op o ∈ (scrapeApp1 q w []).2 → touchesVpa o = false)) ∧
      (Obeys criticalSteps w →
        ((scrapeNewest q w []).1 = .ok ⟨200, successMessageNewest⟩ ∧
          loopStartLine ∈ (scrapeNewest q w []).2) ∧
        ((scrapeApp1 q w []).1 = .ok ⟨200, successMessageApp1⟩ ∧
          finalPayLine ∈ (scrapeApp1 q w []).2)) ∧
      (∀ o, criticalSteps o = true → touchesVpa o = false)) ∧
    (∀ upiId, q.upiId = some upiId → upiId ≠ "" →
      Types upiId.toList (paymentNewest q) ∧ Types upiId.toList (paymentApp1 q) ∧
      (∀ r, (scrapeNewest q w []).1 = .ok r → r.status = 200 →
        typedInto "#inputVpa" (scrapeNewest q w []).2 = upiId.toList) ∧
      (∀ r, (scrapeApp1 q w []).1 = .ok r → r.status = 200 →
        typedInto "#inputVpa" (scrapeApp1 q w []).2 = upiId.toList)) := by
  obtain ⟨hn, ha⟩ := scrape_valid_run q w hq
  constructor
  · intro habs
    have hf := truthy_false_of_absentOrEmpty _ habs
    refine ⟨⟨?_, ?_⟩, ?_, ?_⟩
    · intro o ho
      obtain ⟨added, h1, h2⟩ := guarded_calls _ (workflowNewest_calls_skip q hf) w enteredHistory
      rw [hn, h1] at ho
      rcases List.mem_append.mp ho with h | h
      · simp [enteredHistory] at h
      · have := h2 o h
        simpa [sparesVpa] using this
    · intro o ho
      obtain ⟨added, h1, h2⟩ := guarded_calls _ (workflowApp1_calls_skip q hf) w enteredHistory
      rw [ha, h1] at ho
      rcases List.mem_append.mp ho with h | h
      · simp [enteredHistory] at h
      · have := h2 o h
        simpa [sparesVpa] using this
    · intro hw
      rw [hn, ha]
      exact ⟨guarded_survives _ _ _ (workflowNewest_returns q) (workflowNewest_survives q hf)
          (workflowNewest_marks q) w hw _,
        guarded_survives _ _ _ (workflowApp1_returns q) (workflowApp1_survives q hf)
          (workflowApp1_marks q) w hw _⟩
    · exact critical_spares_vpa
  · intro upiId hu hne
    refine ⟨paymentNewest_types q upiId hu hne, paymentApp1_types q upiId hu hne, ?_, ?_⟩
    · intro r hr h200
      rw [hn] at hr ⊢
      exact guarded_types _ _ _ (workflowNewest_returns q) (workflowNewest_types q upiId hu hne)
        w r hr h200
    · intro r hr h200
      rw [ha] at hr ⊢
      exact guarded_types _ _ _ (workflowApp1_returns q) (workflowApp1_types q upiId hu hne)
        w r hr h200

/-- C14 at concrete inputs, every call succeeding: without `upiId` no call
touches `#inputVpa`, the final pay phase is reached and the answer is 200; with
the upiId "a@upi" both handlers type exactly "a@upi" into `#inputVpa`. -/
theorem upi_step_witness :
    ((∀ o, Event.op o ∈ (scrapeNewest sampleQuery calmWorld []).2 → touchesVpa o = false) ∧
      (∀ o, Event.op o ∈ (scrapeApp1 sampleQuery calmWorld []).2 → touchesVpa o = false)) ∧
    (((scrapeNewest sampleQuery calmWorld []).1 = .ok ⟨200, successMessageNewest⟩ ∧
        loopStartLine ∈ (scrapeNewest sampleQuery calmWorld []).2) ∧
      ((scrapeApp1 sampleQuery calmWorld []).1 = .ok ⟨200, successMessageApp1⟩ ∧
        finalPayLine ∈ (scrapeApp1 sampleQuery calmWorld []).2)) ∧
    typedInto "#inputVpa" (scrapeNewest upiQuery calmWorld []).2 = "a@upi".toList ∧
    typedInto "#inputVpa" (scrapeApp1 upiQuery calmWorld []).2 = "a@upi".toList :=
  ⟨((upi_step sampleQuery calmWorld
      (by simp [lacksRequired, absentOrEmpty, sampleQuery])).1 (Or.inl rfl)).1,
    ((upi_step sampleQuery calmWorld
      (by simp [lacksRequired, absentOrEmpty, sampleQuery])).1 (Or.inl rfl)).2.1
      (fun _ _ _ => ⟨.undefined, rfl⟩),
    ((upi_step upiQuery calmWorld
      (by simp [lacksRequired, absentOrEmpty, upiQuery])).2 "a@upi" rfl (by decide)).2.2.1
      ⟨200, successMessageNewest⟩ rfl rfl,
    ((upi_step upiQuery calmWorld
      (by simp [lacksRequired, absentOrEmpty, upiQuery])).2 "a@upi" rfl (by decide)).2.2.2
      ⟨200, successMessageApp1⟩ rfl rfl⟩

end MakeMyTrip
